import Mathlib

/-!
# Pomodoro timer (`script.js`): shallow embedding of the `PomodoroTimer` class

The class keeps its state in fields of `this`, in the page (DOM text of a few
elements), in `localStorage` and in the browser's timer queue.  All of it is
gathered in one record `State`; every method becomes a function `State → State`.

Conventions of the embedding:

* JavaScript numbers held by the timer are `JSNum`: `NaN` (what `parseInt`
  returns for text without digits) or a double that holds an integer, kept as
  that integer; `null` is the third value, which a number slot of the settings
  holds after a snapshot with a `NaN` duration is read back.  Arithmetic rounds
  as doubles do (`roundDouble`): it is exact up to 2^53 in magnitude and
  rounds to 53 significant bits, ties to even, beyond.
* `Infinity` and `-Infinity` are kept as the integers 2^1024 and -2^1024, the
  values that the rounding of an overflowing result arrives at; every
  operation treats a magnitude of 2^1024 or more as infinite (`isInfinite`).
* `new Date().toDateString()` is an input of the environment: methods that read
  the clock take the current date string `today` as an argument.
* `parseInt(input.value)` is an input of the environment as well:
  `applySettings` takes the three parsed numbers as arguments.
* `setInterval` / `clearInterval` act on `active`, the list of identifiers of
  the periodic sources that are currently scheduled; identifiers are handed out
  from `nextId`.
* `localStorage` items are kept as the records that `JSON.parse` gives back.
* `progressFill.style.width` is kept as the exact rational percentage last
  accepted by the style object, `none` while no width has been set; a value
  that is no valid CSS width (`NaN%`, an infinity, a negative percentage) is
  dropped by the assignment and the earlier width stays.
* `completedAt` is a ghost field, absent from the source: `completeSession`
  appends the value of `timeLeft` it was entered with.
-/

namespace PomodoroTimer

/-- Values of the number slots of the script: `NaN`, a double holding the
integer `i`, or `null` (only in settings read back from a stored snapshot). -/
inductive JSNum where
  | nan : JSNum
  | num (i : Int) : JSNum
  | null : JSNum
deriving DecidableEq, Repr

/-- Number of halvings after which `m` drops below 2^53; `fuel` bounds the
search and `m` itself is always enough. -/
def shiftOf : Nat → Nat → Nat
  | 0, _ => 0
  | fuel + 1, m => if m < 9007199254740992 then 0 else shiftOf fuel (m / 2) + 1

/-- Rounding of a quotient `q` with remainder `r` of a division by `den` to
the nearest integer, ties to the even one. -/
def nearestEven (q r den : Nat) : Nat :=
  if 2 * r < den then q else if den < 2 * r then q + 1 else q + q % 2

/-- The double nearest to the natural number `m`, ties to the even
significand, with no limit on the exponent: `m` itself up to 2^53, else `m`
rounded to 53 significant bits. -/
def roundNat (m : Nat) : Nat :=
  if m ≤ 9007199254740992 then m
  else
    nearestEven (m / 2 ^ shiftOf m m) (m % 2 ^ shiftOf m m) (2 ^ shiftOf m m) * 2 ^ shiftOf m m

/-- The number 2^1024, the least magnitude that is no finite double; the
infinities are kept as this number and its negative. -/
def doubleLimit : Nat :=
  179769313486231590772930519078902473361797697894230657273430081157732675805500963132708477322407536021120113879871393357658789768814416622492847430639474124377767893424865485276302219601246094119453082952085005768838150682342462881473913110540827237163350510684586298239947245938479716304835356329624224137216

/-- Result of a double operation whose exact result is the integer `n`: the
double nearest to `n`, and an infinity, kept as 2^1024 in magnitude, where
that rounding reaches 2^1024. -/
def roundDouble (n : Int) : Int :=
  if n < 0 then -((min (roundNat n.natAbs) doubleLimit : Nat) : Int)
  else ((min (roundNat n.natAbs) doubleLimit : Nat) : Int)

/-- A natural number that a double can hold: at most 53 significant bits. -/
def IsDouble (y : Nat) : Prop := ∃ k e : Nat, k < 9007199254740992 ∧ y = k * 2 ^ e

/-- Number of doublings after which `p / d` reaches 2^52. -/
def upShift : Nat → Nat → Nat → Nat
  | 0, _, _ => 0
  | fuel + 1, p, d => if 4503599627370496 ≤ p / d then 0 else upShift fuel (2 * p) d + 1

/-- The double nearest to `p / d`, for `p ≥ d > 0`, as a numerator over a power
of two: the pair `(a, k)` stands for `a / 2 ^ k`. -/
def quotDouble (p d : Nat) : Nat × Nat :=
  if 9007199254740992 ≤ p / d then
    (nearestEven (p / (d * 2 ^ shiftOf (p / d) (p / d))) (p % (d * 2 ^ shiftOf (p / d) (p / d)))
        (d * 2 ^ shiftOf (p / d) (p / d)) * 2 ^ shiftOf (p / d) (p / d), 0)
  else
    (nearestEven (p * 2 ^ upShift 64 p d / d) (p * 2 ^ upShift 64 p d % d) d, upShift 64 p d)

/-- Value of `Math.floor(a / 60)` on a double holding the integer `a`: the
floor of the double nearest to the quotient. Up to 2^53 in magnitude that is
the floor of the exact quotient, since the quotient is then below 2^48, where
doubles are at most 1/32 apart, so that rounding moves it by less than 1/60. -/
def floorDiv60Int (a : Int) : Int :=
  if a.natAbs ≤ 9007199254740992 then Int.fdiv a 60
  else if a < 0 then
    -((((quotDouble a.natAbs 60).1 + 2 ^ (quotDouble a.natAbs 60).2 - 1)
        / 2 ^ (quotDouble a.natAbs 60).2 : Nat) : Int)
  else (((quotDouble a.natAbs 60).1 / 2 ^ (quotDouble a.natAbs 60).2 : Nat) : Int)

/-- The `k`-digit decimal significand `s` for which `s * 10 ^ (n - k)` rounds
to the double `v`, the one nearest to `v` if there are two; `none` if there is
none. -/
def significandAt (v n k : Nat) : Option Nat :=
  if decide (10 ^ (k - 1) ≤ v / 10 ^ (n - k) ∧ v / 10 ^ (n - k) < 10 ^ k ∧
        roundNat (v / 10 ^ (n - k) * 10 ^ (n - k)) = v) &&
      decide (10 ^ (k - 1) ≤ v / 10 ^ (n - k) + 1 ∧ v / 10 ^ (n - k) + 1 < 10 ^ k ∧
        roundNat ((v / 10 ^ (n - k) + 1) * 10 ^ (n - k)) = v) then
    (if v - v / 10 ^ (n - k) * 10 ^ (n - k) < (v / 10 ^ (n - k) + 1) * 10 ^ (n - k) - v then
       some (v / 10 ^ (n - k))
     else if (v / 10 ^ (n - k) + 1) * 10 ^ (n - k) - v < v - v / 10 ^ (n - k) * 10 ^ (n - k) then
       some (v / 10 ^ (n - k) + 1)
     else some (v / 10 ^ (n - k) + v / 10 ^ (n - k) % 2))
  else if decide (10 ^ (k - 1) ≤ v / 10 ^ (n - k) ∧ v / 10 ^ (n - k) < 10 ^ k ∧
        roundNat (v / 10 ^ (n - k) * 10 ^ (n - k)) = v) then
    some (v / 10 ^ (n - k))
  else if decide (10 ^ (k - 1) ≤ v / 10 ^ (n - k) + 1 ∧ v / 10 ^ (n - k) + 1 < 10 ^ k ∧
        roundNat ((v / 10 ^ (n - k) + 1) * 10 ^ (n - k)) = v) then
    some (v / 10 ^ (n - k) + 1)
  else none

/-- Shortest significand of the `n`-digit double `v`, searched from `k` digits
on: the pair of the significand and its number of digits. -/
def shortestFrom : Nat → Nat → Nat → Nat → Nat × Nat
  | 0, v, n, _ => (v, n)
  | fuel + 1, v, n, k =>
    match significandAt v n k with
    | some s => (s, k)
    | none => shortestFrom fuel v n (k + 1)

/-- The triple `(s, k, n)` of the language definition of
`Number.prototype.toString` for a double `v` above 2^53: the shortest decimal
significand `s`, of `k` digits, such that `s * 10 ^ (n - k)` rounds to `v`. -/
def shortestDecimal (v : Nat) : Nat × Nat × Nat :=
  if roundNat (10 ^ (Nat.repr v).length) = v then (1, 1, (Nat.repr v).length + 1)
  else
    ((shortestFrom (Nat.repr v).length v (Nat.repr v).length 1).1,
     (shortestFrom (Nat.repr v).length v (Nat.repr v).length 1).2,
     (Nat.repr v).length)

/-- Result of `Number.prototype.toString()` on a double `v` above 2^53: up to
21 digits the significand followed by zeros, beyond that the exponent form. -/
def bigToString (v : Nat) : String :=
  if (shortestDecimal v).2.2 ≤ 21 then
    Nat.repr (shortestDecimal v).1
      ++ String.mk (List.replicate ((shortestDecimal v).2.2 - (shortestDecimal v).2.1) '0')
  else if (shortestDecimal v).2.1 = 1 then
    Nat.repr (shortestDecimal v).1 ++ "e+" ++ Nat.repr ((shortestDecimal v).2.2 - 1)
  else
    String.mk ((Nat.repr (shortestDecimal v).1).data.take 1) ++ "."
      ++ String.mk ((Nat.repr (shortestDecimal v).1).data.drop 1) ++ "e+"
      ++ Nat.repr ((shortestDecimal v).2.2 - 1)

/-- Conversion `ToNumber` on the values of `JSNum`: `null` becomes 0. -/
def JSNum.toNumber : JSNum → JSNum
  | .null => .num 0
  | x => x

/-- Whether a number slot holds `Infinity` or `-Infinity`. -/
def JSNum.isInfinite : JSNum → Bool
  | .num a => decide (doubleLimit ≤ a.natAbs)
  | _ => false

/-- Product `a * b` of JavaScript: the double nearest to the exact product, an
infinity on overflow; `NaN` is absorbing, 0 times an infinity is `NaN`, and
`null` counts as 0. -/
def JSNum.mul (a b : JSNum) : JSNum :=
  match a.toNumber, b.toNumber with
  | .num x, .num y =>
    if (x = 0 ∧ doubleLimit ≤ y.natAbs) ∨ (doubleLimit ≤ x.natAbs ∧ y = 0) then .nan
    else .num (roundDouble (x * y))
  | _, _ => .nan

/-- Postfix decrement `x--` of JavaScript: the stored value afterwards, the
double nearest to `x - 1`; an infinity stays what it is. -/
def JSNum.dec (a : JSNum) : JSNum :=
  match a.toNumber with
  | .num x => .num (roundDouble (x - 1))
  | _ => .nan

/-- Comparison `x <= 0` of JavaScript; false on `NaN`. -/
def JSNum.leZero (a : JSNum) : Bool :=
  match a.toNumber with
  | .num x => decide (x ≤ 0)
  | _ => false

/-- Value of `Math.floor(x / 60)`; an infinity stays what it is. -/
def JSNum.floorDiv60 (a : JSNum) : JSNum :=
  match a.toNumber with
  | .num x => if doubleLimit ≤ x.natAbs then .num x else .num (floorDiv60Int x)
  | _ => .nan

/-- Value of `x % 60`: JavaScript's remainder takes the sign of the dividend
and is exact on doubles; the remainder of an infinity is `NaN`. -/
def JSNum.rem60 (a : JSNum) : JSNum :=
  match a.toNumber with
  | .num x => if doubleLimit ≤ x.natAbs then .nan else .num (Int.tmod x 60)
  | _ => .nan

/-- Result of `Number.prototype.toString()`: up to 2^53 in magnitude the
decimal numeral of the integer, beyond it the shortest numeral that reads back
as the same double, and `Infinity` for an infinity. It is only ever called on
results of `Math.floor` and `%`, which are numbers; `null` is given the text of
`String(null)`. -/
def JSNum.toJSString : JSNum → String
  | .num a =>
    if a.natAbs ≤ 9007199254740992 then toString a
    else if doubleLimit ≤ a.natAbs then (if a < 0 then "-Infinity" else "Infinity")
    else if a < 0 then "-" ++ bigToString a.natAbs
    else bigToString a.natAbs
  | .nan => "NaN"
  | .null => "null"

/-- What `JSON.stringify` followed by `JSON.parse` makes of a number slot:
`NaN` and the infinities come back as `null`. -/
def JSNum.toJSON : JSNum → JSNum
  | .nan => .null
  | .num a => if doubleLimit ≤ a.natAbs then .null else .num a
  | .null => .null

/-- Result of `str.padStart(n, c)` for a one-character pad string `c`. -/
def padStart (str : String) (n : Nat) (c : Char) : String :=
  String.mk (List.replicate (n - str.length) c) ++ str

/-- The three values of `currentMode`. -/
inductive Mode where
  | work : Mode
  | shortBreak : Mode
  | longBreak : Mode
deriving DecidableEq, Repr

/-- The object `this.settings`; durations are in minutes. -/
structure Settings where
  workDuration : JSNum
  shortBreakDuration : JSNum
  longBreakDuration : JSNum
deriving DecidableEq, Repr

/-- The object stored under `pomodoroStats`. -/
structure Stats where
  totalCompleted : Int
  dailyCompleted : Int
  lastDate : String
deriving DecidableEq, Repr

/-- Everything the timer reads or writes. -/
structure State where
  /-- Field `this.isRunning`. -/
  isRunning : Bool
  /-- Field `this.timeLeft`, in seconds. -/
  timeLeft : JSNum
  /-- Field `this.currentMode`. -/
  currentMode : Mode
  /-- Field `this.workCycle`. -/
  workCycle : Int
  /-- Field `this.interval`: `none` is `null`, else the last handle stored. -/
  interval : Option Nat
  /-- Field `this.totalDuration`, in seconds. -/
  totalDuration : JSNum
  /-- Field `this.settings`. -/
  settings : Settings
  /-- Whether `this.audioContext` has been created. -/
  audioContext : Bool
  /-- Number of tones started by `playBeep`. -/
  beeps : Nat
  /-- Text of the element `timer`. -/
  timerDisplay : String
  /-- Inline width of `progress-fill` in percent; `none` while none is set. -/
  progressFill : Option ℚ
  /-- Text of the element `current-mode`. -/
  currentModeEl : String
  /-- Text of the element `cycle-counter`. -/
  cycleCounterEl : String
  /-- Text of the start button. -/
  startBtnText : String
  /-- Attribute `disabled` of the start button. -/
  startBtnDisabled : Bool
  /-- Text of the apply-settings button. -/
  applySettingsBtnText : String
  /-- Text of the element `daily-count`. -/
  dailyCountEl : String
  /-- Text of the element `total-count`. -/
  totalCountEl : String
  /-- Text of the element `modal-title`. -/
  modalTitle : String
  /-- Text of the element `modal-message`. -/
  modalMessage : String
  /-- Whether the modal carries the class `hidden`. -/
  modalHidden : Bool
  /-- Class list of `document.body`. -/
  bodyClasses : List String
  /-- Text of the dark-mode toggle. -/
  darkModeToggleText : String
  /-- Item `pomodoroSettings` of `localStorage`. -/
  pomodoroSettings : Option Settings
  /-- Item `pomodoroStats` of `localStorage`. -/
  pomodoroStats : Option Stats
  /-- Item `darkMode` of `localStorage`. -/
  darkModeItem : Option Bool
  /-- Identifiers of the periodic sources currently scheduled. -/
  active : List Nat
  /-- Next identifier `setInterval` hands out. -/
  nextId : Nat
  /-- Number of pending one-shot timeouts of `applySettings`. -/
  feedbackTimeouts : Nat
  /-- Ghost: value of `timeLeft` at each entry into `completeSession`. -/
  completedAt : List JSNum
deriving DecidableEq, Repr

/-- Duration in minutes that the settings configure for a mode. -/
def Settings.minutes (cfg : Settings) : Mode → JSNum
  | .work => cfg.workDuration
  | .shortBreak => cfg.shortBreakDuration
  | .longBreak => cfg.longBreakDuration

/-- Method `setTimerDuration`. -/
def setTimerDuration (s : State) : State :=
  match s.currentMode with
  | .work =>
    { s with timeLeft := s.settings.workDuration.mul (.num 60),
             totalDuration := s.settings.workDuration.mul (.num 60) }
  | .shortBreak =>
    { s with timeLeft := s.settings.shortBreakDuration.mul (.num 60),
             totalDuration := s.settings.shortBreakDuration.mul (.num 60) }
  | .longBreak =>
    { s with timeLeft := s.settings.longBreakDuration.mul (.num 60),
             totalDuration := s.settings.longBreakDuration.mul (.num 60) }

/-- Text that `updateDisplay` writes for a given `timeLeft`. -/
def renderTime (t : JSNum) : String :=
  padStart t.floorDiv60.toJSString 2 '0' ++ ":" ++ padStart t.rem60.toJSString 2 '0'

/-- Method `updateDisplay`. -/
def updateDisplay (s : State) : State :=
  { s with timerDisplay := renderTime s.timeLeft }

/-- Value `((totalDuration - timeLeft) / totalDuration) * 100` as an exact
rational; `none` where the value is `NaN` or an infinity: with a `NaN` or
infinite operand, with a zero divisor, or with a difference or a percentage
that overflows. -/
def progressPercent (total left : JSNum) : Option ℚ :=
  match total.toNumber, left.toNumber with
  | .num T, .num t =>
    if T = 0 ∨ doubleLimit ≤ T.natAbs ∨ doubleLimit ≤ t.natAbs ∨
        doubleLimit ≤ (roundDouble (T - t)).natAbs ∨
        doubleLimit * T.natAbs ≤ (T - t).natAbs * 100 then none
    else some ((((T - t : Int) : ℚ) / (T : ℚ)) * 100)
  | _, _ => none

/-- Method `updateProgress`: the assignment to `style.width` takes effect only
for a valid CSS width, a percentage that is a number and not negative;
otherwise the style object drops it and the width set before stays. -/
def updateProgress (s : State) : State :=
  { s with progressFill :=
      match progressPercent s.totalDuration s.timeLeft with
      | some p => if 0 ≤ p then some p else s.progressFill
      | none => s.progressFill }

/-- Table `modeNames` of `updateModeDisplay`. -/
def modeNames : Mode → String
  | .work => "Work Session"
  | .shortBreak => "Short Break"
  | .longBreak => "Long Break"

/-- Method `updateModeDisplay`. -/
def updateModeDisplay (s : State) : State :=
  { s with currentModeEl := modeNames s.currentMode,
           cycleCounterEl := "Cycle " ++ toString s.workCycle ++ "/4" }

/-- Class that `updateTheme` adds for a mode. -/
def themeClass : Mode → String
  | .work => "work-mode"
  | .shortBreak => "short-break-mode"
  | .longBreak => "long-break-mode"

/-- Method `updateTheme`. -/
def updateTheme (s : State) : State :=
  { s with bodyClasses :=
      (if "dark-mode" ∈ s.bodyClasses then ["dark-mode"] else []) ++ [themeClass s.currentMode] }

/-- Builtin `clearInterval(handle)`: the source with that handle, if any, is no
longer scheduled; `null` cancels nothing. -/
def clearInterval (handle : Option Nat) (active : List Nat) : List Nat :=
  match handle with
  | some h => active.filter (fun i => i != h)
  | none => active

/-- Method `pauseTimer`. -/
def pauseTimer (s : State) : State :=
  if s.isRunning then
    { s with isRunning := false,
             startBtnText := "Start",
             startBtnDisabled := false,
             active := clearInterval s.interval s.active }
  else s

/-- Method `resetTimer`. -/
def resetTimer (s : State) : State :=
  let s := pauseTimer s
  let s := { s with currentMode := .work }
  let s := { s with workCycle := 1 }
  let s := setTimerDuration s
  let s := updateDisplay s
  let s := updateProgress s
  let s := updateModeDisplay s
  updateTheme s

/-- Method `switchMode`. -/
def switchMode (s : State) : State :=
  let s :=
    if s.currentMode = .work then
      if s.workCycle = 4 then
        { s with currentMode := .longBreak, workCycle := 1 }
      else
        { s with currentMode := .shortBreak, workCycle := s.workCycle + 1 }
    else
      { s with currentMode := .work }
  let s := setTimerDuration s
  let s := updateDisplay s
  let s := updateProgress s
  let s := updateModeDisplay s
  updateTheme s

/-- Title of the table `messages` in `showNotification`. -/
def messageTitle : Mode → String
  | .work => "Work Session Complete!"
  | .shortBreak => "Break Complete!"
  | .longBreak => "Long Break Complete!"

/-- Message of the table `messages` in `showNotification`; the entry for
`work` reads `currentMode`. -/
def messageText (current : Mode) : Mode → String
  | .work => if current = .longBreak then "Time for a long break!" else "Time for a short break!"
  | .shortBreak => "Ready to get back to work?"
  | .longBreak => "Ready for another work cycle?"

/-- Local `prevMode` of `showNotification`. -/
def prevMode (s : State) : Mode :=
  if s.currentMode = .work then
    (if s.workCycle = 1 then .longBreak else .shortBreak)
  else .work

/-- Method `showNotification`. -/
def showNotification (s : State) : State :=
  { s with modalTitle := messageTitle (prevMode s),
           modalMessage := messageText s.currentMode (prevMode s),
           modalHidden := false }

/-- Method `closeModal`. -/
def closeModal (s : State) : State :=
  { s with modalHidden := true }

/-- Method `playBeep`. -/
def playBeep (s : State) : State :=
  if s.audioContext then { s with beeps := s.beeps + 1 } else s

/-- Method `getStats`, given the current date string. A stored snapshot is one
that `saveStats` wrote, so it carries all three fields and the spread over
`defaultStats` returns it as it is. -/
def getStats (today : String) (s : State) : Stats :=
  match s.pomodoroStats with
  | some saved => saved
  | none => { totalCompleted := 0, dailyCompleted := 0, lastDate := today }

/-- Method `saveStats`. -/
def saveStats (stats : Stats) (s : State) : State :=
  { s with pomodoroStats := some stats }

/-- Method `updateStatsDisplay`. -/
def updateStatsDisplay (stats : Stats) (s : State) : State :=
  { s with dailyCountEl := toString stats.dailyCompleted,
           totalCountEl := toString stats.totalCompleted }

/-- Method `incrementStats`, given the current date string. -/
def incrementStats (today : String) (s : State) : State :=
  let stats := getStats today s
  let stats := { stats with totalCompleted := stats.totalCompleted + 1 }
  let stats :=
    if stats.lastDate ≠ today then
      { stats with dailyCompleted := 1, lastDate := today }
    else
      { stats with dailyCompleted := stats.dailyCompleted + 1 }
  updateStatsDisplay stats (saveStats stats s)

/-- Method `loadStats`, given the current date string. -/
def loadStats (today : String) (s : State) : State :=
  let stats := getStats today s
  if stats.lastDate ≠ today then
    let stats := { stats with dailyCompleted := 0, lastDate := today }
    updateStatsDisplay stats (saveStats stats s)
  else
    updateStatsDisplay stats s

/-- Method `completeSession`, given the current date string. -/
def completeSession (today : String) (s : State) : State :=
  let s := { s with completedAt := s.completedAt ++ [s.timeLeft] }
  let s := pauseTimer s
  let s := playBeep s
  let s := if s.currentMode = .work then incrementStats today s else s
  let s := switchMode s
  showNotification s

/-- Body of the callback that `startTimer` passes to `setInterval`. -/
def intervalCallback (today : String) (s : State) : State :=
  let s := { s with timeLeft := s.timeLeft.dec }
  let s := updateDisplay s
  let s := updateProgress s
  if s.timeLeft.leZero then completeSession today s else s

/-- Method `startTimer`; `setInterval` schedules a new source `nextId`. -/
def startTimer (s : State) : State :=
  if !s.isRunning then
    { s with isRunning := true,
             startBtnText := "Running...",
             startBtnDisabled := true,
             interval := some s.nextId,
             active := s.active ++ [s.nextId],
             nextId := s.nextId + 1 }
  else s

/-- Method `saveSettings`: the stored item holds what `JSON.stringify` writes
and `JSON.parse` reads back, with `null` in place of a `NaN` or infinite
duration. -/
def saveSettings (s : State) : State :=
  { s with pomodoroSettings := some
             { workDuration := s.settings.workDuration.toJSON,
               shortBreakDuration := s.settings.shortBreakDuration.toJSON,
               longBreakDuration := s.settings.longBreakDuration.toJSON } }

/-- Method `loadSettings`; the three input fields it fills in are not part of
the state, their parsed content is an argument of `applySettings`. -/
def loadSettings (s : State) : State :=
  match s.pomodoroSettings with
  | some saved => { s with settings := saved }
  | none => s

/-- Method `applySettings`; `w`, `sb`, `lb` are the results of `parseInt` on
the three input fields. -/
def applySettings (w sb lb : JSNum) (s : State) : State :=
  let s := { s with settings := { s.settings with workDuration := w } }
  let s := { s with settings := { s.settings with shortBreakDuration := sb } }
  let s := { s with settings := { s.settings with longBreakDuration := lb } }
  let s := saveSettings s
  let s := resetTimer s
  { s with applySettingsBtnText := "Applied!",
           feedbackTimeouts := s.feedbackTimeouts + 1 }

/-- One-shot callback that `applySettings` passes to `setTimeout`. -/
def feedbackTimeout (s : State) : State :=
  if 0 < s.feedbackTimeouts then
    { s with applySettingsBtnText := "Apply Settings",
             feedbackTimeouts := s.feedbackTimeouts - 1 }
  else s

/-- Method `toggleDarkMode`. -/
def toggleDarkMode (s : State) : State :=
  let s :=
    if "dark-mode" ∈ s.bodyClasses then
      { s with bodyClasses := s.bodyClasses.filter (fun c => c != "dark-mode") }
    else
      { s with bodyClasses := s.bodyClasses ++ ["dark-mode"] }
  let isDark : Bool := decide ("dark-mode" ∈ s.bodyClasses)
  { s with darkModeToggleText := if isDark then "☀️ Light Mode" else "🌙 Dark Mode",
           darkModeItem := some isDark }

/-- Method `loadDarkMode`. -/
def loadDarkMode (s : State) : State :=
  if s.darkModeItem = some true then
    { s with bodyClasses :=
               if "dark-mode" ∈ s.bodyClasses then s.bodyClasses
               else s.bodyClasses ++ ["dark-mode"],
             darkModeToggleText := "☀️ Light Mode" }
  else s

/-- Click listener registered once by `init`: creates the audio context. -/
def firstClick (s : State) : State :=
  if !s.audioContext then { s with audioContext := true } else s

/-- Method `init`, given the current date string. -/
def init (today : String) (s : State) : State :=
  let s := loadSettings s
  let s := loadStats today s
  resetTimer s

/-- Field initialisations of the constructor, before it calls `init`. The
argument `page` supplies the text of the document's elements and the content
of `localStorage` when the page loads; no timer is scheduled then. -/
def construct (page : State) : State :=
  { page with
    isRunning := false,
    timeLeft := .num 0,
    currentMode := .work,
    workCycle := 1,
    interval := none,
    totalDuration := .num 0,
    settings := { workDuration := .num 25, shortBreakDuration := .num 5,
                  longBreakDuration := .num 15 },
    audioContext := false,
    beeps := 0,
    active := [],
    nextId := 0,
    feedbackTimeouts := 0,
    completedAt := [] }

/-- The `DOMContentLoaded` handler: the constructor, which ends with `init`,
followed by `loadDarkMode`. -/
def startup (today : String) (page : State) : State :=
  let s := construct page
  let s := init today s
  loadDarkMode s

/-- One firing of the browser's one-second timer queue: each source that is
scheduled, and still scheduled when its turn comes, runs the callback. -/
def tick (today : String) (s : State) : State :=
  s.active.foldl (fun st h => if h ∈ st.active then intervalCallback today st else st) s

/-- What can happen to the page after startup. -/
inductive Event where
  | start : Event
  | pause : Event
  | reset : Event
  | keySpace : Event
  | tick (today : String) : Event
  | completeSession (today : String) : Event
  | applySettings (w sb lb : JSNum) : Event
  | feedbackTimeout : Event
  | closeModal : Event
  | toggleDarkMode : Event
  | firstClick : Event
deriving DecidableEq, Repr

/-- Effect of one event. -/
def step (s : State) : Event → State
  | .start => startTimer s
  | .pause => pauseTimer s
  | .reset => resetTimer s
  | .keySpace => if s.isRunning then pauseTimer s else startTimer s
  | .tick today => tick today s
  | .completeSession today => completeSession today s
  | .applySettings w sb lb => applySettings w sb lb s
  | .feedbackTimeout => feedbackTimeout s
  | .closeModal => closeModal s
  | .toggleDarkMode => toggleDarkMode s
  | .firstClick => firstClick s

/-- Effect of a sequence of events, first event first. -/
def run (s : State) (evs : List Event) : State :=
  evs.foldl step s

/-- A page as the document ships it, with empty `localStorage`. -/
def blankPage : State :=
  { isRunning := false, timeLeft := .num 0, currentMode := .work, workCycle := 1,
    interval := none, totalDuration := .num 0,
    settings := { workDuration := .num 25, shortBreakDuration := .num 5,
                  longBreakDuration := .num 15 },
    audioContext := false, beeps := 0,
    timerDisplay := "25:00", progressFill := none,
    currentModeEl := "Work Session", cycleCounterEl := "Cycle 1/4",
    startBtnText := "Start", startBtnDisabled := false,
    applySettingsBtnText := "Apply Settings",
    dailyCountEl := "0", totalCountEl := "0",
    modalTitle := "", modalMessage := "", modalHidden := true,
    bodyClasses := [], darkModeToggleText := "🌙 Dark Mode",
    pomodoroSettings := none, pomodoroStats := none, darkModeItem := none,
    active := [], nextId := 0, feedbackTimeouts := 0, completedAt := [] }

/-! ## Auxiliary definitions used to state the properties -/

/-- First statement of `switchMode`: the choice of the next mode and cycle. -/
def modeStep (s : State) : State :=
  if s.currentMode = .work then
    if s.workCycle = 4 then
      { s with currentMode := .longBreak, workCycle := 1 }
    else
      { s with currentMode := .shortBreak, workCycle := s.workCycle + 1 }
  else
    { s with currentMode := .work }

/-- First three statements of the interval callback: the decrement and the
two display updates. -/
def countdown (s : State) : State :=
  updateProgress (updateDisplay { s with timeLeft := s.timeLeft.dec })

/-- Effect of a run of session completions, one date string per completion. -/
def completions (s : State) (days : List String) : State :=
  days.foldl (fun st d => completeSession d st) s

/-- Effect of a run of firings of the interval callback, one date string per
firing. -/
def callbacks (s : State) (days : List String) : State :=
  days.foldl (fun st d => intervalCallback d st) s

/-- Effect of a run of one-second ticks of the timer queue, one date string
per tick. -/
def ticks (s : State) (days : List String) : State :=
  days.foldl (fun st d => tick d st) s

/-- The pair (mode, cycle) of a state. -/
def phase (s : State) : Mode × Int := (s.currentMode, s.workCycle)

/-- Mode and cycle that the first statement of `switchMode` computes from the
current ones. -/
def nextPhase : Mode × Int → Mode × Int
  | (.work, c) => if c = 4 then (.longBreak, 1) else (.shortBreak, c + 1)
  | (_, c) => (.work, c)

/-- The sequence of the specification's mode-cycle property, by position in
the period of eight completions. -/
def specSequence : Nat → Mode × Int
  | 0 => (.work, 1)
  | 1 => (.shortBreak, 2)
  | 2 => (.work, 2)
  | 3 => (.shortBreak, 3)
  | 4 => (.work, 3)
  | 5 => (.shortBreak, 4)
  | 6 => (.work, 4)
  | _ => (.longBreak, 1)

/-- Whether a number is a positive integer. -/
def JSNum.isPos : JSNum → Bool
  | .num a => decide (0 < a)
  | .nan => false
  | .null => false

/-- Whether all three durations are positive integers. -/
def Settings.allPos (cfg : Settings) : Bool :=
  cfg.workDuration.isPos && cfg.shortBreakDuration.isPos && cfg.longBreakDuration.isPos

/-- Whether an event, if it applies settings, applies positive integers. -/
def Event.positive : Event → Bool
  | .applySettings w sb lb => w.isPos && sb.isPos && lb.isPos
  | _ => true

/-- Whether the stored settings snapshot, if present, is all positive. -/
def State.snapshotPos (s : State) : Bool :=
  match s.pomodoroSettings with
  | some cfg => cfg.allPos
  | none => true

/-- Scheduler discipline: a running timer owns exactly the one scheduled
source whose handle it stores; a stopped timer has no source scheduled. -/
def Scheduled (s : State) : Prop :=
  (s.isRunning = true → ∃ h, s.active = [h] ∧ s.interval = some h) ∧
  (s.isRunning = false → s.active = [])

/-- The second state has the same mode, cycle, total duration, running flag,
settings, stats (stored and displayed), scheduler state and completion log as
the first. -/
def SameSession (a b : State) : Prop :=
  b.currentMode = a.currentMode ∧ b.workCycle = a.workCycle ∧
  b.totalDuration = a.totalDuration ∧ b.isRunning = a.isRunning ∧
  b.settings = a.settings ∧ b.pomodoroSettings = a.pomodoroSettings ∧
  b.pomodoroStats = a.pomodoroStats ∧
  b.dailyCountEl = a.dailyCountEl ∧ b.totalCountEl = a.totalCountEl ∧
  b.interval = a.interval ∧ b.active = a.active ∧ b.nextId = a.nextId ∧
  b.completedAt = a.completedAt

/-- Session invariant under positive settings: all configured durations are
positive integers, the remaining time is an integer between 1 and the total
duration, and the total duration is a value a double holds. -/
def Counting (s : State) : Prop :=
  s.settings.allPos = true ∧
  ∃ t T : Int, s.timeLeft = .num t ∧ s.totalDuration = .num T ∧ 1 ≤ t ∧ t ≤ T ∧
    IsDouble T.toNat

/-- The total duration is the one the settings configure for the mode. -/
def DurationConfigured (s : State) : Prop :=
  s.totalDuration = (s.settings.minutes s.currentMode).mul (.num 60)

/-- States reached from startup by some sequence of events. -/
def Reachable (s : State) : Prop :=
  ∃ (today : String) (page : State) (evs : List Event), s = run (startup today page) evs

/-- The page right after startup on an example date with empty storage. -/
def freshState : State := startup "Fri Nov 06 2026" blankPage


/-- The record that `incrementStats` saves and displays, computed from the one
`getStats` returned. -/
def bumpStats (today : String) (stats : Stats) : Stats :=
  let stats := { stats with totalCompleted := stats.totalCompleted + 1 }
  if stats.lastDate ≠ today then
    { stats with dailyCompleted := 1, lastDate := today }
  else
    { stats with dailyCompleted := stats.dailyCompleted + 1 }

/-- The stored daily count for the date `today` is zero: no snapshot, or a
snapshot of another date, or a snapshot of `today` with `dailyCompleted = 0`. -/
def NoneCompletedToday (today : String) (s : State) : Prop :=
  match s.pomodoroStats with
  | none => True
  | some st => st.lastDate ≠ today ∨ (st.lastDate = today ∧ st.dailyCompleted = 0)

/-- The fresh page with a snapshot of the day before: 40 sessions in all, 7 on
that day. -/
def staleStatsState : State :=
  { freshState with pomodoroStats := some ⟨40, 7, "Thu Nov 05 2026"⟩ }

/-- Coupling of mode and cycle on a pair: the cycle lies in 1..4, a short
break has cycle 2..4 and a long break has cycle 1. -/
def CoupledPhase (p : Mode × Int) : Prop :=
  (1 ≤ p.2 ∧ p.2 ≤ 4) ∧ (p.1 = .shortBreak → 2 ≤ p.2) ∧ (p.1 = .longBreak → p.2 = 1)

/-- Coupling of `currentMode` and `workCycle` in a state. -/
def Coupled (s : State) : Prop := CoupledPhase (phase s)

/-- The observable session state: mode, cycle, remaining and total time,
running flag, scheduled tick sources, displayed time and displayed progress. -/
def observable (s : State) :
    Mode × Int × JSNum × JSNum × Bool × List Nat × String × Option ℚ :=
  (s.currentMode, s.workCycle, s.timeLeft, s.totalDuration, s.isRunning, s.active,
    s.timerDisplay, s.progressFill)

/-- The observable session state of a reset timer, as a function of the
settings alone. -/
def resetView (cfg : Settings) :
    Mode × Int × JSNum × JSNum × Bool × List Nat × String × Option ℚ :=
  (.work, 1, cfg.workDuration.mul (.num 60), cfg.workDuration.mul (.num 60), false, [],
    renderTime (cfg.workDuration.mul (.num 60)),
    progressPercent (cfg.workDuration.mul (.num 60)) (cfg.workDuration.mul (.num 60)))

/-- The progress bar shows the value computed from the current times. -/
def ProgressShown (s : State) : Prop :=
  s.progressFill = progressPercent s.totalDuration s.timeLeft

/-- The specification's `pad2`: the decimal numeral of `n`, left-padded with
the character 0 to at least two characters. -/
def pad2 (n : Nat) : String :=
  if (Nat.repr n).length < 2 then
    String.mk (List.replicate (2 - (Nat.repr n).length) '0') ++ Nat.repr n
  else Nat.repr n

/-- Whether a string consists of exactly two decimal digits. -/
def isTwoDigits (str : String) : Bool :=
  match str.data with
  | [a, b] => a.isDigit && b.isDigit
  | _ => false

/-- Whether a string has the form DD:DD, two digits, a colon, two digits. -/
def isClock (str : String) : Bool :=
  match str.data with
  | [a, b, c, d, e] => a.isDigit && b.isDigit && c == ':' && d.isDigit && e.isDigit
  | _ => false

/-- Whether the duration in seconds, the product `a * 60` as the code computes
it, is a finite number other than 0. -/
def JSNum.hasSeconds (a : JSNum) : Bool :=
  match a.mul (.num 60) with
  | .num T => decide (T ≠ 0 ∧ T.natAbs < doubleLimit)
  | _ => false

/-- Whether all three durations have finite non-zero seconds. -/
def Settings.allTimed (cfg : Settings) : Bool :=
  cfg.workDuration.hasSeconds && cfg.shortBreakDuration.hasSeconds &&
    cfg.longBreakDuration.hasSeconds

/-- Whether an event, if it applies settings, applies durations with finite
non-zero seconds. -/
def Event.timed : Event → Bool
  | .applySettings w sb lb => w.hasSeconds && sb.hasSeconds && lb.hasSeconds
  | _ => true

/-- Whether the stored settings snapshot, if present, has finite non-zero
seconds throughout. -/
def State.snapshotTimed (s : State) : Bool :=
  match s.pomodoroSettings with
  | some cfg => cfg.allTimed
  | none => true

/-- The double 2^1020, a positive integer of 308 digits. -/
def overflowMinutes : Int := ((doubleLimit / 16 : Nat) : Int)

/-- The blank page with a stored settings snapshot of 0, 5 and 15 minutes. -/
def zeroWorkPage : State :=
  { blankPage with pomodoroSettings := some ⟨.num 0, .num 5, .num 15⟩ }

/-- The fresh page after 9007199254740991 work minutes were applied. -/
def hugeWorkState : State :=
  applySettings (.num 9007199254740991) (.num 5) (.num 15) freshState

/-- The fresh page after 150119987579017 work minutes were applied:
`timeLeft` is 9007199254741020. -/
def longWorkBase : State :=
  applySettings (.num 150119987579017) (.num 5) (.num 15) freshState

/-- The state `longWorkBase` with the timer started. -/
def longWorkState : State := startTimer longWorkBase

/-- A running work session stuck at 9007199254741020 seconds, with no session
completed since the given log. -/
def Stalled (log : List JSNum) (s : State) : Prop :=
  s.timeLeft = .num 9007199254741020 ∧ (∃ h, s.active = [h]) ∧ s.completedAt = log ∧
  s.isRunning = true ∧ s.currentMode = .work ∧ s.workCycle = 1

/-! ## Rounding to doubles -/

theorem shiftOf_small (fuel m : Nat) (h : m < 9007199254740992) : shiftOf fuel m = 0 := by
  cases fuel with
  | zero => rfl
  | succ f => simp [shiftOf, h]

theorem shiftOf_spec : ∀ (fuel m : Nat), m ≤ fuel → 9007199254740992 ≤ m →
    1 ≤ shiftOf fuel m ∧ 4503599627370496 ≤ m / 2 ^ shiftOf fuel m ∧
      m / 2 ^ shiftOf fuel m < 9007199254740992 := by
  intro fuel
  induction fuel with
  | zero => intro m h1 h2; omega
  | succ f ih =>
    intro m h1 h2
    have hnot : ¬ m < 9007199254740992 := by omega
    have hunf : shiftOf (f + 1) m = shiftOf f (m / 2) + 1 := by simp [shiftOf, hnot]
    rw [hunf]
    have hdiv : m / 2 ^ (shiftOf f (m / 2) + 1) = m / 2 / 2 ^ shiftOf f (m / 2) := by
      rw [pow_succ, Nat.mul_comm, Nat.div_div_eq_div_mul]
    rw [hdiv]
    by_cases hsmall : m / 2 < 9007199254740992
    · rw [shiftOf_small f (m / 2) hsmall]
      simp only [pow_zero, Nat.div_one]
      omega
    · obtain ⟨_, i2, i3⟩ := ih (m / 2) (by omega) (by omega)
      exact ⟨by omega, i2, i3⟩

theorem nearestEven_cases (q r den : Nat) (hden : 0 < den) :
    nearestEven q r den = q ∨ (nearestEven q r den = q + 1 ∧ 0 < r) := by
  unfold nearestEven
  split
  · exact Or.inl rfl
  · split
    · exact Or.inr ⟨rfl, by omega⟩
    · rcases Nat.mod_two_eq_zero_or_one q with h | h
      · left; omega
      · right; exact ⟨by omega, by omega⟩

theorem roundNat_small (m : Nat) (h : m ≤ 9007199254740992) : roundNat m = m := by
  unfold roundNat; rw [if_pos h]

theorem roundNat_big (m : Nat) (h : 9007199254740992 < m) :
    ∃ q e r : Nat, m = q * 2 ^ e + r ∧ r < 2 ^ e ∧ 4503599627370496 ≤ q ∧
      q < 9007199254740992 ∧
      (roundNat m = q * 2 ^ e ∨ (roundNat m = (q + 1) * 2 ^ e ∧ 0 < r)) := by
  obtain ⟨_, h2, h3⟩ := shiftOf_spec m m (le_refl _) (by omega)
  have hpos : 0 < 2 ^ shiftOf m m := (Nat.two_pow_pos _)
  refine ⟨m / 2 ^ shiftOf m m, shiftOf m m, m % 2 ^ shiftOf m m, ?_, Nat.mod_lt _ hpos, h2, h3, ?_⟩
  · rw [Nat.mul_comm]; exact (Nat.div_add_mod m _).symm
  · have hr : roundNat m = nearestEven (m / 2 ^ shiftOf m m) (m % 2 ^ shiftOf m m)
        (2 ^ shiftOf m m) * 2 ^ shiftOf m m := by
      unfold roundNat; rw [if_neg (by omega)]
    rw [hr]
    rcases nearestEven_cases (m / 2 ^ shiftOf m m) (m % 2 ^ shiftOf m m) (2 ^ shiftOf m m) hpos
      with h | ⟨h, hr0⟩
    · left; rw [h]
    · right; rw [h]; exact ⟨rfl, hr0⟩

theorem roundNat_pos (m : Nat) (h : 0 < m) : 0 < roundNat m := by
  by_cases hs : m ≤ 9007199254740992
  · rw [roundNat_small m hs]; exact h
  · obtain ⟨q, e, r, _, _, hq, _, hround⟩ := roundNat_big m (by omega)
    have hpos : 0 < 2 ^ e := (Nat.two_pow_pos _)
    rcases hround with h1 | ⟨h1, _⟩
    · rw [h1]; exact Nat.mul_pos (by omega) hpos
    · rw [h1]; exact Nat.mul_pos (by omega) hpos

theorem roundNat_isDouble (m : Nat) : IsDouble (roundNat m) := by
  by_cases hs : m ≤ 9007199254740992
  · rw [roundNat_small m hs]
    by_cases hlt : m < 9007199254740992
    · exact ⟨m, 0, hlt, by simp⟩
    · exact ⟨4503599627370496, 1, by decide, by omega⟩
  · obtain ⟨q, e, r, _, _, hq, hq2, hround⟩ := roundNat_big m (by omega)
    rcases hround with h1 | ⟨h1, _⟩
    · exact ⟨q, e, hq2, h1⟩
    · by_cases hlt : q + 1 < 9007199254740992
      · exact ⟨q + 1, e, hlt, h1⟩
      · refine ⟨4503599627370496, e + 1, by decide, ?_⟩
        have hq1 : q + 1 = 4503599627370496 * 2 := by omega
        rw [h1, hq1, pow_succ, Nat.mul_assoc, Nat.mul_comm 2 (2 ^ e)]

theorem roundNat_le_of_isDouble (x y : Nat) (hxy : x ≤ y) (hy : IsDouble y) :
    roundNat x ≤ y := by
  by_cases hs : x ≤ 9007199254740992
  · rw [roundNat_small x hs]; exact hxy
  · obtain ⟨q, e, r, hx, hr, hq, hq2, hround⟩ := roundNat_big x (by omega)
    rcases hround with h1 | ⟨h1, hr0⟩
    · rw [h1]; omega
    · rw [h1]
      obtain ⟨k, E, hk, rfl⟩ := hy
      by_cases hE : e ≤ E
      · obtain ⟨d, rfl⟩ : ∃ d, E = e + d := ⟨E - e, by omega⟩
        have hy' : k * 2 ^ (e + d) = (k * 2 ^ d) * 2 ^ e := by
          rw [pow_add, Nat.mul_comm (2 ^ e) (2 ^ d), Nat.mul_assoc]
        rw [hy'] at hxy ⊢
        apply Nat.mul_le_mul_right
        by_contra hcon
        have hle : k * 2 ^ d ≤ q := by omega
        have := Nat.mul_le_mul_right (2 ^ e) hle
        omega
      · exfalso
        obtain ⟨d, rfl⟩ : ∃ d, e = E + 1 + d := ⟨e - E - 1, by omega⟩
        have hpE : 0 < 2 ^ E := (Nat.two_pow_pos _)
        have h1' : k * 2 ^ E < 9007199254740992 * 2 ^ E := Nat.mul_lt_mul_of_pos_right hk hpE
        have h2' : 9007199254740992 * 2 ^ E ≤ q * 2 ^ (E + 1 + d) := by
          have h3 : 2 ^ (E + 1 + d) = 2 * 2 ^ d * 2 ^ E := by
            rw [pow_add, pow_succ]; ring
          rw [h3, ← Nat.mul_assoc]
          apply Nat.mul_le_mul_right
          have hpd : 1 ≤ 2 ^ d := (Nat.two_pow_pos _)
          calc 9007199254740992 = 4503599627370496 * 2 * 1 := by norm_num
            _ ≤ q * 2 * 2 ^ d := Nat.mul_le_mul (Nat.mul_le_mul_right 2 hq) hpd
            _ = q * (2 * 2 ^ d) := by ring
        omega

theorem doubleLimit_eq : doubleLimit = 2 ^ 1024 := by norm_num [doubleLimit]

theorem doubleLimit_big : 9007199254740992 < doubleLimit := by decide

theorem roundNat_ge_of_isDouble (x y : Nat) (hyx : y ≤ x) (hy : IsDouble y) :
    y ≤ roundNat x := by
  by_cases hs : x ≤ 9007199254740992
  · rw [roundNat_small x hs]; exact hyx
  · obtain ⟨q, e, r, hx, hr, hq, hq2, hround⟩ := roundNat_big x (by omega)
    have hlow : y ≤ q * 2 ^ e := by
      obtain ⟨k, E, hk, rfl⟩ := hy
      by_cases hE : e ≤ E
      · obtain ⟨d, rfl⟩ : ∃ d, E = e + d := ⟨E - e, by omega⟩
        have hy2 : k * 2 ^ (e + d) = (k * 2 ^ d) * 2 ^ e := by
          rw [pow_add, Nat.mul_comm (2 ^ e) (2 ^ d), Nat.mul_assoc]
        rw [hy2] at hyx ⊢
        apply Nat.mul_le_mul_right
        by_contra hcon
        have hle : q + 1 ≤ k * 2 ^ d := by omega
        have h3 := Nat.mul_le_mul_right (2 ^ e) hle
        have h4 : (q + 1) * 2 ^ e = q * 2 ^ e + 2 ^ e := by ring
        omega
      · obtain ⟨d, rfl⟩ : ∃ d, e = E + 1 + d := ⟨e - E - 1, by omega⟩
        have hpE : 0 < 2 ^ E := Nat.two_pow_pos _
        have h1 : k * 2 ^ E ≤ 9007199254740992 * 2 ^ E := Nat.mul_le_mul_right _ (by omega)
        have h2 : 9007199254740992 * 2 ^ E ≤ q * 2 ^ (E + 1 + d) := by
          have h3 : 2 ^ (E + 1 + d) = 2 * 2 ^ d * 2 ^ E := by
            rw [pow_add, pow_succ]; ring
          rw [h3, ← Nat.mul_assoc]
          apply Nat.mul_le_mul_right
          have hpd : 1 ≤ 2 ^ d := Nat.two_pow_pos _
          calc 9007199254740992 = 4503599627370496 * 2 * 1 := by norm_num
            _ ≤ q * 2 * 2 ^ d := Nat.mul_le_mul (Nat.mul_le_mul_right 2 hq) hpd
            _ = q * (2 * 2 ^ d) := by ring
        omega
    rcases hround with h1 | ⟨h1, _⟩
    · rw [h1]; exact hlow
    · rw [h1]
      have h4 : (q + 1) * 2 ^ e = q * 2 ^ e + 2 ^ e := by ring
      omega

theorem roundDouble_of_small (n : Int) (h : n.natAbs ≤ 9007199254740992) :
    roundDouble n = n := by
  have hb := doubleLimit_big
  unfold roundDouble
  rw [roundNat_small _ h, Nat.min_eq_left (by omega)]
  split <;> omega

theorem roundDouble_of_nonneg (n : Int) (h : 0 ≤ n) :
    roundDouble n = ((min (roundNat n.toNat) doubleLimit : Nat) : Int) := by
  unfold roundDouble
  rw [if_neg (by omega)]
  congr 3
  omega

theorem roundDouble_pos (n : Int) (h : 0 < n) : 0 < roundDouble n := by
  rw [roundDouble_of_nonneg n h.le]
  have h1 := roundNat_pos n.toNat (by omega)
  have h2 := doubleLimit_big
  have h3 : 0 < min (roundNat n.toNat) doubleLimit := lt_min h1 (by omega)
  exact_mod_cast h3

theorem roundDouble_neg (n : Int) (h : n < 0) : roundDouble n < 0 := by
  unfold roundDouble
  rw [if_pos h]
  have h1 := roundNat_pos n.natAbs (by omega)
  have h2 := doubleLimit_big
  have h3 : 0 < min (roundNat n.natAbs) doubleLimit := lt_min h1 (by omega)
  omega

theorem roundDouble_nonpos (n : Int) (h : n ≤ 0) : roundDouble n ≤ 0 := by
  rcases h.lt_or_eq with h | h
  · exact (roundDouble_neg n h).le
  · rw [h]; decide

theorem roundDouble_ne_zero (n : Int) (h : n ≠ 0) : roundDouble n ≠ 0 := by
  rcases lt_or_gt_of_ne h with h | h
  · exact (roundDouble_neg n h).ne
  · exact (roundDouble_pos n h).ne'

theorem roundDouble_le_of_isDouble (x y : Int) (hx : 0 ≤ x) (hxy : x ≤ y)
    (hy : IsDouble y.toNat) : roundDouble x ≤ y := by
  rw [roundDouble_of_nonneg x hx]
  have h1 := roundNat_le_of_isDouble x.toNat y.toNat (by omega) hy
  have h2 : min (roundNat x.toNat) doubleLimit ≤ roundNat x.toNat := min_le_left _ _
  omega

theorem roundDouble_isDouble (n : Int) (h : 0 ≤ n) : IsDouble (roundDouble n).toNat := by
  rw [roundDouble_of_nonneg n h, Int.toNat_ofNat]
  rcases min_choice (roundNat n.toNat) doubleLimit with h1 | h1
  · rw [h1]; exact roundNat_isDouble _
  · rw [h1]; exact ⟨1, 1024, by decide, by rw [doubleLimit_eq, one_mul]⟩

theorem roundDouble_natAbs_le (n : Int) : (roundDouble n).natAbs ≤ doubleLimit := by
  have h : min (roundNat n.natAbs) doubleLimit ≤ doubleLimit := min_le_right _ _
  unfold roundDouble
  split <;> omega

@[simp] theorem JSNum.mul_num (a : Int) :
    (JSNum.num a).mul (.num 60) = .num (roundDouble (a * 60)) := by
  have h : ¬ ((a = 0 ∧ doubleLimit ≤ (60 : Int).natAbs) ∨ (doubleLimit ≤ a.natAbs ∧ (60 : Int) = 0)) := by
    have hb := doubleLimit_big
    have h60 : (60 : Int).natAbs = 60 := rfl
    rw [h60]
    omega
  show (if (a = 0 ∧ doubleLimit ≤ (60 : Int).natAbs) ∨ (doubleLimit ≤ a.natAbs ∧ (60 : Int) = 0)
    then JSNum.nan else JSNum.num (roundDouble (a * 60))) = _
  rw [if_neg h]

@[simp] theorem JSNum.dec_num (a : Int) : (JSNum.num a).dec = .num (roundDouble (a - 1)) := rfl

@[simp] theorem JSNum.leZero_num (a : Int) : (JSNum.num a).leZero = decide (a ≤ 0) := rfl

theorem JSNum.mul_num_exact (a : Int) (h : (a * 60).natAbs ≤ 9007199254740992) :
    (JSNum.num a).mul (.num 60) = .num (a * 60) := by
  rw [JSNum.mul_num, roundDouble_of_small _ h]

theorem JSNum.dec_num_exact (a : Int) (h : (a - 1).natAbs ≤ 9007199254740992) :
    (JSNum.num a).dec = .num (a - 1) := by
  rw [JSNum.dec_num, roundDouble_of_small _ h]

theorem roundDouble_overflow (n : Int) (h : (doubleLimit : Int) ≤ n) :
    roundDouble n = (doubleLimit : Int) := by
  rw [roundDouble_of_nonneg n (by omega)]
  have h1 : doubleLimit ≤ roundNat n.toNat :=
    roundNat_ge_of_isDouble n.toNat doubleLimit (by omega)
      ⟨1, 1024, by decide, by rw [doubleLimit_eq, one_mul]⟩
  rw [Nat.min_eq_right h1]

theorem JSNum.floorDiv60_num (a : Int) (h : a.natAbs < doubleLimit) :
    (JSNum.num a).floorDiv60 = .num (floorDiv60Int a) := by
  show (if doubleLimit ≤ a.natAbs then JSNum.num a else JSNum.num (floorDiv60Int a)) = _
  rw [if_neg (by omega)]

theorem JSNum.rem60_num (a : Int) (h : a.natAbs < doubleLimit) :
    (JSNum.num a).rem60 = .num (Int.tmod a 60) := by
  show (if doubleLimit ≤ a.natAbs then JSNum.nan else JSNum.num (Int.tmod a 60)) = _
  rw [if_neg (by omega)]

theorem JSNum.toJSON_num (a : Int) (h : a.natAbs < doubleLimit) :
    (JSNum.num a).toJSON = .num a := by
  show (if doubleLimit ≤ a.natAbs then JSNum.null else JSNum.num a) = _
  rw [if_neg (by omega)]

/-! ## Frame lemmas: fields a method leaves alone -/

@[simp] theorem updateDisplay_frame (s : State) :
    (updateDisplay s).isRunning = s.isRunning ∧
    (updateDisplay s).timeLeft = s.timeLeft ∧
    (updateDisplay s).currentMode = s.currentMode ∧
    (updateDisplay s).workCycle = s.workCycle ∧
    (updateDisplay s).interval = s.interval ∧
    (updateDisplay s).totalDuration = s.totalDuration ∧
    (updateDisplay s).settings = s.settings ∧
    (updateDisplay s).active = s.active ∧
    (updateDisplay s).nextId = s.nextId ∧
    (updateDisplay s).completedAt = s.completedAt ∧
    (updateDisplay s).pomodoroStats = s.pomodoroStats ∧
    (updateDisplay s).pomodoroSettings = s.pomodoroSettings ∧
    (updateDisplay s).progressFill = s.progressFill ∧
    (updateDisplay s).dailyCountEl = s.dailyCountEl ∧
    (updateDisplay s).totalCountEl = s.totalCountEl ∧
    (updateDisplay s).bodyClasses = s.bodyClasses :=
  ⟨rfl, rfl, rfl, rfl, rfl, rfl, rfl, rfl, rfl, rfl, rfl, rfl, rfl, rfl, rfl, rfl⟩

@[simp] theorem updateProgress_frame (s : State) :
    (updateProgress s).isRunning = s.isRunning ∧
    (updateProgress s).timeLeft = s.timeLeft ∧
    (updateProgress s).currentMode = s.currentMode ∧
    (updateProgress s).workCycle = s.workCycle ∧
    (updateProgress s).interval = s.interval ∧
    (updateProgress s).totalDuration = s.totalDuration ∧
    (updateProgress s).settings = s.settings ∧
    (updateProgress s).active = s.active ∧
    (updateProgress s).nextId = s.nextId ∧
    (updateProgress s).completedAt = s.completedAt ∧
    (updateProgress s).pomodoroStats = s.pomodoroStats ∧
    (updateProgress s).pomodoroSettings = s.pomodoroSettings ∧
    (updateProgress s).timerDisplay = s.timerDisplay ∧
    (updateProgress s).dailyCountEl = s.dailyCountEl ∧
    (updateProgress s).totalCountEl = s.totalCountEl ∧
    (updateProgress s).bodyClasses = s.bodyClasses :=
  ⟨rfl, rfl, rfl, rfl, rfl, rfl, rfl, rfl, rfl, rfl, rfl, rfl, rfl, rfl, rfl, rfl⟩

@[simp] theorem updateModeDisplay_frame (s : State) :
    (updateModeDisplay s).isRunning = s.isRunning ∧
    (updateModeDisplay s).timeLeft = s.timeLeft ∧
    (updateModeDisplay s).currentMode = s.currentMode ∧
    (updateModeDisplay s).workCycle = s.workCycle ∧
    (updateModeDisplay s).interval = s.interval ∧
    (updateModeDisplay s).totalDuration = s.totalDuration ∧
    (updateModeDisplay s).settings = s.settings ∧
    (updateModeDisplay s).active = s.active ∧
    (updateModeDisplay s).nextId = s.nextId ∧
    (updateModeDisplay s).completedAt = s.completedAt ∧
    (updateModeDisplay s).pomodoroStats = s.pomodoroStats ∧
    (updateModeDisplay s).pomodoroSettings = s.pomodoroSettings ∧
    (updateModeDisplay s).timerDisplay = s.timerDisplay ∧
    (updateModeDisplay s).progressFill = s.progressFill ∧
    (updateModeDisplay s).dailyCountEl = s.dailyCountEl ∧
    (updateModeDisplay s).totalCountEl = s.totalCountEl ∧
    (updateModeDisplay s).bodyClasses = s.bodyClasses :=
  ⟨rfl, rfl, rfl, rfl, rfl, rfl, rfl, rfl, rfl, rfl, rfl, rfl, rfl, rfl, rfl, rfl, rfl⟩

@[simp] theorem updateTheme_frame (s : State) :
    (updateTheme s).isRunning = s.isRunning ∧
    (updateTheme s).timeLeft = s.timeLeft ∧
    (updateTheme s).currentMode = s.currentMode ∧
    (updateTheme s).workCycle = s.workCycle ∧
    (updateTheme s).interval = s.interval ∧
    (updateTheme s).totalDuration = s.totalDuration ∧
    (updateTheme s).settings = s.settings ∧
    (updateTheme s).active = s.active ∧
    (updateTheme s).nextId = s.nextId ∧
    (updateTheme s).completedAt = s.completedAt ∧
    (updateTheme s).pomodoroStats = s.pomodoroStats ∧
    (updateTheme s).pomodoroSettings = s.pomodoroSettings ∧
    (updateTheme s).timerDisplay = s.timerDisplay ∧
    (updateTheme s).progressFill = s.progressFill ∧
    (updateTheme s).dailyCountEl = s.dailyCountEl ∧
    (updateTheme s).totalCountEl = s.totalCountEl :=
  ⟨rfl, rfl, rfl, rfl, rfl, rfl, rfl, rfl, rfl, rfl, rfl, rfl, rfl, rfl, rfl, rfl⟩

@[simp] theorem showNotification_frame (s : State) :
    (showNotification s).isRunning = s.isRunning ∧
    (showNotification s).timeLeft = s.timeLeft ∧
    (showNotification s).currentMode = s.currentMode ∧
    (showNotification s).workCycle = s.workCycle ∧
    (showNotification s).interval = s.interval ∧
    (showNotification s).totalDuration = s.totalDuration ∧
    (showNotification s).settings = s.settings ∧
    (showNotification s).active = s.active ∧
    (showNotification s).nextId = s.nextId ∧
    (showNotification s).completedAt = s.completedAt ∧
    (showNotification s).pomodoroStats = s.pomodoroStats ∧
    (showNotification s).pomodoroSettings = s.pomodoroSettings ∧
    (showNotification s).timerDisplay = s.timerDisplay ∧
    (showNotification s).progressFill = s.progressFill ∧
    (showNotification s).dailyCountEl = s.dailyCountEl ∧
    (showNotification s).totalCountEl = s.totalCountEl ∧
    (showNotification s).bodyClasses = s.bodyClasses :=
  ⟨rfl, rfl, rfl, rfl, rfl, rfl, rfl, rfl, rfl, rfl, rfl, rfl, rfl, rfl, rfl, rfl, rfl⟩

@[simp] theorem closeModal_frame (s : State) :
    (closeModal s).isRunning = s.isRunning ∧
    (closeModal s).timeLeft = s.timeLeft ∧
    (closeModal s).currentMode = s.currentMode ∧
    (closeModal s).workCycle = s.workCycle ∧
    (closeModal s).interval = s.interval ∧
    (closeModal s).totalDuration = s.totalDuration ∧
    (closeModal s).settings = s.settings ∧
    (closeModal s).active = s.active ∧
    (closeModal s).nextId = s.nextId ∧
    (closeModal s).completedAt = s.completedAt ∧
    (closeModal s).pomodoroStats = s.pomodoroStats ∧
    (closeModal s).pomodoroSettings = s.pomodoroSettings ∧
    (closeModal s).timerDisplay = s.timerDisplay ∧
    (closeModal s).progressFill = s.progressFill ∧
    (closeModal s).dailyCountEl = s.dailyCountEl ∧
    (closeModal s).totalCountEl = s.totalCountEl ∧
    (closeModal s).bodyClasses = s.bodyClasses :=
  ⟨rfl, rfl, rfl, rfl, rfl, rfl, rfl, rfl, rfl, rfl, rfl, rfl, rfl, rfl, rfl, rfl, rfl⟩

@[simp] theorem saveStats_frame (stats : Stats) (s : State) :
    (saveStats stats s).isRunning = s.isRunning ∧
    (saveStats stats s).timeLeft = s.timeLeft ∧
    (saveStats stats s).currentMode = s.currentMode ∧
    (saveStats stats s).workCycle = s.workCycle ∧
    (saveStats stats s).interval = s.interval ∧
    (saveStats stats s).totalDuration = s.totalDuration ∧
    (saveStats stats s).settings = s.settings ∧
    (saveStats stats s).active = s.active ∧
    (saveStats stats s).nextId = s.nextId ∧
    (saveStats stats s).completedAt = s.completedAt ∧
    (saveStats stats s).pomodoroSettings = s.pomodoroSettings ∧
    (saveStats stats s).timerDisplay = s.timerDisplay ∧
    (saveStats stats s).progressFill = s.progressFill ∧
    (saveStats stats s).dailyCountEl = s.dailyCountEl ∧
    (saveStats stats s).totalCountEl = s.totalCountEl ∧
    (saveStats stats s).bodyClasses = s.bodyClasses :=
  ⟨rfl, rfl, rfl, rfl, rfl, rfl, rfl, rfl, rfl, rfl, rfl, rfl, rfl, rfl, rfl, rfl⟩

@[simp] theorem updateStatsDisplay_frame (stats : Stats) (s : State) :
    (updateStatsDisplay stats s).isRunning = s.isRunning ∧
    (updateStatsDisplay stats s).timeLeft = s.timeLeft ∧
    (updateStatsDisplay stats s).currentMode = s.currentMode ∧
    (updateStatsDisplay stats s).workCycle = s.workCycle ∧
    (updateStatsDisplay stats s).interval = s.interval ∧
    (updateStatsDisplay stats s).totalDuration = s.totalDuration ∧
    (updateStatsDisplay stats s).settings = s.settings ∧
    (updateStatsDisplay stats s).active = s.active ∧
    (updateStatsDisplay stats s).nextId = s.nextId ∧
    (updateStatsDisplay stats s).completedAt = s.completedAt ∧
    (updateStatsDisplay stats s).pomodoroStats = s.pomodoroStats ∧
    (updateStatsDisplay stats s).pomodoroSettings = s.pomodoroSettings ∧
    (updateStatsDisplay stats s).timerDisplay = s.timerDisplay ∧
    (updateStatsDisplay stats s).progressFill = s.progressFill ∧
    (updateStatsDisplay stats s).bodyClasses = s.bodyClasses :=
  ⟨rfl, rfl, rfl, rfl, rfl, rfl, rfl, rfl, rfl, rfl, rfl, rfl, rfl, rfl, rfl⟩

@[simp] theorem saveSettings_frame (s : State) :
    (saveSettings s).isRunning = s.isRunning ∧
    (saveSettings s).timeLeft = s.timeLeft ∧
    (saveSettings s).currentMode = s.currentMode ∧
    (saveSettings s).workCycle = s.workCycle ∧
    (saveSettings s).interval = s.interval ∧
    (saveSettings s).totalDuration = s.totalDuration ∧
    (saveSettings s).settings = s.settings ∧
    (saveSettings s).active = s.active ∧
    (saveSettings s).nextId = s.nextId ∧
    (saveSettings s).completedAt = s.completedAt ∧
    (saveSettings s).pomodoroStats = s.pomodoroStats ∧
    (saveSettings s).timerDisplay = s.timerDisplay ∧
    (saveSettings s).progressFill = s.progressFill ∧
    (saveSettings s).dailyCountEl = s.dailyCountEl ∧
    (saveSettings s).totalCountEl = s.totalCountEl ∧
    (saveSettings s).bodyClasses = s.bodyClasses :=
  ⟨rfl, rfl, rfl, rfl, rfl, rfl, rfl, rfl, rfl, rfl, rfl, rfl, rfl, rfl, rfl, rfl⟩

@[simp] theorem setTimerDuration_frame (s : State) :
    (setTimerDuration s).isRunning = s.isRunning ∧
    (setTimerDuration s).currentMode = s.currentMode ∧
    (setTimerDuration s).workCycle = s.workCycle ∧
    (setTimerDuration s).interval = s.interval ∧
    (setTimerDuration s).settings = s.settings ∧
    (setTimerDuration s).active = s.active ∧
    (setTimerDuration s).nextId = s.nextId ∧
    (setTimerDuration s).completedAt = s.completedAt ∧
    (setTimerDuration s).pomodoroStats = s.pomodoroStats ∧
    (setTimerDuration s).pomodoroSettings = s.pomodoroSettings ∧
    (setTimerDuration s).timerDisplay = s.timerDisplay ∧
    (setTimerDuration s).progressFill = s.progressFill ∧
    (setTimerDuration s).dailyCountEl = s.dailyCountEl ∧
    (setTimerDuration s).totalCountEl = s.totalCountEl ∧
    (setTimerDuration s).bodyClasses = s.bodyClasses := by
  unfold setTimerDuration; split <;> simp

@[simp] theorem pauseTimer_frame (s : State) :
    (pauseTimer s).timeLeft = s.timeLeft ∧
    (pauseTimer s).currentMode = s.currentMode ∧
    (pauseTimer s).workCycle = s.workCycle ∧
    (pauseTimer s).interval = s.interval ∧
    (pauseTimer s).totalDuration = s.totalDuration ∧
    (pauseTimer s).settings = s.settings ∧
    (pauseTimer s).nextId = s.nextId ∧
    (pauseTimer s).completedAt = s.completedAt ∧
    (pauseTimer s).pomodoroStats = s.pomodoroStats ∧
    (pauseTimer s).pomodoroSettings = s.pomodoroSettings ∧
    (pauseTimer s).timerDisplay = s.timerDisplay ∧
    (pauseTimer s).progressFill = s.progressFill ∧
    (pauseTimer s).dailyCountEl = s.dailyCountEl ∧
    (pauseTimer s).totalCountEl = s.totalCountEl ∧
    (pauseTimer s).bodyClasses = s.bodyClasses := by
  unfold pauseTimer; split <;> simp

@[simp] theorem playBeep_frame (s : State) :
    (playBeep s).isRunning = s.isRunning ∧
    (playBeep s).timeLeft = s.timeLeft ∧
    (playBeep s).currentMode = s.currentMode ∧
    (playBeep s).workCycle = s.workCycle ∧
    (playBeep s).interval = s.interval ∧
    (playBeep s).totalDuration = s.totalDuration ∧
    (playBeep s).settings = s.settings ∧
    (playBeep s).active = s.active ∧
    (playBeep s).nextId = s.nextId ∧
    (playBeep s).completedAt = s.completedAt ∧
    (playBeep s).pomodoroStats = s.pomodoroStats ∧
    (playBeep s).pomodoroSettings = s.pomodoroSettings ∧
    (playBeep s).timerDisplay = s.timerDisplay ∧
    (playBeep s).progressFill = s.progressFill ∧
    (playBeep s).dailyCountEl = s.dailyCountEl ∧
    (playBeep s).totalCountEl = s.totalCountEl ∧
    (playBeep s).bodyClasses = s.bodyClasses := by
  unfold playBeep; split <;> simp

@[simp] theorem incrementStats_frame (today : String) (s : State) :
    (incrementStats today s).isRunning = s.isRunning ∧
    (incrementStats today s).timeLeft = s.timeLeft ∧
    (incrementStats today s).currentMode = s.currentMode ∧
    (incrementStats today s).workCycle = s.workCycle ∧
    (incrementStats today s).interval = s.interval ∧
    (incrementStats today s).totalDuration = s.totalDuration ∧
    (incrementStats today s).settings = s.settings ∧
    (incrementStats today s).active = s.active ∧
    (incrementStats today s).nextId = s.nextId ∧
    (incrementStats today s).completedAt = s.completedAt ∧
    (incrementStats today s).pomodoroSettings = s.pomodoroSettings ∧
    (incrementStats today s).timerDisplay = s.timerDisplay ∧
    (incrementStats today s).progressFill = s.progressFill ∧
    (incrementStats today s).bodyClasses = s.bodyClasses := by
  simp [incrementStats, updateStatsDisplay, saveStats]

@[simp] theorem loadStats_frame (today : String) (s : State) :
    (loadStats today s).isRunning = s.isRunning ∧
    (loadStats today s).timeLeft = s.timeLeft ∧
    (loadStats today s).currentMode = s.currentMode ∧
    (loadStats today s).workCycle = s.workCycle ∧
    (loadStats today s).interval = s.interval ∧
    (loadStats today s).totalDuration = s.totalDuration ∧
    (loadStats today s).settings = s.settings ∧
    (loadStats today s).active = s.active ∧
    (loadStats today s).nextId = s.nextId ∧
    (loadStats today s).completedAt = s.completedAt ∧
    (loadStats today s).pomodoroSettings = s.pomodoroSettings ∧
    (loadStats today s).timerDisplay = s.timerDisplay ∧
    (loadStats today s).progressFill = s.progressFill ∧
    (loadStats today s).bodyClasses = s.bodyClasses := by
  simp only [loadStats]; split <;> simp

@[simp] theorem loadSettings_frame (s : State) :
    (loadSettings s).isRunning = s.isRunning ∧
    (loadSettings s).timeLeft = s.timeLeft ∧
    (loadSettings s).currentMode = s.currentMode ∧
    (loadSettings s).workCycle = s.workCycle ∧
    (loadSettings s).interval = s.interval ∧
    (loadSettings s).totalDuration = s.totalDuration ∧
    (loadSettings s).active = s.active ∧
    (loadSettings s).nextId = s.nextId ∧
    (loadSettings s).completedAt = s.completedAt ∧
    (loadSettings s).pomodoroStats = s.pomodoroStats ∧
    (loadSettings s).pomodoroSettings = s.pomodoroSettings ∧
    (loadSettings s).timerDisplay = s.timerDisplay ∧
    (loadSettings s).progressFill = s.progressFill ∧
    (loadSettings s).dailyCountEl = s.dailyCountEl ∧
    (loadSettings s).totalCountEl = s.totalCountEl ∧
    (loadSettings s).bodyClasses = s.bodyClasses := by
  unfold loadSettings; split <;> simp

@[simp] theorem toggleDarkMode_frame (s : State) :
    (toggleDarkMode s).isRunning = s.isRunning ∧
    (toggleDarkMode s).timeLeft = s.timeLeft ∧
    (toggleDarkMode s).currentMode = s.currentMode ∧
    (toggleDarkMode s).workCycle = s.workCycle ∧
    (toggleDarkMode s).interval = s.interval ∧
    (toggleDarkMode s).totalDuration = s.totalDuration ∧
    (toggleDarkMode s).settings = s.settings ∧
    (toggleDarkMode s).active = s.active ∧
    (toggleDarkMode s).nextId = s.nextId ∧
    (toggleDarkMode s).completedAt = s.completedAt ∧
    (toggleDarkMode s).pomodoroStats = s.pomodoroStats ∧
    (toggleDarkMode s).pomodoroSettings = s.pomodoroSettings ∧
    (toggleDarkMode s).timerDisplay = s.timerDisplay ∧
    (toggleDarkMode s).progressFill = s.progressFill ∧
    (toggleDarkMode s).dailyCountEl = s.dailyCountEl ∧
    (toggleDarkMode s).totalCountEl = s.totalCountEl := by
  simp only [toggleDarkMode]; split <;> simp

@[simp] theorem loadDarkMode_frame (s : State) :
    (loadDarkMode s).isRunning = s.isRunning ∧
    (loadDarkMode s).timeLeft = s.timeLeft ∧
    (loadDarkMode s).currentMode = s.currentMode ∧
    (loadDarkMode s).workCycle = s.workCycle ∧
    (loadDarkMode s).interval = s.interval ∧
    (loadDarkMode s).totalDuration = s.totalDuration ∧
    (loadDarkMode s).settings = s.settings ∧
    (loadDarkMode s).active = s.active ∧
    (loadDarkMode s).nextId = s.nextId ∧
    (loadDarkMode s).completedAt = s.completedAt ∧
    (loadDarkMode s).pomodoroStats = s.pomodoroStats ∧
    (loadDarkMode s).pomodoroSettings = s.pomodoroSettings ∧
    (loadDarkMode s).timerDisplay = s.timerDisplay ∧
    (loadDarkMode s).progressFill = s.progressFill ∧
    (loadDarkMode s).dailyCountEl = s.dailyCountEl ∧
    (loadDarkMode s).totalCountEl = s.totalCountEl := by
  unfold loadDarkMode; split <;> simp

@[simp] theorem firstClick_frame (s : State) :
    (firstClick s).isRunning = s.isRunning ∧
    (firstClick s).timeLeft = s.timeLeft ∧
    (firstClick s).currentMode = s.currentMode ∧
    (firstClick s).workCycle = s.workCycle ∧
    (firstClick s).interval = s.interval ∧
    (firstClick s).totalDuration = s.totalDuration ∧
    (firstClick s).settings = s.settings ∧
    (firstClick s).active = s.active ∧
    (firstClick s).nextId = s.nextId ∧
    (firstClick s).completedAt = s.completedAt ∧
    (firstClick s).pomodoroStats = s.pomodoroStats ∧
    (firstClick s).pomodoroSettings = s.pomodoroSettings ∧
    (firstClick s).timerDisplay = s.timerDisplay ∧
    (firstClick s).progressFill = s.progressFill ∧
    (firstClick s).dailyCountEl = s.dailyCountEl ∧
    (firstClick s).totalCountEl = s.totalCountEl ∧
    (firstClick s).bodyClasses = s.bodyClasses := by
  unfold firstClick; split <;> simp

@[simp] theorem feedbackTimeout_frame (s : State) :
    (feedbackTimeout s).isRunning = s.isRunning ∧
    (feedbackTimeout s).timeLeft = s.timeLeft ∧
    (feedbackTimeout s).currentMode = s.currentMode ∧
    (feedbackTimeout s).workCycle = s.workCycle ∧
    (feedbackTimeout s).interval = s.interval ∧
    (feedbackTimeout s).totalDuration = s.totalDuration ∧
    (feedbackTimeout s).settings = s.settings ∧
    (feedbackTimeout s).active = s.active ∧
    (feedbackTimeout s).nextId = s.nextId ∧
    (feedbackTimeout s).completedAt = s.completedAt ∧
    (feedbackTimeout s).pomodoroStats = s.pomodoroStats ∧
    (feedbackTimeout s).pomodoroSettings = s.pomodoroSettings ∧
    (feedbackTimeout s).timerDisplay = s.timerDisplay ∧
    (feedbackTimeout s).progressFill = s.progressFill ∧
    (feedbackTimeout s).dailyCountEl = s.dailyCountEl ∧
    (feedbackTimeout s).totalCountEl = s.totalCountEl ∧
    (feedbackTimeout s).bodyClasses = s.bodyClasses := by
  unfold feedbackTimeout; split <;> simp

@[simp] theorem startTimer_frame (s : State) :
    (startTimer s).timeLeft = s.timeLeft ∧
    (startTimer s).currentMode = s.currentMode ∧
    (startTimer s).workCycle = s.workCycle ∧
    (startTimer s).totalDuration = s.totalDuration ∧
    (startTimer s).settings = s.settings ∧
    (startTimer s).completedAt = s.completedAt ∧
    (startTimer s).pomodoroStats = s.pomodoroStats ∧
    (startTimer s).pomodoroSettings = s.pomodoroSettings ∧
    (startTimer s).timerDisplay = s.timerDisplay ∧
    (startTimer s).progressFill = s.progressFill ∧
    (startTimer s).dailyCountEl = s.dailyCountEl ∧
    (startTimer s).totalCountEl = s.totalCountEl ∧
    (startTimer s).bodyClasses = s.bodyClasses := by
  unfold startTimer; split <;> simp

@[simp] theorem modeStep_frame (s : State) :
    (modeStep s).isRunning = s.isRunning ∧
    (modeStep s).timeLeft = s.timeLeft ∧
    (modeStep s).interval = s.interval ∧
    (modeStep s).totalDuration = s.totalDuration ∧
    (modeStep s).settings = s.settings ∧
    (modeStep s).active = s.active ∧
    (modeStep s).nextId = s.nextId ∧
    (modeStep s).completedAt = s.completedAt ∧
    (modeStep s).pomodoroStats = s.pomodoroStats ∧
    (modeStep s).pomodoroSettings = s.pomodoroSettings ∧
    (modeStep s).timerDisplay = s.timerDisplay ∧
    (modeStep s).progressFill = s.progressFill ∧
    (modeStep s).dailyCountEl = s.dailyCountEl ∧
    (modeStep s).totalCountEl = s.totalCountEl ∧
    (modeStep s).bodyClasses = s.bodyClasses := by
  unfold modeStep; split <;> [split; skip] <;> simp

/-! ## Computed fields of the display helpers -/

@[simp] theorem updateDisplay_timerDisplay (s : State) :
    (updateDisplay s).timerDisplay = renderTime s.timeLeft := rfl

theorem updateProgress_progressFill (s : State) :
    (updateProgress s).progressFill =
      match progressPercent s.totalDuration s.timeLeft with
      | some p => if 0 ≤ p then some p else s.progressFill
      | none => s.progressFill := rfl

theorem updateProgress_valid (s : State) (p : ℚ)
    (h : progressPercent s.totalDuration s.timeLeft = some p) (hp : 0 ≤ p) :
    (updateProgress s).progressFill = some p := by
  rw [updateProgress_progressFill, h]
  simp [hp]

@[simp] theorem setTimerDuration_timeLeft (s : State) :
    (setTimerDuration s).timeLeft = (s.settings.minutes s.currentMode).mul (.num 60) := by
  unfold setTimerDuration Settings.minutes; split <;> simp_all

@[simp] theorem setTimerDuration_totalDuration (s : State) :
    (setTimerDuration s).totalDuration = (s.settings.minutes s.currentMode).mul (.num 60) := by
  unfold setTimerDuration Settings.minutes; split <;> simp_all

@[simp] theorem pauseTimer_isRunning (s : State) : (pauseTimer s).isRunning = false := by
  unfold pauseTimer; split <;> simp_all

theorem pauseTimer_active (s : State) :
    (pauseTimer s).active =
      if s.isRunning then clearInterval s.interval s.active else s.active := by
  unfold pauseTimer; split <;> rfl

/-! ## The composite methods as chains of the helpers -/

theorem switchMode_eq (s : State) :
    switchMode s =
      updateTheme (updateModeDisplay (updateProgress (updateDisplay (setTimerDuration
        (modeStep s))))) := rfl

theorem resetTimer_eq (s : State) :
    resetTimer s =
      updateTheme (updateModeDisplay (updateProgress (updateDisplay (setTimerDuration
        { pauseTimer s with currentMode := .work, workCycle := 1 })))) := rfl

theorem modeStep_phase (s : State) : phase (modeStep s) = nextPhase (phase s) := by
  unfold modeStep phase nextPhase
  cases hm : s.currentMode <;> simp
  split <;> simp

@[simp] theorem switchMode_frame (s : State) :
    (switchMode s).isRunning = s.isRunning ∧
    (switchMode s).interval = s.interval ∧
    (switchMode s).settings = s.settings ∧
    (switchMode s).active = s.active ∧
    (switchMode s).nextId = s.nextId ∧
    (switchMode s).completedAt = s.completedAt ∧
    (switchMode s).pomodoroStats = s.pomodoroStats ∧
    (switchMode s).pomodoroSettings = s.pomodoroSettings ∧
    (switchMode s).dailyCountEl = s.dailyCountEl ∧
    (switchMode s).totalCountEl = s.totalCountEl := by
  rw [switchMode_eq]; simp

theorem switchMode_phase (s : State) : phase (switchMode s) = nextPhase (phase s) := by
  rw [← modeStep_phase, switchMode_eq]; simp [phase]

theorem switchMode_currentMode (s : State) :
    (switchMode s).currentMode = (nextPhase (phase s)).1 := by
  rw [← switchMode_phase]; rfl

theorem switchMode_workCycle (s : State) :
    (switchMode s).workCycle = (nextPhase (phase s)).2 := by
  rw [← switchMode_phase]; rfl

theorem switchMode_timeLeft (s : State) :
    (switchMode s).timeLeft =
      (s.settings.minutes (switchMode s).currentMode).mul (.num 60) := by
  rw [switchMode_eq]; simp

theorem switchMode_totalDuration (s : State) :
    (switchMode s).totalDuration =
      (s.settings.minutes (switchMode s).currentMode).mul (.num 60) := by
  rw [switchMode_eq]; simp

theorem switchMode_timerDisplay (s : State) :
    (switchMode s).timerDisplay = renderTime (switchMode s).timeLeft := by
  rw [switchMode_eq]; simp

theorem switchMode_progressFill (s : State) (p : ℚ)
    (h : progressPercent (switchMode s).totalDuration (switchMode s).timeLeft = some p)
    (hp : 0 ≤ p) : (switchMode s).progressFill = some p := by
  have h1 : (switchMode s).progressFill =
      (updateProgress (updateDisplay (setTimerDuration (modeStep s)))).progressFill := by
    rw [switchMode_eq]; simp
  have h2 : (switchMode s).totalDuration =
      (updateDisplay (setTimerDuration (modeStep s))).totalDuration := by
    rw [switchMode_eq]; simp
  have h3 : (switchMode s).timeLeft =
      (updateDisplay (setTimerDuration (modeStep s))).timeLeft := by
    rw [switchMode_eq]; simp
  rw [h1]
  exact updateProgress_valid _ p (by rw [← h2, ← h3]; exact h) hp

@[simp] theorem resetTimer_frame (s : State) :
    (resetTimer s).isRunning = false ∧
    (resetTimer s).currentMode = .work ∧
    (resetTimer s).workCycle = 1 ∧
    (resetTimer s).timeLeft = s.settings.workDuration.mul (.num 60) ∧
    (resetTimer s).totalDuration = s.settings.workDuration.mul (.num 60) ∧
    (resetTimer s).interval = s.interval ∧
    (resetTimer s).settings = s.settings ∧
    (resetTimer s).active = (pauseTimer s).active ∧
    (resetTimer s).nextId = s.nextId ∧
    (resetTimer s).completedAt = s.completedAt ∧
    (resetTimer s).pomodoroStats = s.pomodoroStats ∧
    (resetTimer s).pomodoroSettings = s.pomodoroSettings ∧
    (resetTimer s).dailyCountEl = s.dailyCountEl ∧
    (resetTimer s).totalCountEl = s.totalCountEl := by
  rw [resetTimer_eq]; simp [Settings.minutes]

theorem resetTimer_timerDisplay (s : State) :
    (resetTimer s).timerDisplay = renderTime (s.settings.workDuration.mul (.num 60)) := by
  rw [resetTimer_eq]; simp [Settings.minutes]

theorem resetTimer_progressFill (s : State) (p : ℚ)
    (h : progressPercent (s.settings.workDuration.mul (.num 60))
      (s.settings.workDuration.mul (.num 60)) = some p)
    (hp : 0 ≤ p) : (resetTimer s).progressFill = some p := by
  have h1 : (resetTimer s).progressFill =
      (updateProgress (updateDisplay (setTimerDuration
        { pauseTimer s with currentMode := .work, workCycle := 1 }))).progressFill := by
    rw [resetTimer_eq]; simp
  rw [h1]
  exact updateProgress_valid _ p (by simpa [Settings.minutes] using h) hp

/-- State on which `completeSession` runs `switchMode`. -/
theorem completeSession_eq (today : String) (s : State) :
    completeSession today s =
      showNotification (switchMode
        (if (playBeep (pauseTimer { s with completedAt := s.completedAt ++ [s.timeLeft] })).currentMode
            = .work then
          incrementStats today
            (playBeep (pauseTimer { s with completedAt := s.completedAt ++ [s.timeLeft] }))
        else playBeep (pauseTimer { s with completedAt := s.completedAt ++ [s.timeLeft] }))) := rfl

@[simp] theorem completeSession_frame (today : String) (s : State) :
    (completeSession today s).isRunning = false ∧
    (completeSession today s).interval = s.interval ∧
    (completeSession today s).settings = s.settings ∧
    (completeSession today s).active = (pauseTimer s).active ∧
    (completeSession today s).nextId = s.nextId ∧
    (completeSession today s).completedAt = s.completedAt ++ [s.timeLeft] ∧
    (completeSession today s).pomodoroSettings = s.pomodoroSettings := by
  rw [completeSession_eq]
  simp only [showNotification_frame, switchMode_frame]
  split <;> simp [pauseTimer_active]

theorem completeSession_phase (today : String) (s : State) :
    phase (completeSession today s) = nextPhase (phase s) := by
  rw [completeSession_eq]
  have h : ∀ t : State, phase (showNotification t) = phase t := fun t => by simp [phase]
  rw [h, switchMode_phase]
  split <;> simp [phase]

theorem completeSession_timeLeft (today : String) (s : State) :
    (completeSession today s).timeLeft =
      (s.settings.minutes (completeSession today s).currentMode).mul (.num 60) := by
  have hp := completeSession_phase today s
  have hm : (completeSession today s).currentMode = (nextPhase (phase s)).1 := by
    rw [← hp]; rfl
  rw [hm, completeSession_eq]
  simp only [showNotification_frame, switchMode_timeLeft, switchMode_currentMode]
  split <;> simp [phase]

theorem completeSession_totalDuration (today : String) (s : State) :
    (completeSession today s).totalDuration =
      (s.settings.minutes (completeSession today s).currentMode).mul (.num 60) := by
  have hp := completeSession_phase today s
  have hm : (completeSession today s).currentMode = (nextPhase (phase s)).1 := by
    rw [← hp]; rfl
  rw [hm, completeSession_eq]
  simp only [showNotification_frame, switchMode_totalDuration, switchMode_currentMode]
  split <;> simp [phase]

theorem completeSession_timerDisplay (today : String) (s : State) :
    (completeSession today s).timerDisplay = renderTime (completeSession today s).timeLeft := by
  rw [completeSession_eq]
  simp only [showNotification_frame]
  exact switchMode_timerDisplay _

/-! ## Mode cycle -/

theorem completions_phase (days : List String) (s : State) :
    phase (completions s days) = nextPhase^[days.length] (phase s) := by
  induction days generalizing s with
  | nil => rfl
  | cons d ds ih =>
    have h : completions s (d :: ds) = completions (completeSession d s) ds := rfl
    rw [h, ih, completeSession_phase, List.length_cons, Function.iterate_succ_apply]

theorem nextPhase_specSequence (n : Nat) :
    nextPhase (specSequence (n % 8)) = specSequence ((n + 1) % 8) := by
  have h : n % 8 < 8 := Nat.mod_lt _ (by decide)
  have h1 : (n + 1) % 8 = (n % 8 + 1) % 8 := by omega
  rw [h1]
  generalize n % 8 = r at h
  interval_cases r <;> decide

theorem nextPhase_iterate (n : Nat) :
    nextPhase^[n] (.work, 1) = specSequence (n % 8) := by
  induction n with
  | zero => rfl
  | succ k ih => rw [Function.iterate_succ_apply', ih, nextPhase_specSequence]

/-- C1: `switchMode` follows the transition table. For every state whose
`workCycle` lies in 1..4: from `work` with `workCycle = 4` the result is
`longBreak` with `workCycle = 1`; from `work` with `workCycle` in 1..3 it is
`shortBreak` with `workCycle + 1`; from `shortBreak` or `longBreak` it is
`work` with `workCycle` unchanged. -/
theorem switchMode_transition_table (s : State)
    (hcycle : 1 ≤ s.workCycle ∧ s.workCycle ≤ 4) :
    (s.currentMode = .work → s.workCycle = 4 →
        (switchMode s).currentMode = .longBreak ∧ (switchMode s).workCycle = 1) ∧
    (s.currentMode = .work → s.workCycle ≤ 3 →
        (switchMode s).currentMode = .shortBreak ∧
        (switchMode s).workCycle = s.workCycle + 1) ∧
    (s.currentMode = .shortBreak ∨ s.currentMode = .longBreak →
        (switchMode s).currentMode = .work ∧ (switchMode s).workCycle = s.workCycle) := by
  rw [switchMode_currentMode, switchMode_workCycle]
  refine ⟨fun hm hc => by simp [phase, nextPhase, hm, hc], fun hm hc => ?_, fun hm => ?_⟩
  · have h4 : s.workCycle ≠ 4 := by omega
    simp [phase, nextPhase, hm, h4]
  · rcases hm with hm | hm <;> simp [phase, nextPhase, hm]

/-- Witness for C1: the table read off at three concrete states, one per row
group (work at cycle 4, work at cycle 2, short break at cycle 3). -/
theorem switchMode_transition_table_witness :
    (1 ≤ ({ blankPage with workCycle := 4 } : State).workCycle ∧
      ({ blankPage with workCycle := 4 } : State).workCycle ≤ 4) ∧
    ((switchMode { blankPage with workCycle := 4 }).currentMode = .longBreak ∧
      (switchMode { blankPage with workCycle := 4 }).workCycle = 1) ∧
    ((switchMode { blankPage with workCycle := 2 }).currentMode = .shortBreak ∧
      (switchMode { blankPage with workCycle := 2 }).workCycle = 2 + 1) ∧
    ((switchMode { blankPage with currentMode := .shortBreak, workCycle := 3 }).currentMode
        = .work ∧
      (switchMode { blankPage with currentMode := .shortBreak, workCycle := 3 }).workCycle
        = 3) :=
  ⟨by decide,
   (switchMode_transition_table { blankPage with workCycle := 4 } (by decide)).1 rfl rfl,
   (switchMode_transition_table { blankPage with workCycle := 2 } (by decide)).2.1 rfl
     (by decide),
   (switchMode_transition_table { blankPage with currentMode := .shortBreak, workCycle := 3 }
     (by decide)).2.2 (Or.inl rfl)⟩

/-- C2: from any state in mode `work` at cycle 1 (the reset state), the pair
(mode, cycle) after any number `n` of session completions is the entry
`n mod 8` of the sequence work/1, shortBreak/2, work/2, shortBreak/3, work/3,
shortBreak/4, work/4, longBreak/1; and for `k ≥ 1`, after `2 (k - 1)`
completions the `k`-th work session is the current one, and completing it
leads to a long break exactly when `k` is a multiple of 4. -/
theorem completions_follow_cycle (s : State)
    (hstart : s.currentMode = .work ∧ s.workCycle = 1) :
    (∀ days : List String, phase (completions s days) = specSequence (days.length % 8)) ∧
    (∀ (k : Nat) (days : List String) (d : String), 1 ≤ k → days.length = 2 * (k - 1) →
      (completions s days).currentMode = .work ∧
      ((completeSession d (completions s days)).currentMode = .longBreak ↔ 4 ∣ k)) := by
  have hphase : phase s = (.work, 1) := by simp [phase, hstart.1, hstart.2]
  have hseq : ∀ days : List String,
      phase (completions s days) = specSequence (days.length % 8) := fun days => by
    rw [completions_phase, hphase, nextPhase_iterate]
  refine ⟨hseq, fun k days d hk hlen => ?_⟩
  have h1 := hseq days
  have h2 := hseq (days ++ [d])
  have happ : completions s (days ++ [d]) = completeSession d (completions s days) := by
    simp [completions, List.foldl_append]
  rw [happ] at h2
  have hm1 : (completions s days).currentMode = (specSequence (days.length % 8)).1 := by
    rw [← h1]; rfl
  have hm2 : (completeSession d (completions s days)).currentMode =
      (specSequence ((days ++ [d]).length % 8)).1 := by
    rw [← h2]; rfl
  rw [hm1, hm2, List.length_append, List.length_singleton, hlen]
  have hcases : (2 * (k - 1)) % 8 = 0 ∨ (2 * (k - 1)) % 8 = 2 ∨ (2 * (k - 1)) % 8 = 4 ∨
      (2 * (k - 1)) % 8 = 6 := by omega
  rcases hcases with h | h | h | h
  · have h' : (2 * (k - 1) + 1) % 8 = 1 := by omega
    rw [h, h']; simp [specSequence]; omega
  · have h' : (2 * (k - 1) + 1) % 8 = 3 := by omega
    rw [h, h']; simp [specSequence]; omega
  · have h' : (2 * (k - 1) + 1) % 8 = 5 := by omega
    rw [h, h']; simp [specSequence]; omega
  · have h' : (2 * (k - 1) + 1) % 8 = 7 := by omega
    rw [h, h']; simp [specSequence]; omega

/-- Witness for C2: the page after startup is in mode `work` at cycle 1; seven
completions from it end in the long break, the eighth is back at work/1. -/
theorem completions_follow_cycle_witness :
    (freshState.currentMode = .work ∧ freshState.workCycle = 1) ∧
    phase (completions freshState ["a", "a", "a", "a", "a", "a", "a"]) = (.longBreak, 1) ∧
    phase (completions freshState ["a", "a", "a", "a", "a", "a", "a", "b"]) = (.work, 1) :=
  ⟨by decide,
   (completions_follow_cycle freshState (by decide)).1 ["a", "a", "a", "a", "a", "a", "a"],
   (completions_follow_cycle freshState (by decide)).1
     ["a", "a", "a", "a", "a", "a", "a", "b"]⟩

/-- C3 (counterexample): with work = 9007199254740991 minutes, a positive
integer, `resetTimer` leaves `timeLeft = totalDuration = 540431955284459456`,
the double nearest to the product, and not `d * 60 = 540431955284459460`. -/
theorem resetTimer_rounds_huge_duration :
    (0 : Int) < 9007199254740991 ∧
    hugeWorkState.settings.workDuration = .num 9007199254740991 ∧
    (resetTimer hugeWorkState).timeLeft = .num 540431955284459456 ∧
    (resetTimer hugeWorkState).totalDuration = .num 540431955284459456 ∧
    (resetTimer hugeWorkState).timeLeft ≠ .num (9007199254740991 * 60) := by
  decide

/-- C3 (amended): for every positive integer `d` with `d * 60 ≤ 2^53`, the
range in which the double product is exact, and every prior state whose
`settings.workDuration` is `d`, `resetTimer` yields
`timeLeft = totalDuration = d * 60`, mode `work`, cycle 1 and a stopped timer. -/
theorem resetTimer_sets_work_duration (s : State) (d : Int)
    (hd : 0 < d) (hbound : d * 60 ≤ 9007199254740992)
    (hset : s.settings.workDuration = .num d) :
    (resetTimer s).timeLeft = .num (d * 60) ∧
    (resetTimer s).totalDuration = .num (d * 60) ∧
    (resetTimer s).currentMode = .work ∧
    (resetTimer s).workCycle = 1 ∧
    (resetTimer s).isRunning = false := by
  have hex : (JSNum.num d).mul (.num 60) = .num (d * 60) :=
    JSNum.mul_num_exact d (by omega)
  have h := resetTimer_frame s
  exact ⟨by rw [h.2.2.2.1, hset, hex], by rw [h.2.2.2.2.1, hset, hex], h.2.1, h.2.2.1, h.1⟩

/-- Witness for C3: reset of a running break state under the default settings. -/
theorem resetTimer_sets_work_duration_witness :
    (0 : Int) < 25 ∧ (25 : Int) * 60 ≤ 9007199254740992 ∧
    (startTimer (switchMode freshState)).settings.workDuration = .num 25 ∧
    (resetTimer (startTimer (switchMode freshState))).timeLeft = .num (25 * 60) ∧
    (resetTimer (startTimer (switchMode freshState))).totalDuration = .num (25 * 60) ∧
    (resetTimer (startTimer (switchMode freshState))).currentMode = .work ∧
    (resetTimer (startTimer (switchMode freshState))).workCycle = 1 ∧
    (resetTimer (startTimer (switchMode freshState))).isRunning = false :=
  ⟨by decide, by decide, by decide,
   resetTimer_sets_work_duration (startTimer (switchMode freshState)) 25 (by decide)
     (by decide) (by decide)⟩

/-! ## Applying settings -/

theorem applySettings_eq (w sb lb : JSNum) (s : State) :
    applySettings w sb lb s =
      { resetTimer (saveSettings { s with settings :=
            { workDuration := w, shortBreakDuration := sb, longBreakDuration := lb } }) with
        applySettingsBtnText := "Applied!",
        feedbackTimeouts := (resetTimer (saveSettings { s with settings :=
            { workDuration := w, shortBreakDuration := sb, longBreakDuration := lb } })).feedbackTimeouts
          + 1 } := rfl

@[simp] theorem applySettings_frame (w sb lb : JSNum) (s : State) :
    (applySettings w sb lb s).isRunning = false ∧
    (applySettings w sb lb s).currentMode = .work ∧
    (applySettings w sb lb s).workCycle = 1 ∧
    (applySettings w sb lb s).timeLeft = w.mul (.num 60) ∧
    (applySettings w sb lb s).totalDuration = w.mul (.num 60) ∧
    (applySettings w sb lb s).interval = s.interval ∧
    (applySettings w sb lb s).settings =
      { workDuration := w, shortBreakDuration := sb, longBreakDuration := lb } ∧
    (applySettings w sb lb s).active = (pauseTimer s).active ∧
    (applySettings w sb lb s).nextId = s.nextId ∧
    (applySettings w sb lb s).completedAt = s.completedAt ∧
    (applySettings w sb lb s).pomodoroStats = s.pomodoroStats ∧
    (applySettings w sb lb s).pomodoroSettings =
      some { workDuration := w.toJSON, shortBreakDuration := sb.toJSON,
             longBreakDuration := lb.toJSON } := by
  rw [applySettings_eq]
  simp [saveSettings, pauseTimer_active]

/-- C4 (counterexample): on the page after startup, whose settings are 25/5/15,
`applySettings` with work = 0 is not rejected: afterwards the stored settings,
the persisted snapshot and the session's `timeLeft` all differ from before. -/
theorem applySettings_zero_is_applied :
    ¬ (JSNum.num 0).isPos ∧
    (applySettings (.num 0) (.num 5) (.num 15) freshState).settings ≠ freshState.settings ∧
    (applySettings (.num 0) (.num 5) (.num 15) freshState).pomodoroSettings
      ≠ freshState.pomodoroSettings ∧
    (applySettings (.num 0) (.num 5) (.num 15) freshState).timeLeft ≠ freshState.timeLeft ∧
    (applySettings (.num 0) (.num 5) (.num 15) freshState).settings.workDuration = .num 0 ∧
    freshState.settings.workDuration = .num 25 := by
  decide

/-- C4 (amended): `applySettings` validates nothing and never fails. For every
input, whether or not the durations are positive integers, it stores the three
parsed durations as the settings, persists them as the settings snapshot as
JSON holds them (finite integers as they are, `null` in place of a `NaN` or
infinite duration), and resets the session: mode `work`, cycle 1, timer
stopped, `timeLeft = totalDuration =` the product `work * 60` of the code. -/
theorem applySettings_stores_any_input (w sb lb : JSNum) (s : State) :
    (applySettings w sb lb s).settings =
      { workDuration := w, shortBreakDuration := sb, longBreakDuration := lb } ∧
    (applySettings w sb lb s).pomodoroSettings =
      some { workDuration := w.toJSON, shortBreakDuration := sb.toJSON,
             longBreakDuration := lb.toJSON } ∧
    (∀ a b c : Int, w = .num a → sb = .num b → lb = .num c →
      a.natAbs < doubleLimit → b.natAbs < doubleLimit → c.natAbs < doubleLimit →
      (applySettings w sb lb s).pomodoroSettings =
        some { workDuration := .num a, shortBreakDuration := .num b,
               longBreakDuration := .num c }) ∧
    (w = .nan ∨ w.isInfinite = true →
      ∀ cfg, (applySettings w sb lb s).pomodoroSettings = some cfg →
        cfg.workDuration = .null) ∧
    (applySettings w sb lb s).currentMode = .work ∧
    (applySettings w sb lb s).workCycle = 1 ∧
    (applySettings w sb lb s).isRunning = false ∧
    (applySettings w sb lb s).timeLeft = w.mul (.num 60) ∧
    (applySettings w sb lb s).totalDuration = w.mul (.num 60) := by
  refine ⟨by simp, by simp, fun a b c ha hb hc fa fb fc => ?_, fun hw cfg hcfg => ?_,
    by simp, by simp, by simp, by simp, by simp⟩
  · subst ha hb hc
    rw [(applySettings_frame _ _ _ s).2.2.2.2.2.2.2.2.2.2.2, JSNum.toJSON_num a fa,
      JSNum.toJSON_num b fb, JSNum.toJSON_num c fc]
  · simp only [applySettings_frame, Option.some.injEq] at hcfg
    rw [← hcfg]
    show w.toJSON = .null
    rcases hw with hw | hw
    · subst hw; rfl
    · cases w with
      | nan => rfl
      | null => rfl
      | num a =>
        have ha : doubleLimit ≤ a.natAbs := by simpa [JSNum.isInfinite] using hw
        show (if doubleLimit ≤ a.natAbs then JSNum.null else JSNum.num a) = _
        rw [if_pos ha]

/-! ## Runs of events and the interval callback -/

theorem run_invariant (P : State → Prop) (ok : Event → Prop)
    (hstep : ∀ s e, ok e → P s → P (step s e)) :
    ∀ (evs : List Event) (s : State), (∀ e ∈ evs, ok e) → P s → P (run s evs) := by
  intro evs
  induction evs with
  | nil => intro s _ hs; exact hs
  | cons e es ih =>
    intro s hok hs
    exact ih (step s e) (fun e' he' => hok e' (List.mem_cons_of_mem _ he'))
      (hstep s e (hok e (List.mem_cons_self _ _)) hs)

theorem tick_invariant (P : State → Prop) (today : String)
    (hcb : ∀ s, P s → P (intervalCallback today s)) (s : State) (hs : P s) :
    P (tick today s) := by
  unfold tick
  generalize s.active = l
  induction l generalizing s with
  | nil => exact hs
  | cons h hs' ih =>
    simp only [List.foldl_cons]
    apply ih
    split
    · exact hcb s hs
    · exact hs

theorem intervalCallback_eq (today : String) (s : State) :
    intervalCallback today s =
      if s.timeLeft.dec.leZero then completeSession today (countdown s) else countdown s := rfl

@[simp] theorem countdown_frame (s : State) :
    (countdown s).timeLeft = s.timeLeft.dec ∧
    (countdown s).isRunning = s.isRunning ∧
    (countdown s).currentMode = s.currentMode ∧
    (countdown s).workCycle = s.workCycle ∧
    (countdown s).interval = s.interval ∧
    (countdown s).totalDuration = s.totalDuration ∧
    (countdown s).settings = s.settings ∧
    (countdown s).active = s.active ∧
    (countdown s).nextId = s.nextId ∧
    (countdown s).completedAt = s.completedAt ∧
    (countdown s).pomodoroStats = s.pomodoroStats ∧
    (countdown s).pomodoroSettings = s.pomodoroSettings ∧
    (countdown s).dailyCountEl = s.dailyCountEl ∧
    (countdown s).totalCountEl = s.totalCountEl ∧
    (countdown s).timerDisplay = renderTime s.timeLeft.dec :=
  ⟨rfl, rfl, rfl, rfl, rfl, rfl, rfl, rfl, rfl, rfl, rfl, rfl, rfl, rfl, rfl⟩

theorem intervalCallback_counting (today : String) (s : State) (t : Int)
    (ht : s.timeLeft = .num t) (h1 : 1 < t) : intervalCallback today s = countdown s := by
  rw [intervalCallback_eq, ht]
  have : ¬ roundDouble (t - 1) ≤ 0 := not_le.mpr (roundDouble_pos _ (by omega))
  simp [this]

theorem intervalCallback_expiry (today : String) (s : State) (t : Int)
    (ht : s.timeLeft = .num t) (h1 : t ≤ 1) :
    intervalCallback today s = completeSession today (countdown s) := by
  rw [intervalCallback_eq, ht]
  have : roundDouble (t - 1) ≤ 0 := roundDouble_nonpos _ (by omega)
  simp [this]

theorem Settings.minutes_pos (cfg : Settings) (h : cfg.allPos = true) (m : Mode) :
    ∃ x : Int, 0 < x ∧ cfg.minutes m = .num x := by
  obtain ⟨wd, sd, ld⟩ := cfg
  simp only [Settings.allPos, Bool.and_eq_true] at h
  obtain ⟨⟨hw, hs⟩, hl⟩ := h
  cases m
  · cases wd with
    | nan => simp [JSNum.isPos] at hw
    | num a => exact ⟨a, by simpa [JSNum.isPos] using hw, rfl⟩
    | null => simp [JSNum.isPos] at hw
  · cases sd with
    | nan => simp [JSNum.isPos] at hs
    | num a => exact ⟨a, by simpa [JSNum.isPos] using hs, rfl⟩
    | null => simp [JSNum.isPos] at hs
  · cases ld with
    | nan => simp [JSNum.isPos] at hl
    | num a => exact ⟨a, by simpa [JSNum.isPos] using hl, rfl⟩
    | null => simp [JSNum.isPos] at hl

/-! ## Bounds on the remaining time -/

theorem counting_of_frame {s t : State} (hs : Counting s) (h1 : t.settings = s.settings)
    (h2 : t.timeLeft = s.timeLeft) (h3 : t.totalDuration = s.totalDuration) : Counting t := by
  unfold Counting at *
  rw [h1, h2, h3]; exact hs

theorem Counting.of_fresh {t : State} (m : Mode) (hpos : t.settings.allPos = true)
    (h2 : t.timeLeft = (t.settings.minutes m).mul (.num 60))
    (h3 : t.totalDuration = (t.settings.minutes m).mul (.num 60)) : Counting t := by
  obtain ⟨x, hx, hm⟩ := Settings.minutes_pos t.settings hpos m
  have hp : 0 < roundDouble (x * 60) := roundDouble_pos _ (by omega)
  refine ⟨hpos, roundDouble (x * 60), roundDouble (x * 60), ?_, ?_, by omega, le_refl _,
    roundDouble_isDouble _ (by omega)⟩
  · rw [h2, hm, JSNum.mul_num]
  · rw [h3, hm, JSNum.mul_num]

theorem completeSession_counting (today : String) (s : State)
    (hpos : s.settings.allPos = true) : Counting (completeSession today s) := by
  apply Counting.of_fresh (completeSession today s).currentMode
  · simpa using hpos
  · rw [completeSession_timeLeft]; simp
  · rw [completeSession_totalDuration]; simp

theorem resetTimer_counting (s : State) (hpos : s.settings.allPos = true) :
    Counting (resetTimer s) := by
  apply Counting.of_fresh .work
  · simpa using hpos
  · simp [Settings.minutes]
  · simp [Settings.minutes]

theorem intervalCallback_preserves_counting (today : String) (s : State) (hs : Counting s) :
    Counting (intervalCallback today s) := by
  obtain ⟨hpos, t, T, ht, hT, h1, h2, hD⟩ := hs
  by_cases hlast : t ≤ 1
  · rw [intervalCallback_expiry today s t ht hlast]
    exact completeSession_counting today _ (by simpa using hpos)
  · rw [intervalCallback_counting today s t ht (by omega)]
    have hp : 0 < roundDouble (t - 1) := roundDouble_pos _ (by omega)
    refine ⟨by simpa using hpos, roundDouble (t - 1), T, ?_, ?_, by omega,
      roundDouble_le_of_isDouble (t - 1) T (by omega) (by omega) hD, hD⟩
    · simp [ht]
    · simpa using hT

theorem step_preserves_counting (s : State) (e : Event) (he : e.positive = true)
    (hs : Counting s) : Counting (step s e) := by
  cases e with
  | start => exact counting_of_frame hs (by simp [step]) (by simp [step]) (by simp [step])
  | pause => exact counting_of_frame hs (by simp [step]) (by simp [step]) (by simp [step])
  | reset => exact resetTimer_counting s hs.1
  | keySpace =>
    simp only [step]
    split
    · exact counting_of_frame hs (by simp) (by simp) (by simp)
    · exact counting_of_frame hs (by simp) (by simp) (by simp)
  | tick today =>
    exact tick_invariant Counting today (intervalCallback_preserves_counting today) s hs
  | completeSession today => exact completeSession_counting today s hs.1
  | applySettings w sb lb =>
    have hpos : (applySettings w sb lb s).settings.allPos = true := by
      simpa [Settings.allPos, Event.positive] using he
    exact Counting.of_fresh .work hpos (by simp [step, Settings.minutes])
      (by simp [step, Settings.minutes])
  | feedbackTimeout => exact counting_of_frame hs (by simp [step]) (by simp [step]) (by simp [step])
  | closeModal => exact counting_of_frame hs (by simp [step]) (by simp [step]) (by simp [step])
  | toggleDarkMode => exact counting_of_frame hs (by simp [step]) (by simp [step]) (by simp [step])
  | firstClick => exact counting_of_frame hs (by simp [step]) (by simp [step]) (by simp [step])

theorem startup_eq (today : String) (page : State) :
    startup today page =
      loadDarkMode (resetTimer (loadStats today (loadSettings (construct page)))) := rfl

theorem startup_settings (today : String) (page : State) :
    (startup today page).settings =
      match page.pomodoroSettings with
      | some saved => saved
      | none => { workDuration := .num 25, shortBreakDuration := .num 5,
                  longBreakDuration := .num 15 } := by
  rw [startup_eq]
  simp only [loadDarkMode_frame, resetTimer_frame, loadStats_frame]
  unfold loadSettings construct
  cases page.pomodoroSettings <;> rfl

theorem startup_counting (today : String) (page : State) (hpage : page.snapshotPos = true) :
    Counting (startup today page) := by
  have hpos : (startup today page).settings.allPos = true := by
    rw [startup_settings]
    unfold State.snapshotPos at hpage
    cases h : page.pomodoroSettings with
    | none => rfl
    | some cfg => simpa [h] using hpage
  have hset : (startup today page).settings =
      (loadStats today (loadSettings (construct page))).settings := by
    rw [startup_eq]; simp
  apply Counting.of_fresh .work hpos
  · rw [hset, startup_eq]; simp [Settings.minutes]
  · rw [hset, startup_eq]; simp [Settings.minutes]

/-- C5: in every state reached from startup with positive integer settings
(stored snapshot, if any, all positive) by any sequence of events in which
every `applySettings` carries positive integers (start, pause, reset, ticks of
the timer queue, session completions and the remaining page events included),
`timeLeft` and `totalDuration` are integers with
`0 ≤ timeLeft ≤ totalDuration` and `totalDuration > 0`. -/
theorem reachable_timeLeft_bounds (today : String) (page : State) (evs : List Event)
    (hpage : page.snapshotPos = true) (hevs : ∀ e ∈ evs, e.positive = true) :
    ∃ t T : Int, (run (startup today page) evs).timeLeft = .num t ∧
      (run (startup today page) evs).totalDuration = .num T ∧
      0 ≤ t ∧ t ≤ T ∧ 0 < T := by
  have h := run_invariant Counting (fun e => e.positive = true) step_preserves_counting evs
    (startup today page) hevs (startup_counting today page hpage)
  obtain ⟨_, t, T, ht, hT, h1, h2, _⟩ := h
  exact ⟨t, T, ht, hT, by omega, h2, by omega⟩

/-- Witness for C5: startup on the blank page, then start, two ticks, pause,
positive settings applied, start, a tick and a reset. -/
theorem reachable_timeLeft_bounds_witness :
    blankPage.snapshotPos = true ∧
    (∀ e ∈ [Event.start, .tick "Fri Nov 06 2026", .tick "Fri Nov 06 2026", .pause,
        .applySettings (.num 1) (.num 2) (.num 3), .start, .tick "Sat Nov 07 2026", .reset],
      e.positive = true) ∧
    ∃ t T : Int,
      (run (startup "Fri Nov 06 2026" blankPage)
        [Event.start, .tick "Fri Nov 06 2026", .tick "Fri Nov 06 2026", .pause,
          .applySettings (.num 1) (.num 2) (.num 3), .start, .tick "Sat Nov 07 2026",
          .reset]).timeLeft = .num t ∧
      (run (startup "Fri Nov 06 2026" blankPage)
        [Event.start, .tick "Fri Nov 06 2026", .tick "Fri Nov 06 2026", .pause,
          .applySettings (.num 1) (.num 2) (.num 3), .start, .tick "Sat Nov 07 2026",
          .reset]).totalDuration = .num T ∧
      0 ≤ t ∧ t ≤ T ∧ 0 < T :=
  ⟨by decide, by decide,
   reachable_timeLeft_bounds "Fri Nov 06 2026" blankPage
     [Event.start, .tick "Fri Nov 06 2026", .tick "Fri Nov 06 2026", .pause,
       .applySettings (.num 1) (.num 2) (.num 3), .start, .tick "Sat Nov 07 2026", .reset]
     (by decide) (by decide)⟩

/-! ## The total duration follows the settings -/

theorem durationConfigured_of_frame {s t : State} (hs : DurationConfigured s)
    (h1 : t.settings = s.settings) (h2 : t.currentMode = s.currentMode)
    (h3 : t.totalDuration = s.totalDuration) : DurationConfigured t := by
  unfold DurationConfigured at *
  rw [h1, h2, h3]; exact hs

theorem completeSession_durationConfigured (today : String) (s : State) :
    DurationConfigured (completeSession today s) := by
  unfold DurationConfigured
  rw [completeSession_totalDuration]; simp

theorem resetTimer_durationConfigured (s : State) : DurationConfigured (resetTimer s) := by
  unfold DurationConfigured
  simp [Settings.minutes]

theorem intervalCallback_durationConfigured (today : String) (s : State)
    (hs : DurationConfigured s) : DurationConfigured (intervalCallback today s) := by
  rw [intervalCallback_eq]
  split
  · exact completeSession_durationConfigured today _
  · exact durationConfigured_of_frame hs (by simp) (by simp) (by simp)

theorem step_durationConfigured (s : State) (e : Event) (hs : DurationConfigured s) :
    DurationConfigured (step s e) := by
  cases e with
  | start => exact durationConfigured_of_frame hs (by simp [step]) (by simp [step]) (by simp [step])
  | pause => exact durationConfigured_of_frame hs (by simp [step]) (by simp [step]) (by simp [step])
  | reset => exact resetTimer_durationConfigured s
  | keySpace =>
    simp only [step]
    split
    · exact durationConfigured_of_frame hs (by simp) (by simp) (by simp)
    · exact durationConfigured_of_frame hs (by simp) (by simp) (by simp)
  | tick today =>
    exact tick_invariant DurationConfigured today (intervalCallback_durationConfigured today)
      s hs
  | completeSession today => exact completeSession_durationConfigured today s
  | applySettings w sb lb =>
    unfold DurationConfigured
    simp [step, Settings.minutes]
  | feedbackTimeout => exact durationConfigured_of_frame hs (by simp [step]) (by simp [step]) (by simp [step])
  | closeModal => exact durationConfigured_of_frame hs (by simp [step]) (by simp [step]) (by simp [step])
  | toggleDarkMode => exact durationConfigured_of_frame hs (by simp [step]) (by simp [step]) (by simp [step])
  | firstClick => exact durationConfigured_of_frame hs (by simp [step]) (by simp [step]) (by simp [step])

theorem startup_durationConfigured (today : String) (page : State) :
    DurationConfigured (startup today page) := by
  rw [startup_eq]
  exact durationConfigured_of_frame (resetTimer_durationConfigured
    (loadStats today (loadSettings (construct page)))) (by simp) (by simp) (by simp)

/-- C6: after every mode transition (`switchMode`, and `completeSession` which
runs it) and after every `resetTimer`, `timeLeft` and `totalDuration` both
equal 60 times the minutes that the current settings configure for the new
mode; and in every state reached from startup by any sequence of events,
`totalDuration` is 60 times the minutes the current settings configure for
`currentMode`. -/
theorem duration_follows_settings :
    (∀ s : State,
      (switchMode s).timeLeft =
        ((switchMode s).settings.minutes (switchMode s).currentMode).mul (.num 60) ∧
      (switchMode s).totalDuration =
        ((switchMode s).settings.minutes (switchMode s).currentMode).mul (.num 60)) ∧
    (∀ (today : String) (s : State),
      (completeSession today s).timeLeft =
        ((completeSession today s).settings.minutes (completeSession today s).currentMode).mul
          (.num 60) ∧
      (completeSession today s).totalDuration =
        ((completeSession today s).settings.minutes (completeSession today s).currentMode).mul
          (.num 60)) ∧
    (∀ s : State,
      (resetTimer s).timeLeft =
        ((resetTimer s).settings.minutes (resetTimer s).currentMode).mul (.num 60) ∧
      (resetTimer s).totalDuration =
        ((resetTimer s).settings.minutes (resetTimer s).currentMode).mul (.num 60)) ∧
    (∀ (today : String) (page : State) (evs : List Event),
      (run (startup today page) evs).totalDuration =
        ((run (startup today page) evs).settings.minutes
          (run (startup today page) evs).currentMode).mul (.num 60)) := by
  refine ⟨fun s => ?_, fun today s => ?_, fun s => ?_, fun today page evs => ?_⟩
  · rw [switchMode_timeLeft, switchMode_totalDuration]; simp
  · rw [completeSession_timeLeft, completeSession_totalDuration]; simp
  · simp [Settings.minutes]
  · exact run_invariant DurationConfigured (fun _ => True)
      (fun s e _ hs => step_durationConfigured s e hs) evs (startup today page)
      (fun _ _ => trivial) (startup_durationConfigured today page)

/-! ## Countdown while running -/

theorem SameSession.refl (s : State) : SameSession s s :=
  ⟨rfl, rfl, rfl, rfl, rfl, rfl, rfl, rfl, rfl, rfl, rfl, rfl, rfl⟩

theorem SameSession.trans {a b c : State} (hab : SameSession a b) (hbc : SameSession b c) :
    SameSession a c := by
  unfold SameSession at *
  obtain ⟨a1, a2, a3, a4, a5, a6, a7, a8, a9, a10, a11, a12, a13⟩ := hab
  obtain ⟨b1, b2, b3, b4, b5, b6, b7, b8, b9, b10, b11, b12, b13⟩ := hbc
  exact ⟨b1.trans a1, b2.trans a2, b3.trans a3, b4.trans a4, b5.trans a5, b6.trans a6,
    b7.trans a7, b8.trans a8, b9.trans a9, b10.trans a10, b11.trans a11, b12.trans a12,
    b13.trans a13⟩

theorem countdown_sameSession (s : State) : SameSession s (countdown s) :=
  ⟨rfl, rfl, rfl, rfl, rfl, rfl, rfl, rfl, rfl, rfl, rfl, rfl, rfl⟩

theorem callbacks_countdown (days : List String) :
    ∀ (s : State) (t : Int), s.timeLeft = .num t → (days.length : Int) < t →
      t ≤ 9007199254740992 →
      (callbacks s days).timeLeft = .num (t - days.length) ∧
      SameSession s (callbacks s days) ∧
      (days ≠ [] → (callbacks s days).timerDisplay = renderTime (.num (t - days.length))) := by
  induction days with
  | nil =>
    intro s t ht _ _
    exact ⟨by simpa using ht, SameSession.refl s, fun h => absurd rfl h⟩
  | cons d ds ih =>
    intro s t ht hlen hb
    have hlen' : (ds.length : Int) + 1 < t := by simpa using hlen
    have hstep : intervalCallback d s = countdown s :=
      intervalCallback_counting d s t ht (by omega)
    have hunf : callbacks s (d :: ds) = callbacks (countdown s) ds := by
      simp only [callbacks, List.foldl_cons, hstep]
    have hdec : (JSNum.num t).dec = .num (t - 1) := JSNum.dec_num_exact t (by omega)
    have ht' : (countdown s).timeLeft = .num (t - 1) := by
      rw [(countdown_frame s).1, ht, hdec]
    obtain ⟨h1, h2, h3⟩ := ih (countdown s) (t - 1) ht' (by omega) (by omega)
    have harith : t - 1 - (ds.length : Int) = t - ((d :: ds).length : Int) := by
      simp only [List.length_cons, Nat.cast_add, Nat.cast_one]; omega
    rw [hunf, ← harith]
    refine ⟨h1, (countdown_sameSession s).trans h2, fun _ => ?_⟩
    cases ds with
    | nil =>
      simp only [callbacks, List.foldl_nil, List.length_nil, Nat.cast_zero, sub_zero]
      rw [(countdown_frame s).2.2.2.2.2.2.2.2.2.2.2.2.2.2, ht, hdec]
    | cons d' ds' => exact h3 (by simp)

/-- C8 (counterexample): the running state with `timeLeft = 9007199254741020`,
reached by applying 150119987579017 work minutes and starting, is left with
the same `timeLeft` by a firing of the interval callback: the double nearest
to `timeLeft - 1` is `timeLeft` itself. -/
theorem tick_stalls_above_two_pow_53 :
    longWorkState.isRunning = true ∧
    longWorkState.timeLeft = .num 9007199254741020 ∧
    (1 : Int) < 9007199254741020 ∧
    (intervalCallback "Fri Nov 06 2026" longWorkState).timeLeft = .num 9007199254741020 ∧
    (intervalCallback "Fri Nov 06 2026" longWorkState).timeLeft
      ≠ .num (9007199254741020 - 1) := by
  decide

/-- C8 (amended): for every running state with integer `timeLeft = t`,
`1 < t ≤ 2^53` (the range in which the double decrement is exact), one firing
of the interval callback yields `timeLeft = t - 1` and leaves mode, cycle,
total duration, running flag, settings and stats unchanged; hence any run of
fewer than `t` firings lowers `timeLeft` by exactly one per firing, with the
same fields unchanged. -/
theorem tick_decrements_timeLeft (today : String) (s : State) (t : Int)
    (hrun : s.isRunning = true) (ht : s.timeLeft = .num t) (hgt : 1 < t)
    (hbound : t ≤ 9007199254740992) :
    ((intervalCallback today s).timeLeft = .num (t - 1) ∧
      (intervalCallback today s).currentMode = s.currentMode ∧
      (intervalCallback today s).workCycle = s.workCycle ∧
      (intervalCallback today s).totalDuration = s.totalDuration ∧
      (intervalCallback today s).isRunning = true ∧
      (intervalCallback today s).settings = s.settings ∧
      (intervalCallback today s).pomodoroSettings = s.pomodoroSettings ∧
      (intervalCallback today s).pomodoroStats = s.pomodoroStats ∧
      (intervalCallback today s).dailyCountEl = s.dailyCountEl ∧
      (intervalCallback today s).totalCountEl = s.totalCountEl) ∧
    (∀ days : List String, (days.length : Int) < t →
      (callbacks s days).timeLeft = .num (t - days.length) ∧
      (callbacks s days).isRunning = true ∧
      SameSession s (callbacks s days)) := by
  constructor
  · rw [intervalCallback_counting today s t ht hgt]
    have hdec : (JSNum.num t).dec = .num (t - 1) := JSNum.dec_num_exact t (by omega)
    have h := countdown_frame s
    exact ⟨by rw [h.1, ht, hdec], h.2.2.1, h.2.2.2.1, h.2.2.2.2.2.1, by rw [h.2.1, hrun],
      h.2.2.2.2.2.2.1, h.2.2.2.2.2.2.2.2.2.2.2.1, h.2.2.2.2.2.2.2.2.2.2.1,
      h.2.2.2.2.2.2.2.2.2.2.2.2.1, h.2.2.2.2.2.2.2.2.2.2.2.2.2.1⟩
  · intro days hlen
    obtain ⟨h1, h2, _⟩ := callbacks_countdown days s t ht hlen hbound
    exact ⟨h1, by rw [h2.2.2.2.1, hrun], h2⟩

/-- Witness for C8: the started timer of the fresh page, at 1500 seconds. -/
theorem tick_decrements_timeLeft_witness :
    (startTimer freshState).isRunning = true ∧
    (startTimer freshState).timeLeft = .num 1500 ∧
    ((1 : Int) < 1500 ∧ (1500 : Int) ≤ 9007199254740992) ∧
    (intervalCallback "Fri Nov 06 2026" (startTimer freshState)).timeLeft = .num (1500 - 1) ∧
    (callbacks (startTimer freshState) ["a", "b", "c"]).timeLeft
      = .num (1500 - (["a", "b", "c"].length : Nat)) :=
  ⟨by decide, by decide, by decide,
   (tick_decrements_timeLeft "Fri Nov 06 2026" (startTimer freshState) 1500 (by decide)
     (by decide) (by decide) (by decide)).1.1,
   ((tick_decrements_timeLeft "Fri Nov 06 2026" (startTimer freshState) 1500 (by decide)
     (by decide) (by decide) (by decide)).2 ["a", "b", "c"] (by decide)).1⟩

/-- C9: `startTimer` is idempotent: called twice it yields the very state that
one call yields, in every field, the scheduled tick sources included. -/
theorem startTimer_idempotent (s : State) : startTimer (startTimer s) = startTimer s := by
  unfold startTimer
  cases h : s.isRunning <;> simp [h]

/-! ## Scheduler discipline -/

theorem Scheduled.of_stopped {t : State} (h1 : t.isRunning = false) (h2 : t.active = []) :
    Scheduled t :=
  ⟨fun h => absurd (h1.symm.trans h) (by decide), fun _ => h2⟩

theorem scheduled_of_frame {s t : State} (hs : Scheduled s) (h1 : t.isRunning = s.isRunning)
    (h2 : t.active = s.active) (h3 : t.interval = s.interval) : Scheduled t := by
  unfold Scheduled at *
  rw [h1, h2, h3]; exact hs

theorem pauseTimer_active_nil (s : State) (hs : Scheduled s) : (pauseTimer s).active = [] := by
  rw [pauseTimer_active]
  cases hr : s.isRunning with
  | false => simpa using hs.2 hr
  | true =>
    obtain ⟨h, ha, hi⟩ := hs.1 hr
    simp [ha, hi, clearInterval]

theorem pauseTimer_scheduled (s : State) (hs : Scheduled s) : Scheduled (pauseTimer s) :=
  Scheduled.of_stopped (by simp) (pauseTimer_active_nil s hs)

theorem resetTimer_scheduled (s : State) (hs : Scheduled s) : Scheduled (resetTimer s) :=
  Scheduled.of_stopped (by simp) (by simpa using pauseTimer_active_nil s hs)

theorem completeSession_scheduled (today : String) (s : State) (hs : Scheduled s) :
    Scheduled (completeSession today s) :=
  Scheduled.of_stopped (by simp) (by simpa using pauseTimer_active_nil s hs)

theorem startTimer_of_stopped (s : State) (h : s.isRunning = false) :
    (startTimer s).isRunning = true ∧ (startTimer s).active = s.active ++ [s.nextId] ∧
    (startTimer s).interval = some s.nextId := by
  unfold startTimer
  simp [h]

theorem startTimer_of_running (s : State) (h : s.isRunning = true) : startTimer s = s := by
  unfold startTimer
  simp [h]

theorem startTimer_scheduled (s : State) (hs : Scheduled s) : Scheduled (startTimer s) := by
  cases hr : s.isRunning with
  | true => rw [startTimer_of_running s hr]; exact hs
  | false =>
    obtain ⟨h1, h2, h3⟩ := startTimer_of_stopped s hr
    refine ⟨fun _ => ⟨s.nextId, ?_, h3⟩, fun h => ?_⟩
    · rw [h2, hs.2 hr]; rfl
    · rw [h1] at h; cases h

theorem intervalCallback_scheduled (today : String) (s : State) (hs : Scheduled s) :
    Scheduled (intervalCallback today s) := by
  rw [intervalCallback_eq]
  split
  · exact completeSession_scheduled today _ (scheduled_of_frame hs (by simp) (by simp) (by simp))
  · exact scheduled_of_frame hs (by simp) (by simp) (by simp)

theorem step_scheduled (s : State) (e : Event) (hs : Scheduled s) : Scheduled (step s e) := by
  cases e with
  | start => exact startTimer_scheduled s hs
  | pause => exact pauseTimer_scheduled s hs
  | reset => exact resetTimer_scheduled s hs
  | keySpace =>
    simp only [step]
    split
    · exact pauseTimer_scheduled s hs
    · exact startTimer_scheduled s hs
  | tick today =>
    exact tick_invariant Scheduled today (intervalCallback_scheduled today) s hs
  | completeSession today => exact completeSession_scheduled today s hs
  | applySettings w sb lb =>
    exact Scheduled.of_stopped (by simp [step])
      (by simpa [step] using pauseTimer_active_nil s hs)
  | feedbackTimeout => exact scheduled_of_frame hs (by simp [step]) (by simp [step]) (by simp [step])
  | closeModal => exact scheduled_of_frame hs (by simp [step]) (by simp [step]) (by simp [step])
  | toggleDarkMode => exact scheduled_of_frame hs (by simp [step]) (by simp [step]) (by simp [step])
  | firstClick => exact scheduled_of_frame hs (by simp [step]) (by simp [step]) (by simp [step])

theorem startup_scheduled (today : String) (page : State) : Scheduled (startup today page) := by
  rw [startup_eq]
  have h0 : Scheduled (loadStats today (loadSettings (construct page))) :=
    Scheduled.of_stopped (by simp [construct]) (by simp [construct])
  exact scheduled_of_frame (resetTimer_scheduled _ h0) (by simp) (by simp) (by simp)

theorem Reachable.scheduled {s : State} (h : Reachable s) : Scheduled s := by
  obtain ⟨today, page, evs, rfl⟩ := h
  exact run_invariant Scheduled (fun _ => True) (fun s e _ hs => step_scheduled s e hs) evs
    (startup today page) (fun _ _ => trivial) (startup_scheduled today page)

theorem tick_of_idle (today : String) (s : State) (h : s.active = []) : tick today s = s := by
  unfold tick
  rw [h]; rfl

theorem tick_of_single (today : String) (s : State) (h : Nat) (ha : s.active = [h]) :
    tick today s = intervalCallback today s := by
  unfold tick
  rw [ha]
  simp [ha]

theorem tick_of_scheduled (today : String) (s : State) (hs : Scheduled s) :
    tick today s = if s.isRunning then intervalCallback today s else s := by
  cases hr : s.isRunning with
  | false => simpa using tick_of_idle today s (hs.2 hr)
  | true =>
    obtain ⟨h, ha, _⟩ := hs.1 hr
    simpa using tick_of_single today s h ha

/-- C10: with the scheduler modelled as the list of active periodic sources,
every state reached from startup by any sequence of events (start, pause,
reset, tick, completeSession, applySettings and the other page events) has
exactly one active source when `isRunning` is true and none when it is false;
so a tick of the queue runs the callback once when running and not at all
otherwise, and no source is left, and no tick has any effect, right after a
pause or a reset. -/
theorem one_tick_source_iff_running (s : State) (hreach : Reachable s) :
    (s.isRunning = true → s.active.length = 1) ∧
    (s.isRunning = false → s.active = []) ∧
    (∀ today : String,
      tick today s = if s.isRunning then intervalCallback today s else s) ∧
    ((pauseTimer s).active = [] ∧ ∀ today : String, tick today (pauseTimer s) = pauseTimer s) ∧
    ((resetTimer s).active = [] ∧ ∀ today : String, tick today (resetTimer s) = resetTimer s) := by
  have hs := hreach.scheduled
  refine ⟨fun hr => ?_, hs.2, fun today => tick_of_scheduled today s hs, ⟨?_, fun today => ?_⟩,
    ⟨?_, fun today => ?_⟩⟩
  · obtain ⟨h, ha, _⟩ := hs.1 hr
    rw [ha]; rfl
  · exact pauseTimer_active_nil s hs
  · exact tick_of_idle today _ (pauseTimer_active_nil s hs)
  · simpa using pauseTimer_active_nil s hs
  · exact tick_of_idle today _ (by simpa using pauseTimer_active_nil s hs)

/-- Witness for C10: the page after startup, a start, a tick, a pause and a
second start is reachable and running, with exactly one source scheduled. -/
theorem one_tick_source_iff_running_witness :
    Reachable (run (startup "Fri Nov 06 2026" blankPage)
      [Event.start, .tick "Fri Nov 06 2026", .pause, .start]) ∧
    (run (startup "Fri Nov 06 2026" blankPage)
      [Event.start, .tick "Fri Nov 06 2026", .pause, .start]).isRunning = true ∧
    (run (startup "Fri Nov 06 2026" blankPage)
      [Event.start, .tick "Fri Nov 06 2026", .pause, .start]).active.length = 1 :=
  ⟨⟨_, _, _, rfl⟩, by decide,
   (one_tick_source_iff_running _ ⟨"Fri Nov 06 2026", blankPage,
     [Event.start, .tick "Fri Nov 06 2026", .pause, .start], rfl⟩).1 (by decide)⟩

/-! ## A whole work session -/

theorem ticks_countdown (days : List String) :
    ∀ (s : State) (t : Int) (h : Nat), s.active = [h] → s.timeLeft = .num t →
      (days.length : Int) < t → t ≤ 9007199254740992 → ticks s days = callbacks s days := by
  induction days with
  | nil => intro s t h _ _ _ _; rfl
  | cons d ds ih =>
    intro s t h ha ht hlen hb
    have hlen' : (ds.length : Int) + 1 < t := by simpa using hlen
    have hstep : intervalCallback d s = countdown s :=
      intervalCallback_counting d s t ht (by omega)
    have h1 : ticks s (d :: ds) = ticks (countdown s) ds := by
      simp only [ticks, List.foldl_cons, tick_of_single d s h ha, hstep]
    have h2 : callbacks s (d :: ds) = callbacks (countdown s) ds := by
      simp only [callbacks, List.foldl_cons, hstep]
    have hdec : (JSNum.num t).dec = .num (t - 1) := JSNum.dec_num_exact t (by omega)
    rw [h1, h2]
    exact ih (countdown s) (t - 1) h (by simpa using ha)
      (by rw [(countdown_frame s).1, ht, hdec]) (by omega) (by omega)

theorem ticks_append (s : State) (days : List String) (d : String) :
    ticks s (days ++ [d]) = tick d (ticks s days) := by
  simp [ticks, List.foldl_append]

theorem completeSession_from_work (today : String) (s : State) (sb : Int)
    (hm : s.currentMode = .work) (hc : s.workCycle = 1)
    (hsb : s.settings.shortBreakDuration = .num sb)
    (hb : (sb * 60).natAbs ≤ 9007199254740992) :
    (completeSession today s).currentMode = .shortBreak ∧
    (completeSession today s).workCycle = 2 ∧
    (completeSession today s).timeLeft = .num (sb * 60) ∧
    (completeSession today s).timerDisplay = renderTime (.num (sb * 60)) := by
  have hp := completeSession_phase today s
  have hphase : phase (completeSession today s) = (.shortBreak, 2) := by
    rw [hp]; simp [phase, nextPhase, hm, hc]
  have hmode : (completeSession today s).currentMode = .shortBreak :=
    congrArg Prod.fst hphase
  have hcyc : (completeSession today s).workCycle = 2 := congrArg Prod.snd hphase
  have htl : (completeSession today s).timeLeft = .num (sb * 60) := by
    rw [completeSession_timeLeft, hmode]
    simp only [Settings.minutes, hsb]
    exact JSNum.mul_num_exact sb hb
  exact ⟨hmode, hcyc, htl, by rw [completeSession_timerDisplay, htl]⟩

theorem stalled_tick (today : String) (log : List JSNum) (s : State) (hs : Stalled log s) :
    Stalled log (tick today s) := by
  obtain ⟨ht, ⟨h, ha⟩, hl, hr, hm, hc⟩ := hs
  rw [tick_of_single today s h ha,
    intervalCallback_counting today s 9007199254741020 ht (by decide)]
  have hf := countdown_frame s
  have hdec : (JSNum.num 9007199254741020).dec = .num 9007199254741020 := by decide
  exact ⟨by rw [hf.1, ht, hdec], ⟨h, by rw [hf.2.2.2.2.2.2.2.1, ha]⟩,
    by rw [hf.2.2.2.2.2.2.2.2.2.1, hl], by rw [hf.2.1, hr], by rw [hf.2.2.1, hm],
    by rw [hf.2.2.2.1, hc]⟩

theorem stalled_ticks (log : List JSNum) (days : List String) :
    ∀ s : State, Stalled log s → Stalled log (ticks s days) := by
  induction days with
  | nil => intro s hs; exact hs
  | cons d ds ih => intro s hs; exact ih (tick d s) (stalled_tick d log s hs)

/-- C7 (counterexample): with work = 150119987579017 and shortBreak = 5, both
positive integers, reset and start leave `timeLeft = 9007199254741020`, which a
tick does not lower; after `w * 60 = 9007199254741020` ticks
`completeSession` has not run once: the completion log is empty, the mode is
still `work`, the time is the same and the timer is running. -/
theorem work_session_stalls_above_two_pow_53 :
    (longWorkBase.settings.workDuration = .num 150119987579017 ∧
      longWorkBase.settings.shortBreakDuration = .num 5) ∧
    ((List.replicate 9007199254741020 "Fri Nov 06 2026").length : Int)
      = 150119987579017 * 60 ∧
    (ticks (startTimer (resetTimer longWorkBase))
      (List.replicate 9007199254741020 "Fri Nov 06 2026")).completedAt = [] ∧
    (ticks (startTimer (resetTimer longWorkBase))
      (List.replicate 9007199254741020 "Fri Nov 06 2026")).currentMode = .work ∧
    (ticks (startTimer (resetTimer longWorkBase))
      (List.replicate 9007199254741020 "Fri Nov 06 2026")).timeLeft
        = .num 9007199254741020 ∧
    (ticks (startTimer (resetTimer longWorkBase))
      (List.replicate 9007199254741020 "Fri Nov 06 2026")).isRunning = true := by
  have h0 : Stalled [] (startTimer (resetTimer longWorkBase)) :=
    ⟨by decide, ⟨0, by decide⟩, by decide, by decide, by decide, by decide⟩
  obtain ⟨h1, _, h3, h4, h5, _⟩ :=
    stalled_ticks [] (List.replicate 9007199254741020 "Fri Nov 06 2026") _ h0
  exact ⟨⟨by decide, by decide⟩, by rw [List.length_replicate]; decide, h3, h5, h1, h4⟩

/-- C7 (amended): for all positive integer settings work = `w`, shortBreak =
`sb` with `w * 60 ≤ 2^53` and `sb * 60 ≤ 2^53` (the range in which the double
product and decrement are exact), from any state obeying the scheduler
discipline, after `resetTimer` and `startTimer` a run of `w * 60` ticks of the
timer queue enters `completeSession` exactly once: before each of the ticks
but the last the completion log is unchanged and the timer still counts down,
and the last tick appends the single entry `timeLeft = 0`. The run ends in
mode `shortBreak`, cycle 2, `timeLeft = sb * 60`, timer stopped, no source
scheduled. The display reads the rendering of `w * 60` seconds after the
reset and of `sb * 60` seconds at the end: "25:00" and "05:00" for 25 and 5. -/
theorem work_session_completes_once (s0 : State) (w sb : Int) (days : List String)
    (hsched : Scheduled s0) (hw : 0 < w) (hsb : 0 < sb)
    (hwbound : w * 60 ≤ 9007199254740992) (hsbbound : sb * 60 ≤ 9007199254740992)
    (hset : s0.settings.workDuration = .num w ∧ s0.settings.shortBreakDuration = .num sb)
    (hlen : (days.length : Int) = w * 60) :
    (∀ k : Nat, k < days.length →
      (ticks (startTimer (resetTimer s0)) (days.take k)).completedAt = s0.completedAt ∧
      (ticks (startTimer (resetTimer s0)) (days.take k)).timeLeft = .num (w * 60 - k) ∧
      (ticks (startTimer (resetTimer s0)) (days.take k)).isRunning = true) ∧
    (ticks (startTimer (resetTimer s0)) days).completedAt = s0.completedAt ++ [.num 0] ∧
    (ticks (startTimer (resetTimer s0)) days).currentMode = .shortBreak ∧
    (ticks (startTimer (resetTimer s0)) days).workCycle = 2 ∧
    (ticks (startTimer (resetTimer s0)) days).timeLeft = .num (sb * 60) ∧
    (ticks (startTimer (resetTimer s0)) days).isRunning = false ∧
    (ticks (startTimer (resetTimer s0)) days).active = [] ∧
    (startTimer (resetTimer s0)).timerDisplay = renderTime (.num (w * 60)) ∧
    (ticks (startTimer (resetTimer s0)) days).timerDisplay = renderTime (.num (sb * 60)) ∧
    (w = 25 → sb = 5 →
      (startTimer (resetTimer s0)).timerDisplay = "25:00" ∧
      (ticks (startTimer (resetTimer s0)) days).timerDisplay = "05:00") := by
  obtain ⟨hwd, hsd⟩ := hset
  have hmulw : (JSNum.num w).mul (.num 60) = .num (w * 60) :=
    JSNum.mul_num_exact w (by omega)
  -- the state after reset and start
  have hstop : (resetTimer s0).isRunning = false := by simp
  obtain ⟨hrun1, hact1, _⟩ := startTimer_of_stopped (resetTimer s0) hstop
  have hact0 : (resetTimer s0).active = [] := (resetTimer_scheduled s0 hsched).2 hstop
  rw [hact0, List.nil_append] at hact1
  have htl1 : (startTimer (resetTimer s0)).timeLeft = .num (w * 60) := by
    rw [(startTimer_frame (resetTimer s0)).1, (resetTimer_frame s0).2.2.2.1, hwd, hmulw]
  have hdisp1 : (startTimer (resetTimer s0)).timerDisplay = renderTime (.num (w * 60)) := by
    have h : (startTimer (resetTimer s0)).timerDisplay = (resetTimer s0).timerDisplay := by
      unfold startTimer; split <;> rfl
    rw [h, resetTimer_timerDisplay, hwd, hmulw]
  -- any number of ticks below `w * 60` only counts down
  have hprefix : ∀ l : List String, (l.length : Int) < w * 60 →
      ticks (startTimer (resetTimer s0)) l = callbacks (startTimer (resetTimer s0)) l ∧
      (callbacks (startTimer (resetTimer s0)) l).timeLeft = .num (w * 60 - l.length) ∧
      SameSession (startTimer (resetTimer s0)) (callbacks (startTimer (resetTimer s0)) l) :=
    fun l hl =>
      ⟨ticks_countdown l _ (w * 60) _ hact1 htl1 hl hwbound,
       (callbacks_countdown l _ (w * 60) htl1 hl hwbound).1,
       (callbacks_countdown l _ (w * 60) htl1 hl hwbound).2.1⟩
  -- the last tick
  have hne : days ≠ [] := by
    intro h; rw [h] at hlen; simp at hlen; omega
  obtain ⟨front, last, hsplit⟩ : ∃ front last, days = front ++ [last] :=
    ⟨days.dropLast, days.getLast hne, (List.dropLast_append_getLast hne).symm⟩
  subst hsplit
  have hdl : (front.length : Int) = w * 60 - 1 := by
    simp only [List.length_append, List.length_singleton, Nat.cast_add, Nat.cast_one] at hlen
    omega
  obtain ⟨hmid, hmidtl, hmidsame⟩ := hprefix front (by omega)
  have hmidtl1 : (callbacks (startTimer (resetTimer s0)) front).timeLeft = .num 1 := by
    rw [hmidtl, hdl]; congr 1; omega
  obtain ⟨m1, m2, _, m4, m5, _, _, _, _, m10, m11, _, m13⟩ := hmidsame
  have hfinal : ticks (startTimer (resetTimer s0)) (front ++ [last]) =
      completeSession last (countdown (callbacks (startTimer (resetTimer s0)) front)) := by
    rw [ticks_append, hmid, tick_of_single _ _ _ (m11.trans hact1),
      intervalCallback_expiry _ _ 1 hmidtl1 (le_refl _)]
  have hwork := completeSession_from_work last
    (countdown (callbacks (startTimer (resetTimer s0)) front)) sb
    (by simp [m1]) (by simp [m2]) (by simp [m5, hsd]) (by omega)
  rw [← hfinal] at hwork
  obtain ⟨f1, f2, f3, f4⟩ := hwork
  have hzero : (JSNum.num 1).dec = .num 0 := by decide
  have hlog : (ticks (startTimer (resetTimer s0)) (front ++ [last])).completedAt =
      s0.completedAt ++ [.num 0] := by
    rw [hfinal, (completeSession_frame last _).2.2.2.2.2.1, (countdown_frame _).1,
      (countdown_frame _).2.2.2.2.2.2.2.2.2.1, m13, hmidtl1, hzero]
    simp
  have hrunF : (ticks (startTimer (resetTimer s0)) (front ++ [last])).isRunning = false := by
    rw [hfinal]; simp
  have hactF : (ticks (startTimer (resetTimer s0)) (front ++ [last])).active = [] := by
    have hs1 : Scheduled (startTimer (resetTimer s0)) :=
      startTimer_scheduled _ (resetTimer_scheduled s0 hsched)
    have hsY : Scheduled (countdown (callbacks (startTimer (resetTimer s0)) front)) :=
      scheduled_of_frame hs1 (by simp [m4]) (by simp [m11]) (by simp [m10])
    have hsF := completeSession_scheduled last _ hsY
    rw [← hfinal] at hsF
    exact hsF.2 hrunF
  refine ⟨fun k hk => ?_, hlog, f1, f2, f3, hrunF, hactF, hdisp1, f4, fun h25 h5 => ?_⟩
  · have hklen : ((front ++ [last]).take k).length = k := by
      rw [List.length_take]; omega
    obtain ⟨p1, p2, p3⟩ := hprefix ((front ++ [last]).take k) (by rw [hklen]; omega)
    rw [p1, p2, hklen]
    obtain ⟨_, _, _, q4, _, _, _, _, _, _, _, _, q13⟩ := p3
    exact ⟨by rw [q13]; simp, rfl, by rw [q4, hrun1]⟩
  · subst h25 h5
    exact ⟨hdisp1.trans (by decide), f4.trans (by decide)⟩

/-- Witness for C7: the default settings 25/5 on the fresh page and 1500
ticks: one completion, logged at `timeLeft = 0`, and the display goes from
"25:00" to "05:00". -/
theorem work_session_completes_once_witness :
    Scheduled freshState ∧
    ((0 : Int) < 25 ∧ (0 : Int) < 5 ∧ (25 : Int) * 60 ≤ 9007199254740992 ∧
      (5 : Int) * 60 ≤ 9007199254740992) ∧
    (freshState.settings.workDuration = .num 25 ∧
      freshState.settings.shortBreakDuration = .num 5) ∧
    ((List.replicate 1500 "Fri Nov 06 2026").length : Int) = 25 * 60 ∧
    (ticks (startTimer (resetTimer freshState))
      (List.replicate 1500 "Fri Nov 06 2026")).completedAt
        = freshState.completedAt ++ [.num 0] ∧
    (startTimer (resetTimer freshState)).timerDisplay = "25:00" ∧
    (ticks (startTimer (resetTimer freshState))
      (List.replicate 1500 "Fri Nov 06 2026")).timerDisplay = "05:00" :=
  ⟨Scheduled.of_stopped (by decide) (by decide), by decide, ⟨by decide, by decide⟩,
   by rw [List.length_replicate]; decide,
   (work_session_completes_once freshState 25 5 (List.replicate 1500 "Fri Nov 06 2026")
     (Scheduled.of_stopped (by decide) (by decide)) (by decide) (by decide) (by decide)
     (by decide) ⟨by decide, by decide⟩ (by rw [List.length_replicate]; decide)).2.1,
   ((work_session_completes_once freshState 25 5 (List.replicate 1500 "Fri Nov 06 2026")
     (Scheduled.of_stopped (by decide) (by decide)) (by decide) (by decide) (by decide)
     (by decide) ⟨by decide, by decide⟩
     (by rw [List.length_replicate]; decide)).2.2.2.2.2.2.2.2.2 rfl rfl).1,
   ((work_session_completes_once freshState 25 5 (List.replicate 1500 "Fri Nov 06 2026")
     (Scheduled.of_stopped (by decide) (by decide)) (by decide) (by decide) (by decide)
     (by decide) ⟨by decide, by decide⟩
     (by rw [List.length_replicate]; decide)).2.2.2.2.2.2.2.2.2 rfl rfl).2⟩

/-! ## Statistics -/

theorem incrementStats_eq (today : String) (s : State) :
    incrementStats today s =
      updateStatsDisplay (bumpStats today (getStats today s))
        (saveStats (bumpStats today (getStats today s)) s) := rfl

theorem incrementStats_pomodoroStats (today : String) (s : State) :
    (incrementStats today s).pomodoroStats = some (bumpStats today (getStats today s)) := rfl

theorem getStats_incrementStats (today : String) (s : State) :
    getStats today (incrementStats today s) = bumpStats today (getStats today s) := rfl

theorem bumpStats_fields (today : String) (st : Stats) :
    (bumpStats today st).totalCompleted = st.totalCompleted + 1 ∧
    (bumpStats today st).lastDate = today ∧
    (bumpStats today st).dailyCompleted =
      if st.lastDate = today then st.dailyCompleted + 1 else 1 := by
  unfold bumpStats
  by_cases h : st.lastDate = today <;> simp [h]

theorem getStats_congr (today : String) (a b : State) (h : a.pomodoroStats = b.pomodoroStats) :
    getStats today a = getStats today b := by
  unfold getStats; rw [h]

theorem incrementStats_iterate_sameDay (today : String) (n : Nat) :
    ∀ s : State, (getStats today s).lastDate = today →
      getStats today ((incrementStats today)^[n] s) =
        { totalCompleted := (getStats today s).totalCompleted + n,
          dailyCompleted := (getStats today s).dailyCompleted + n,
          lastDate := today } := by
  induction n with
  | zero =>
    intro s h
    cases hg : getStats today s with
    | mk a b c =>
      rw [hg] at h
      simp only [Function.iterate_zero, id_eq, Nat.cast_zero, add_zero, hg]
      simpa using h
  | succ k ih =>
    intro s h
    obtain ⟨b1, b2, b3⟩ := bumpStats_fields today (getStats today s)
    rw [Function.iterate_succ_apply, ih (incrementStats today s)
      (by rw [getStats_incrementStats]; exact b2), getStats_incrementStats, b1, b3, if_pos h]
    simp only [Nat.cast_add, Nat.cast_one, Stats.mk.injEq, and_true]
    constructor <;> ring

/-- C11: for every `N ≥ 1` and every stored stats snapshot whose count for
the date `today` is zero (no snapshot, a snapshot with another `lastDate`, or
`lastDate = today` with `dailyCompleted = 0`), `N` consecutive
`incrementStats` calls on the date `today` leave the snapshot with
`dailyCompleted = N`, `totalCompleted` = previous total `+ N` (previous total
0 without a snapshot) and `lastDate = today`, and display these counts. -/
theorem incrementStats_counts_sessions (today : String) (s : State) (n : Nat)
    (hn : 1 ≤ n) (hzero : NoneCompletedToday today s) :
    ((incrementStats today)^[n] s).pomodoroStats =
      some { totalCompleted := (getStats today s).totalCompleted + n,
             dailyCompleted := n,
             lastDate := today } ∧
    ((incrementStats today)^[n] s).dailyCountEl = toString (n : Int) ∧
    ((incrementStats today)^[n] s).totalCountEl =
      toString ((getStats today s).totalCompleted + n) := by
  obtain ⟨k, rfl⟩ : ∃ k, n = k + 1 := ⟨n - 1, by omega⟩
  obtain ⟨b1, b2, b3⟩ := bumpStats_fields today (getStats today s)
  have hfirst : (bumpStats today (getStats today s)).dailyCompleted = 1 := by
    rw [b3]
    unfold NoneCompletedToday at hzero
    unfold getStats
    cases hst : s.pomodoroStats with
    | none => simp
    | some st =>
      rw [hst] at hzero
      rcases hzero with h | ⟨h1, h2⟩
      · simp [h]
      · simp [h1, h2]
  have hstats : getStats today ((incrementStats today)^[k + 1] s) =
      { totalCompleted := (getStats today s).totalCompleted + (k + 1 : Nat),
        dailyCompleted := (k + 1 : Nat),
        lastDate := today } := by
    rw [Function.iterate_succ_apply, incrementStats_iterate_sameDay today k
      (incrementStats today s) (by rw [getStats_incrementStats]; exact b2),
      getStats_incrementStats, b1, hfirst]
    simp only [Nat.cast_add, Nat.cast_one, Stats.mk.injEq, and_true]
    constructor <;> ring
  have hlast : (incrementStats today)^[k + 1] s =
      incrementStats today ((incrementStats today)^[k] s) :=
    Function.iterate_succ_apply' _ _ _
  have hsome : ((incrementStats today)^[k + 1] s).pomodoroStats =
      some (getStats today ((incrementStats today)^[k + 1] s)) := by
    rw [hlast, getStats_incrementStats]; rfl
  have hdisp : ((incrementStats today)^[k + 1] s).dailyCountEl =
        toString (getStats today ((incrementStats today)^[k + 1] s)).dailyCompleted ∧
      ((incrementStats today)^[k + 1] s).totalCountEl =
        toString (getStats today ((incrementStats today)^[k + 1] s)).totalCompleted := by
    rw [hlast, getStats_incrementStats]; exact ⟨rfl, rfl⟩
  rw [hsome, hdisp.1, hdisp.2, hstats]
  exact ⟨rfl, rfl, rfl⟩

/-- Witness for C11: three increments on the fresh page, which has no
snapshot of sessions for the day. -/
theorem incrementStats_counts_sessions_witness :
    (1 ≤ 3) ∧ NoneCompletedToday "Fri Nov 06 2026" { freshState with pomodoroStats := none } ∧
    ((incrementStats "Fri Nov 06 2026")^[3]
        { freshState with pomodoroStats := none }).pomodoroStats =
      some { totalCompleted := 0 + (3 : Nat), dailyCompleted := (3 : Nat),
             lastDate := "Fri Nov 06 2026" } :=
  ⟨by decide, trivial,
   (incrementStats_counts_sessions "Fri Nov 06 2026" { freshState with pomodoroStats := none } 3
     (by decide) trivial).1⟩

/-- C12: for every stored stats snapshot whose `lastDate` differs from
`today`, one `incrementStats` call stores exactly the snapshot with
`dailyCompleted = 1` (whatever it was), `totalCompleted` one more than before
and `lastDate = today`, and displays these counts. -/
theorem incrementStats_new_day (today : String) (s : State) (st : Stats)
    (hsnap : s.pomodoroStats = some st) (hdate : st.lastDate ≠ today) :
    (incrementStats today s).pomodoroStats =
      some { totalCompleted := st.totalCompleted + 1, dailyCompleted := 1,
             lastDate := today } ∧
    (incrementStats today s).dailyCountEl = toString (1 : Int) ∧
    (incrementStats today s).totalCountEl = toString (st.totalCompleted + 1) := by
  have hget : getStats today s = st := by unfold getStats; rw [hsnap]
  have hb : bumpStats today st =
      { totalCompleted := st.totalCompleted + 1, dailyCompleted := 1, lastDate := today } := by
    unfold bumpStats; simp [hdate]
  rw [incrementStats_eq, hget, hb]
  exact ⟨rfl, rfl, rfl⟩

/-- Witness for C12: the snapshot of the day before, 7 sessions that day and
40 in all. -/
theorem incrementStats_new_day_witness :
    staleStatsState.pomodoroStats = some ⟨40, 7, "Thu Nov 05 2026"⟩ ∧
    (⟨40, 7, "Thu Nov 05 2026"⟩ : Stats).lastDate ≠ "Fri Nov 06 2026" ∧
    (incrementStats "Fri Nov 06 2026" staleStatsState).pomodoroStats
      = some ⟨40 + 1, 1, "Fri Nov 06 2026"⟩ :=
  ⟨rfl, by decide,
   (incrementStats_new_day "Fri Nov 06 2026" staleStatsState ⟨40, 7, "Thu Nov 05 2026"⟩ rfl
      (by decide)).1⟩

theorem completeSession_pomodoroStats (today : String) (s : State) :
    (completeSession today s).pomodoroStats =
      if s.currentMode = .work then some (bumpStats today (getStats today s))
      else s.pomodoroStats := by
  rw [completeSession_eq]
  simp only [showNotification_frame, switchMode_frame]
  have h1 : (playBeep (pauseTimer
      { s with completedAt := s.completedAt ++ [s.timeLeft] })).currentMode = s.currentMode := by
    simp
  have h2 : (playBeep (pauseTimer
      { s with completedAt := s.completedAt ++ [s.timeLeft] })).pomodoroStats
        = s.pomodoroStats := by
    simp
  generalize playBeep (pauseTimer { s with completedAt := s.completedAt ++ [s.timeLeft] }) = t
    at h1 h2 ⊢
  rw [h1]
  split
  · rw [incrementStats_pomodoroStats, getStats_congr today t s h2]
  · exact h2

theorem completeSession_statsDisplay (today : String) (s : State)
    (hm : s.currentMode ≠ .work) :
    (completeSession today s).dailyCountEl = s.dailyCountEl ∧
    (completeSession today s).totalCountEl = s.totalCountEl := by
  rw [completeSession_eq]
  simp [hm]

/-- C13: `completeSession` updates the stats exactly when the session that
ended was a work session: from mode `work` the stored `totalCompleted` (0
without a snapshot) grows by exactly 1, so the snapshot changes; from
`shortBreak` or `longBreak` the stored snapshot and the displayed counts are
unchanged; in both cases `isRunning` is false afterwards. -/
theorem completeSession_counts_work_only (today : String) (s : State) :
    (s.currentMode = .work →
      (getStats today (completeSession today s)).totalCompleted =
        (getStats today s).totalCompleted + 1 ∧
      (completeSession today s).pomodoroStats ≠ s.pomodoroStats) ∧
    (s.currentMode = .shortBreak ∨ s.currentMode = .longBreak →
      (completeSession today s).pomodoroStats = s.pomodoroStats ∧
      (completeSession today s).dailyCountEl = s.dailyCountEl ∧
      (completeSession today s).totalCountEl = s.totalCountEl) ∧
    (completeSession today s).isRunning = false := by
  refine ⟨fun hm => ?_, fun hm => ?_, by simp⟩
  · have hst := completeSession_pomodoroStats today s
    rw [if_pos hm] at hst
    have hget : getStats today (completeSession today s) =
        bumpStats today (getStats today s) := by
      unfold getStats at *; rw [hst]
    have htot := (bumpStats_fields today (getStats today s)).1
    refine ⟨by rw [hget, htot], fun heq => ?_⟩
    have h2 : getStats today (completeSession today s) = getStats today s :=
      getStats_congr today _ _ heq
    rw [hget] at h2
    rw [h2] at htot
    omega
  · have hne : s.currentMode ≠ .work := by
      rcases hm with h | h <;> rw [h] <;> decide
    have hst := completeSession_pomodoroStats today s
    rw [if_neg hne] at hst
    exact ⟨hst, completeSession_statsDisplay today s hne⟩

theorem loadStats_eq (today : String) (s : State) :
    loadStats today s =
      if (getStats today s).lastDate ≠ today then
        updateStatsDisplay { getStats today s with dailyCompleted := 0, lastDate := today }
          (saveStats { getStats today s with dailyCompleted := 0, lastDate := today } s)
      else updateStatsDisplay (getStats today s) s := rfl

/-- C17: `loadStats` at startup. For every stored snapshot whose `lastDate`
differs from `today` it stores and displays `dailyCompleted = 0` with
`lastDate = today` and `totalCompleted` unchanged; for every snapshot whose
`lastDate` is `today` it leaves the stored snapshot as it is and displays its
`dailyCompleted` and `totalCompleted`. -/
theorem loadStats_resets_daily_on_new_date (today : String) (s : State) (st : Stats)
    (hsnap : s.pomodoroStats = some st) :
    (st.lastDate ≠ today →
      (loadStats today s).pomodoroStats =
        some { totalCompleted := st.totalCompleted, dailyCompleted := 0, lastDate := today } ∧
      (loadStats today s).dailyCountEl = toString (0 : Int) ∧
      (loadStats today s).totalCountEl = toString st.totalCompleted) ∧
    (st.lastDate = today →
      (loadStats today s).pomodoroStats = some st ∧
      (loadStats today s).dailyCountEl = toString st.dailyCompleted ∧
      (loadStats today s).totalCountEl = toString st.totalCompleted) := by
  have hget : getStats today s = st := by unfold getStats; rw [hsnap]
  rw [loadStats_eq, hget]
  refine ⟨fun h => ?_, fun h => ?_⟩
  · rw [if_pos h]; exact ⟨rfl, rfl, rfl⟩
  · rw [if_neg (not_not.mpr h)]; exact ⟨hsnap, rfl, rfl⟩

/-- Witness for C17: the snapshot of the day before is reset for the new date,
and loading again on that date changes nothing more. -/
theorem loadStats_resets_daily_on_new_date_witness :
    staleStatsState.pomodoroStats = some ⟨40, 7, "Thu Nov 05 2026"⟩ ∧
    (loadStats "Fri Nov 06 2026" staleStatsState).pomodoroStats
      = some ⟨40, 0, "Fri Nov 06 2026"⟩ ∧
    (loadStats "Thu Nov 05 2026" staleStatsState).pomodoroStats
      = some ⟨40, 7, "Thu Nov 05 2026"⟩ :=
  ⟨rfl,
   ((loadStats_resets_daily_on_new_date "Fri Nov 06 2026" staleStatsState
      ⟨40, 7, "Thu Nov 05 2026"⟩ rfl).1 (by decide)).1,
   ((loadStats_resets_daily_on_new_date "Thu Nov 05 2026" staleStatsState
      ⟨40, 7, "Thu Nov 05 2026"⟩ rfl).2 rfl).1⟩

/-! ## Coupling of mode and cycle, and the notification -/

theorem nextPhase_coupled (p : Mode × Int) (h : CoupledPhase p) : CoupledPhase (nextPhase p) := by
  obtain ⟨m, c⟩ := p
  obtain ⟨⟨h1, h2⟩, h3, h4⟩ := h
  simp only at h1 h2 h3 h4
  cases m with
  | work =>
    by_cases hc : c = 4
    · simp [nextPhase, hc, CoupledPhase]
    · simp only [nextPhase, hc, CoupledPhase, if_false]
      exact ⟨⟨by omega, by omega⟩, fun _ => by omega, fun h => (by cases h)⟩
  | shortBreak =>
    simp only [nextPhase, CoupledPhase]
    exact ⟨⟨h1, h2⟩, fun h => (by cases h), fun h => (by cases h)⟩
  | longBreak =>
    simp only [nextPhase, CoupledPhase]
    exact ⟨⟨h1, h2⟩, fun h => (by cases h), fun h => (by cases h)⟩

theorem coupled_of_frame {s t : State} (hs : Coupled s) (h1 : t.currentMode = s.currentMode)
    (h2 : t.workCycle = s.workCycle) : Coupled t := by
  unfold Coupled phase at *
  rw [h1, h2]; exact hs

theorem coupled_of_reset {t : State} (h1 : t.currentMode = .work) (h2 : t.workCycle = 1) :
    Coupled t := by
  unfold Coupled phase CoupledPhase
  rw [h1, h2]
  exact ⟨⟨le_refl _, by decide⟩, fun h => (by cases h), fun h => (by cases h)⟩

theorem completeSession_coupled (today : String) (s : State) (hs : Coupled s) :
    Coupled (completeSession today s) := by
  unfold Coupled at *
  rw [completeSession_phase]
  exact nextPhase_coupled _ hs

theorem intervalCallback_coupled (today : String) (s : State) (hs : Coupled s) :
    Coupled (intervalCallback today s) := by
  rw [intervalCallback_eq]
  split
  · exact completeSession_coupled today _ (coupled_of_frame hs (by simp) (by simp))
  · exact coupled_of_frame hs (by simp) (by simp)

theorem step_coupled (s : State) (e : Event) (hs : Coupled s) : Coupled (step s e) := by
  cases e with
  | start => exact coupled_of_frame hs (by simp [step]) (by simp [step])
  | pause => exact coupled_of_frame hs (by simp [step]) (by simp [step])
  | reset => exact coupled_of_reset (by simp [step]) (by simp [step])
  | keySpace =>
    simp only [step]
    split
    · exact coupled_of_frame hs (by simp) (by simp)
    · exact coupled_of_frame hs (by simp) (by simp)
  | tick today => exact tick_invariant Coupled today (intervalCallback_coupled today) s hs
  | completeSession today => exact completeSession_coupled today s hs
  | applySettings w sb lb => exact coupled_of_reset (by simp [step]) (by simp [step])
  | feedbackTimeout => exact coupled_of_frame hs (by simp [step]) (by simp [step])
  | closeModal => exact coupled_of_frame hs (by simp [step]) (by simp [step])
  | toggleDarkMode => exact coupled_of_frame hs (by simp [step]) (by simp [step])
  | firstClick => exact coupled_of_frame hs (by simp [step]) (by simp [step])

theorem startup_coupled (today : String) (page : State) : Coupled (startup today page) := by
  rw [startup_eq]
  exact coupled_of_reset (by simp) (by simp)

theorem Reachable.coupled {s : State} (h : Reachable s) : Coupled s := by
  obtain ⟨today, page, evs, rfl⟩ := h
  exact run_invariant Coupled (fun _ => True) (fun s e _ hs => step_coupled s e hs) evs
    (startup today page) (fun _ _ => trivial) (startup_coupled today page)

/-- C20: in every state reached from startup by any sequence of events
(start, pause, reset, tick, completeSession, applySettings with any input, and
the other page events), `workCycle` is an integer in 1..4; moreover mode
`shortBreak` implies `workCycle` in 2..4 and mode `longBreak` implies
`workCycle = 1`. -/
theorem workCycle_coupled_with_mode (s : State) (hreach : Reachable s) :
    (1 ≤ s.workCycle ∧ s.workCycle ≤ 4) ∧
    (s.currentMode = .shortBreak → 2 ≤ s.workCycle ∧ s.workCycle ≤ 4) ∧
    (s.currentMode = .longBreak → s.workCycle = 1) := by
  obtain ⟨h1, h2, h3⟩ := hreach.coupled
  exact ⟨h1, fun h => ⟨h2 h, h1.2⟩, h3⟩

/-- Witness for C20: after startup, a start and one session completion the
page is in a short break, at cycle 2. -/
theorem workCycle_coupled_with_mode_witness :
    Reachable (run freshState [Event.start, .completeSession "d"]) ∧
    (run freshState [Event.start, .completeSession "d"]).currentMode = .shortBreak ∧
    (2 ≤ (run freshState [Event.start, .completeSession "d"]).workCycle ∧
      (run freshState [Event.start, .completeSession "d"]).workCycle ≤ 4) :=
  ⟨⟨"Fri Nov 06 2026", blankPage, [Event.start, .completeSession "d"], rfl⟩, by decide,
   (workCycle_coupled_with_mode _ ⟨"Fri Nov 06 2026", blankPage,
     [Event.start, .completeSession "d"], rfl⟩).2.1 (by decide)⟩

theorem completeSession_modal (today : String) (s : State) :
    (completeSession today s).modalTitle = messageTitle (prevMode (completeSession today s)) ∧
    (completeSession today s).modalMessage =
      messageText (completeSession today s).currentMode (prevMode (completeSession today s)) ∧
    (completeSession today s).modalHidden = false :=
  ⟨rfl, rfl, rfl⟩

/-- C14: for every state reached from startup (hence from a reset), the
notification that `completeSession` shows describes the mode just completed:
after a work session with the long break next, "Work Session Complete!" and
"Time for a long break!"; after a work session with a short break next,
"Work Session Complete!" and "Time for a short break!"; after a short break,
"Break Complete!" and "Ready to get back to work?"; after a long break,
"Long Break Complete!" and "Ready for another work cycle?"; and the modal is
shown. -/
theorem notification_describes_completed_mode (today : String) (s : State)
    (hreach : Reachable s) :
    (completeSession today s).modalHidden = false ∧
    (s.currentMode = .work → (completeSession today s).currentMode = .longBreak →
      (completeSession today s).modalTitle = "Work Session Complete!" ∧
      (completeSession today s).modalMessage = "Time for a long break!") ∧
    (s.currentMode = .work → (completeSession today s).currentMode = .shortBreak →
      (completeSession today s).modalTitle = "Work Session Complete!" ∧
      (completeSession today s).modalMessage = "Time for a short break!") ∧
    (s.currentMode = .shortBreak →
      (completeSession today s).modalTitle = "Break Complete!" ∧
      (completeSession today s).modalMessage = "Ready to get back to work?") ∧
    (s.currentMode = .longBreak →
      (completeSession today s).modalTitle = "Long Break Complete!" ∧
      (completeSession today s).modalMessage = "Ready for another work cycle?") := by
  obtain ⟨ht, hmsg, hhid⟩ := completeSession_modal today s
  obtain ⟨⟨c1, c4⟩, cs, cl⟩ := hreach.coupled
  simp only [phase] at c1 c4 cs cl
  have hp := completeSession_phase today s
  have hmode : (completeSession today s).currentMode = (nextPhase (phase s)).1 :=
    congrArg Prod.fst hp
  have hcyc : (completeSession today s).workCycle = (nextPhase (phase s)).2 :=
    congrArg Prod.snd hp
  rw [ht, hmsg]
  unfold prevMode
  rw [hmode, hcyc]
  refine ⟨hhid, fun hm hnext => ?_, fun hm hnext => ?_, fun hm => ?_, fun hm => ?_⟩
  · by_cases hc : s.workCycle = 4
    · simp [phase, nextPhase, hm, hc, messageTitle, messageText]
    · simp [phase, nextPhase, hm, hc] at hnext
  · by_cases hc : s.workCycle = 4
    · simp [phase, nextPhase, hm, hc] at hnext
    · simp [phase, nextPhase, hm, hc, messageTitle, messageText]
  · have h2 := cs hm
    have hne : s.workCycle ≠ 1 := by omega
    simp [phase, nextPhase, hm, hne, messageTitle, messageText]
  · have h1 := cl hm
    simp [phase, nextPhase, hm, h1, messageTitle, messageText]

/-- Witness for C14: the completion of the first work session and of the
short break after it, on states reached from the fresh page. -/
theorem notification_describes_completed_mode_witness :
    Reachable (run freshState [.completeSession "d"]) ∧
    (completeSession "d" (run freshState [])).modalTitle = "Work Session Complete!" ∧
    (completeSession "d" (run freshState [])).modalMessage = "Time for a short break!" ∧
    (completeSession "d" (run freshState [.completeSession "d"])).modalTitle
      = "Break Complete!" ∧
    (completeSession "d" (run freshState [.completeSession "d"])).modalMessage
      = "Ready to get back to work?" :=
  ⟨⟨"Fri Nov 06 2026", blankPage, [.completeSession "d"], rfl⟩,
   ((notification_describes_completed_mode "d" _ ⟨"Fri Nov 06 2026", blankPage,
      [], rfl⟩).2.2.1 (by decide) (by decide)).1,
   ((notification_describes_completed_mode "d" _ ⟨"Fri Nov 06 2026", blankPage,
      [], rfl⟩).2.2.1 (by decide) (by decide)).2,
   ((notification_describes_completed_mode "d" _ ⟨"Fri Nov 06 2026", blankPage,
      [.completeSession "d"], rfl⟩).2.2.2.1 (by decide)).1,
   ((notification_describes_completed_mode "d" _ ⟨"Fri Nov 06 2026", blankPage,
      [.completeSession "d"], rfl⟩).2.2.2.1 (by decide)).2⟩

/-! ## Pause and reset -/

/-- C16: `pauseTimer` changes nothing on a state that is not running. On a
running state it sets `isRunning = false`, cancels the tick source whose
handle is stored (none is left when the scheduler discipline holds, as in
every reachable state), and leaves `timeLeft`, `totalDuration`, mode, cycle,
settings and stats unchanged, so that a later `startTimer` runs again from
the same remaining time. -/
theorem pauseTimer_stops_and_keeps_time (s : State) :
    (s.isRunning = false → pauseTimer s = s) ∧
    (s.isRunning = true →
      (pauseTimer s).isRunning = false ∧
      (pauseTimer s).active = clearInterval s.interval s.active ∧
      (∀ h, s.interval = some h → h ∉ (pauseTimer s).active) ∧
      (Scheduled s → (pauseTimer s).active = []) ∧
      (pauseTimer s).timeLeft = s.timeLeft ∧
      (pauseTimer s).totalDuration = s.totalDuration ∧
      (pauseTimer s).currentMode = s.currentMode ∧
      (pauseTimer s).workCycle = s.workCycle ∧
      (pauseTimer s).settings = s.settings ∧
      (pauseTimer s).pomodoroSettings = s.pomodoroSettings ∧
      (pauseTimer s).pomodoroStats = s.pomodoroStats ∧
      (pauseTimer s).dailyCountEl = s.dailyCountEl ∧
      (pauseTimer s).totalCountEl = s.totalCountEl ∧
      (startTimer (pauseTimer s)).isRunning = true ∧
      (startTimer (pauseTimer s)).timeLeft = s.timeLeft ∧
      (startTimer (pauseTimer s)).totalDuration = s.totalDuration ∧
      (startTimer (pauseTimer s)).currentMode = s.currentMode ∧
      (startTimer (pauseTimer s)).workCycle = s.workCycle) := by
  refine ⟨fun h => by simp [pauseTimer, h], fun h => ?_⟩
  have hact : (pauseTimer s).active = clearInterval s.interval s.active := by
    rw [pauseTimer_active, if_pos h]
  refine ⟨by simp, hact, fun k hk => ?_, fun hs => pauseTimer_active_nil s hs,
    by simp, by simp, by simp, by simp, by simp, by simp, by simp, by simp, by simp,
    (startTimer_of_stopped _ (by simp)).1, by simp, by simp, by simp, by simp⟩
  rw [hact, hk]
  simp [clearInterval]

theorem progressPercent_full (T : Int) (h : T ≠ 0) (hf : T.natAbs < doubleLimit) :
    progressPercent (.num T) (.num T) = some 0 := by
  have hg : ¬ (T = 0 ∨ doubleLimit ≤ T.natAbs ∨ doubleLimit ≤ T.natAbs ∨
      doubleLimit ≤ (roundDouble (T - T)).natAbs ∨
      doubleLimit * T.natAbs ≤ (T - T).natAbs * 100) := by
    have hbig := doubleLimit_big
    have h1 : 0 < doubleLimit * T.natAbs := Nat.mul_pos (by omega) (by omega)
    have h2 : (T - T).natAbs = 0 := by omega
    have h3 : roundDouble (T - T) = 0 := by
      rw [roundDouble_of_small _ (by omega)]; omega
    rw [h2, h3]
    have h4 : (0 : Int).natAbs = 0 := rfl
    omega
  show (if T = 0 ∨ doubleLimit ≤ T.natAbs ∨ doubleLimit ≤ T.natAbs ∨
      doubleLimit ≤ (roundDouble (T - T)).natAbs ∨
      doubleLimit * T.natAbs ≤ (T - T).natAbs * 100 then none
    else some ((((T - T : Int) : ℚ) / (T : ℚ)) * 100)) = some 0
  rw [if_neg hg]
  simp

theorem progressPercent_value (t T : Int) (h1 : 1 ≤ t) (h2 : t ≤ T)
    (hD : IsDouble T.toNat) (hf : T.natAbs < doubleLimit) :
    progressPercent (.num T) (.num t) = some (((T - t : Int) : ℚ) / (T : ℚ) * 100) ∧
    (0 : ℚ) ≤ ((T - t : Int) : ℚ) / (T : ℚ) * 100 ∧
    ((T - t : Int) : ℚ) / (T : ℚ) * 100 ≤ 100 := by
  have hT : (0 : ℚ) < (T : ℚ) := by exact_mod_cast (by omega : 0 < T)
  have ha : (0 : ℚ) ≤ ((T - t : Int) : ℚ) := by exact_mod_cast (by omega : 0 ≤ T - t)
  have hb : ((T - t : Int) : ℚ) ≤ (T : ℚ) := by exact_mod_cast (by omega : T - t ≤ T)
  have hg : ¬ (T = 0 ∨ doubleLimit ≤ T.natAbs ∨ doubleLimit ≤ t.natAbs ∨
      doubleLimit ≤ (roundDouble (T - t)).natAbs ∨
      doubleLimit * T.natAbs ≤ (T - t).natAbs * 100) := by
    have hbig := doubleLimit_big
    have h6 : roundDouble (T - t) ≤ T :=
      roundDouble_le_of_isDouble (T - t) T (by omega) (by omega) hD
    have h7 : 0 ≤ roundDouble (T - t) := by
      rcases (by omega : T - t = 0 ∨ 0 < T - t) with h | h
      · rw [h]; decide
      · exact (roundDouble_pos _ h).le
    have h3 : (T - t).natAbs * 100 ≤ T.natAbs * 100 := Nat.mul_le_mul_right _ (by omega)
    have h4 : T.natAbs * 100 < T.natAbs * doubleLimit :=
      Nat.mul_lt_mul_of_pos_left (by omega) (by omega)
    have h5 : T.natAbs * doubleLimit = doubleLimit * T.natAbs := Nat.mul_comm _ _
    omega
  refine ⟨?_, ?_, ?_⟩
  · show (if T = 0 ∨ doubleLimit ≤ T.natAbs ∨ doubleLimit ≤ t.natAbs ∨
        doubleLimit ≤ (roundDouble (T - t)).natAbs ∨
        doubleLimit * T.natAbs ≤ (T - t).natAbs * 100 then none
      else some ((((T - t : Int) : ℚ) / (T : ℚ)) * 100)) = _
    rw [if_neg hg]
  · exact mul_nonneg (div_nonneg ha hT.le) (by norm_num)
  · have h : ((T - t : Int) : ℚ) / (T : ℚ) ≤ 1 := (div_le_one hT).mpr hb
    calc ((T - t : Int) : ℚ) / (T : ℚ) * 100 ≤ 1 * 100 :=
          mul_le_mul_of_nonneg_right h (by norm_num)
      _ = 100 := by norm_num

theorem JSNum.hasSeconds_mul (a : JSNum) (h : a.hasSeconds = true) :
    ∃ T : Int, T ≠ 0 ∧ T.natAbs < doubleLimit ∧ a.mul (.num 60) = .num T := by
  unfold JSNum.hasSeconds at h
  split at h
  · next T hT => exact ⟨T, (of_decide_eq_true h).1, (of_decide_eq_true h).2, hT⟩
  · cases h

theorem resetTimer_observable (s : State) (hs : Scheduled s)
    (hw : s.settings.workDuration.hasSeconds = true) :
    observable (resetTimer s) = resetView s.settings := by
  have hact : (resetTimer s).active = [] := by simpa using pauseTimer_active_nil s hs
  obtain ⟨T, hT, hf, hmul⟩ := JSNum.hasSeconds_mul _ hw
  have hp : progressPercent (s.settings.workDuration.mul (.num 60))
      (s.settings.workDuration.mul (.num 60)) = some 0 := by
    rw [hmul]; exact progressPercent_full T hT hf
  unfold observable resetView
  rw [hact, resetTimer_timerDisplay, resetTimer_progressFill s 0 hp (le_refl _), hp]
  simp

theorem resetTimer_progressFill_kept (s : State)
    (h : progressPercent (s.settings.workDuration.mul (.num 60))
      (s.settings.workDuration.mul (.num 60)) = none) :
    (resetTimer s).progressFill = s.progressFill := by
  have h1 : (resetTimer s).progressFill =
      (updateProgress (updateDisplay (setTimerDuration
        { pauseTimer s with currentMode := .work, workCycle := 1 }))).progressFill := by
    rw [resetTimer_eq]; simp
  rw [h1, updateProgress_progressFill]
  have h2 : progressPercent
      (updateDisplay (setTimerDuration
        { pauseTimer s with currentMode := .work, workCycle := 1 })).totalDuration
      (updateDisplay (setTimerDuration
        { pauseTimer s with currentMode := .work, workCycle := 1 })).timeLeft = none := by
    simpa [Settings.minutes] using h
  rw [h2]
  simp

theorem countdown_progressFill (s : State) (p : ℚ)
    (h : progressPercent s.totalDuration s.timeLeft.dec = some p) (hp : 0 ≤ p) :
    (countdown s).progressFill = some p :=
  updateProgress_valid (updateDisplay { s with timeLeft := s.timeLeft.dec }) p h hp

theorem intervalCallback_settings (today : String) (s : State) :
    (intervalCallback today s).settings = s.settings := by
  rw [intervalCallback_eq]
  split <;> simp

theorem ticks_scheduled_settings (days : List String) :
    ∀ s : State, Scheduled s →
      Scheduled (ticks s days) ∧ (ticks s days).settings = s.settings := by
  induction days with
  | nil => intro s hs; exact ⟨hs, rfl⟩
  | cons d ds ih =>
    intro s hs
    have h1 : Scheduled (tick d s) :=
      tick_invariant Scheduled d (intervalCallback_scheduled d) s hs
    have h2 : (tick d s).settings = s.settings :=
      tick_invariant (fun t => t.settings = s.settings) d
        (fun t ht => (intervalCallback_settings d t).trans ht) s rfl
    obtain ⟨i1, i2⟩ := ih (tick d s) h1
    exact ⟨i1, i2.trans h2⟩

/-- C15 (counterexample): with a stored work duration of 0 minutes the
settings stay fixed, yet after the short break has run for one second, pause
and reset leave the progress bar at the width 1/3 set by that tick (the reset
computes `NaN%`, which the style object drops), while a reset of the startup
state shows no width: the observable states differ. -/
theorem pause_then_reset_keeps_stale_progress :
    (run (startup "d" zeroWorkPage) [.start, .tick "d", .start, .tick "d"]).settings
      = (startup "d" zeroWorkPage).settings ∧
    (resetTimer (pauseTimer
      (run (startup "d" zeroWorkPage) [.start, .tick "d", .start, .tick "d"]))).progressFill
      = some (1 / 3) ∧
    (resetTimer (startup "d" zeroWorkPage)).progressFill = none ∧
    observable (resetTimer (pauseTimer
      (run (startup "d" zeroWorkPage) [.start, .tick "d", .start, .tick "d"])))
      ≠ observable (resetTimer (startup "d" zeroWorkPage)) := by
  have hnone : ∀ u : State, u.settings.workDuration = .num 0 →
      progressPercent (u.settings.workDuration.mul (.num 60))
        (u.settings.workDuration.mul (.num 60)) = none := by
    intro u hu; rw [hu]; decide
  have hrun : run (startup "d" zeroWorkPage) [.start, .tick "d", .start, .tick "d"] =
      countdown (run (startup "d" zeroWorkPage) [.start, .tick "d", .start]) := by
    have h1 : run (startup "d" zeroWorkPage) [.start, .tick "d", .start, .tick "d"] =
        tick "d" (run (startup "d" zeroWorkPage) [.start, .tick "d", .start]) := rfl
    rw [h1, tick_of_single "d" _ 1 (by decide),
      intervalCallback_counting "d" _ 300 (by decide) (by decide)]
  have hfill : (run (startup "d" zeroWorkPage)
      [.start, .tick "d", .start, .tick "d"]).progressFill = some (1 / 3) := by
    rw [hrun]
    apply countdown_progressFill
    · have hT : (run (startup "d" zeroWorkPage) [.start, .tick "d", .start]).totalDuration
          = .num 300 := by decide
      have ht : (run (startup "d" zeroWorkPage) [.start, .tick "d", .start]).timeLeft.dec
          = .num 299 := by decide
      rw [hT, ht, (progressPercent_value 299 300 (by decide) (by decide)
        ⟨300, 0, by decide, by decide⟩ (by decide)).1]
      norm_num
    · norm_num
  have h1 : (resetTimer (pauseTimer
      (run (startup "d" zeroWorkPage) [.start, .tick "d", .start, .tick "d"]))).progressFill
      = some (1 / 3) := by
    have hp : ∀ u : State, (pauseTimer u).progressFill = u.progressFill := fun u => by simp
    rw [resetTimer_progressFill_kept _ (hnone _ (by decide)), hp, hfill]
  have h2 : (resetTimer (startup "d" zeroWorkPage)).progressFill = none := by
    have hd : ∀ u : State, (loadDarkMode u).progressFill = u.progressFill := fun u => by simp
    rw [resetTimer_progressFill_kept _ (hnone _ (by decide)), startup_eq, hd,
      resetTimer_progressFill_kept _ (hnone _ (by decide))]
    rfl
  refine ⟨by decide, h1, h2, fun heq => ?_⟩
  have h3 := congrArg (fun o => o.2.2.2.2.2.2.2) heq
  simp only [observable] at h3
  rw [h1, h2] at h3
  cases h3

/-- C15 (amended): for every state `s` reached from startup whose settings are
those of the startup state, with a work duration whose seconds `work * 60` are
a finite number other than 0, and every run of ticks before the pause,
`resetTimer (pauseTimer s)` has the same observable state (mode, cycle,
`timeLeft`, `totalDuration`, `isRunning`, scheduled tick sources, displayed
time and progress) as `resetTimer` on the startup state; that observable
state is then a function of the settings alone. -/
theorem pause_then_reset_is_fresh_reset (today : String) (page : State) (evs : List Event)
    (hfix : (run (startup today page) evs).settings = (startup today page).settings)
    (hwork : (startup today page).settings.workDuration.hasSeconds = true) :
    observable (resetTimer (pauseTimer (run (startup today page) evs))) =
      observable (resetTimer (startup today page)) ∧
    (∀ days : List String,
      observable (resetTimer (pauseTimer (ticks (run (startup today page) evs) days))) =
        observable (resetTimer (startup today page))) ∧
    (∀ s : State, Reachable s → s.settings.workDuration.hasSeconds = true →
      observable (resetTimer (pauseTimer s)) = resetView s.settings ∧
      observable (resetTimer s) = resetView s.settings) := by
  have hgen : ∀ s : State, Scheduled s → s.settings.workDuration.hasSeconds = true →
      observable (resetTimer (pauseTimer s)) = resetView s.settings := fun s hs hw => by
    rw [resetTimer_observable _ (pauseTimer_scheduled s hs) (by simpa using hw)]; simp
  have hreach : Reachable (run (startup today page) evs) := ⟨today, page, evs, rfl⟩
  have hfresh : observable (resetTimer (startup today page)) =
      resetView (startup today page).settings :=
    resetTimer_observable _ (startup_scheduled today page) hwork
  refine ⟨?_, fun days => ?_, fun s hs hw =>
    ⟨hgen s hs.scheduled hw, resetTimer_observable s hs.scheduled hw⟩⟩
  · rw [hgen _ hreach.scheduled (by rw [hfix]; exact hwork), hfresh, hfix]
  · obtain ⟨h1, h2⟩ := ticks_scheduled_settings days _ hreach.scheduled
    rw [hgen _ h1 (by rw [h2, hfix]; exact hwork), hfresh, h2, hfix]

/-- Witness for C15: the fresh page, started, ticked three times. -/
theorem pause_then_reset_is_fresh_reset_witness :
    (run (startup "Fri Nov 06 2026" blankPage)
        [Event.start, .tick "a", .tick "a", .tick "a"]).settings
      = (startup "Fri Nov 06 2026" blankPage).settings ∧
    (startup "Fri Nov 06 2026" blankPage).settings.workDuration.hasSeconds = true ∧
    observable (resetTimer (pauseTimer (run (startup "Fri Nov 06 2026" blankPage)
        [Event.start, .tick "a", .tick "a", .tick "a"]))) =
      observable (resetTimer (startup "Fri Nov 06 2026" blankPage)) :=
  ⟨by decide, by decide,
   (pause_then_reset_is_fresh_reset "Fri Nov 06 2026" blankPage
     [Event.start, .tick "a", .tick "a", .tick "a"] (by decide) (by decide)).1⟩

/-! ## Progress -/

theorem progressShown_of_frame {s t : State} (hs : ProgressShown s)
    (h1 : t.progressFill = s.progressFill) (h2 : t.totalDuration = s.totalDuration)
    (h3 : t.timeLeft = s.timeLeft) : ProgressShown t := by
  unfold ProgressShown at *
  rw [h1, h2, h3]; exact hs

theorem Settings.minutes_timed (cfg : Settings) (h : cfg.allTimed = true) (m : Mode) :
    ∃ T : Int, T ≠ 0 ∧ T.natAbs < doubleLimit ∧ (cfg.minutes m).mul (.num 60) = .num T := by
  simp only [Settings.allTimed, Bool.and_eq_true] at h
  obtain ⟨⟨hw, hs⟩, hl⟩ := h
  cases m with
  | work => exact JSNum.hasSeconds_mul _ hw
  | shortBreak => exact JSNum.hasSeconds_mul _ hs
  | longBreak => exact JSNum.hasSeconds_mul _ hl

theorem fresh_progressPercent (cfg : Settings) (m : Mode) (ht : cfg.allTimed = true) :
    progressPercent ((cfg.minutes m).mul (.num 60)) ((cfg.minutes m).mul (.num 60)) = some 0 := by
  obtain ⟨T, hT, hf, hm⟩ := Settings.minutes_timed cfg ht m
  rw [hm]
  exact progressPercent_full T hT hf

theorem totalDuration_finite (s : State) (ht : s.settings.allTimed = true)
    (hd : DurationConfigured s) (T : Int) (hT : s.totalDuration = .num T) :
    T.natAbs < doubleLimit := by
  obtain ⟨T1, _, hf, hm⟩ := Settings.minutes_timed s.settings ht s.currentMode
  unfold DurationConfigured at hd
  rw [hd, hm] at hT
  rw [← JSNum.num.inj hT]
  exact hf

theorem resetTimer_progress_zero (s : State) (ht : s.settings.allTimed = true) :
    (resetTimer s).progressFill = some 0 ∧ ProgressShown (resetTimer s) := by
  have hp := fresh_progressPercent s.settings .work ht
  have h0 : (resetTimer s).progressFill = some 0 :=
    resetTimer_progressFill s 0 hp (le_refl _)
  refine ⟨h0, ?_⟩
  unfold ProgressShown
  rw [h0, (resetTimer_frame s).2.2.2.1, (resetTimer_frame s).2.2.2.2.1]
  exact hp.symm

theorem switchMode_progress_zero (s : State) (ht : s.settings.allTimed = true) :
    (switchMode s).progressFill = some 0 ∧ ProgressShown (switchMode s) := by
  have hp : progressPercent (switchMode s).totalDuration (switchMode s).timeLeft = some 0 := by
    rw [switchMode_timeLeft, switchMode_totalDuration]
    exact fresh_progressPercent s.settings _ ht
  have h0 : (switchMode s).progressFill = some 0 := switchMode_progressFill s 0 hp (le_refl _)
  exact ⟨h0, by unfold ProgressShown; rw [h0, hp]⟩

theorem completeSession_progress_zero (today : String) (s : State)
    (ht : s.settings.allTimed = true) :
    (completeSession today s).progressFill = some 0 ∧
    ProgressShown (completeSession today s) := by
  have key : ∀ u : State, u.settings.allTimed = true →
      (showNotification (switchMode u)).progressFill = some 0 ∧
      ProgressShown (showNotification (switchMode u)) := by
    intro u hu
    obtain ⟨h0, hs⟩ := switchMode_progress_zero u hu
    exact ⟨by simpa using h0, progressShown_of_frame hs (by simp) (by simp) (by simp)⟩
  rw [completeSession_eq]
  apply key
  split <;> simpa using ht

theorem countdown_progressShown (s : State) (t T : Int) (ht : s.timeLeft = .num t)
    (hT : s.totalDuration = .num T) (h1 : 1 < t) (h2 : t ≤ T) (hD : IsDouble T.toNat)
    (hf : T.natAbs < doubleLimit) :
    ProgressShown (countdown s) := by
  have hp : 0 < roundDouble (t - 1) := roundDouble_pos _ (by omega)
  have hle : roundDouble (t - 1) ≤ T :=
    roundDouble_le_of_isDouble (t - 1) T (by omega) (by omega) hD
  obtain ⟨v1, v2, _⟩ := progressPercent_value (roundDouble (t - 1)) T (by omega) hle hD hf
  have hdec : s.timeLeft.dec = .num (roundDouble (t - 1)) := by rw [ht]; rfl
  have hfill := countdown_progressFill s _ (by rw [hT, hdec]; exact v1) v2
  unfold ProgressShown
  rw [hfill, (countdown_frame s).1, (countdown_frame s).2.2.2.2.2.1, hT, hdec]
  exact v1.symm

theorem step_settings_timed (s : State) (e : Event) (he : e.timed = true)
    (hs : s.settings.allTimed = true) : (step s e).settings.allTimed = true := by
  cases e with
  | start => simpa [step] using hs
  | pause => simpa [step] using hs
  | reset => simpa [step] using hs
  | keySpace =>
    simp only [step]
    split <;> simpa using hs
  | tick today =>
    exact tick_invariant (fun u => u.settings.allTimed = true) today
      (fun u hu => by
        show (intervalCallback today u).settings.allTimed = true
        rw [intervalCallback_settings]; exact hu) s hs
  | completeSession today => simpa [step] using hs
  | applySettings w sb lb =>
    simpa [step, Settings.allTimed, Event.timed] using he
  | feedbackTimeout => simpa [step] using hs
  | closeModal => simpa [step] using hs
  | toggleDarkMode => simpa [step] using hs
  | firstClick => simpa [step] using hs

theorem intervalCallback_progressShown (today : String) (s : State)
    (hs : (Counting s ∧ s.settings.allTimed = true ∧ DurationConfigured s) ∧ ProgressShown s) :
    (Counting (intervalCallback today s) ∧ (intervalCallback today s).settings.allTimed = true ∧
      DurationConfigured (intervalCallback today s)) ∧
    ProgressShown (intervalCallback today s) := by
  obtain ⟨⟨hc, htm, hd⟩, _⟩ := hs
  refine ⟨⟨intervalCallback_preserves_counting today s hc,
    by rw [intervalCallback_settings]; exact htm,
    intervalCallback_durationConfigured today s hd⟩, ?_⟩
  obtain ⟨hpos, t, T, ht, hT, h1, h2, hD⟩ := hc
  by_cases hlast : t ≤ 1
  · rw [intervalCallback_expiry today s t ht hlast]
    exact (completeSession_progress_zero today _ (by simpa using htm)).2
  · rw [intervalCallback_counting today s t ht (by omega)]
    exact countdown_progressShown s t T ht hT (by omega) h2 hD
      (totalDuration_finite s htm hd T hT)

theorem step_progressShown (s : State) (e : Event)
    (he : e.positive = true ∧ e.timed = true)
    (hs : (Counting s ∧ s.settings.allTimed = true ∧ DurationConfigured s) ∧ ProgressShown s) :
    (Counting (step s e) ∧ (step s e).settings.allTimed = true ∧
      DurationConfigured (step s e)) ∧ ProgressShown (step s e) := by
  have htimed := step_settings_timed s e he.2 hs.1.2.1
  refine ⟨⟨step_preserves_counting s e he.1 hs.1.1, htimed,
    step_durationConfigured s e hs.1.2.2⟩, ?_⟩
  obtain ⟨⟨hc, htm, hd⟩, hp⟩ := hs
  cases e with
  | start => exact progressShown_of_frame hp (by simp [step]) (by simp [step]) (by simp [step])
  | pause => exact progressShown_of_frame hp (by simp [step]) (by simp [step]) (by simp [step])
  | reset => exact (resetTimer_progress_zero s htm).2
  | keySpace =>
    simp only [step]
    split
    · exact progressShown_of_frame hp (by simp) (by simp) (by simp)
    · exact progressShown_of_frame hp (by simp) (by simp) (by simp)
  | tick today =>
    exact (tick_invariant
      (fun u => (Counting u ∧ u.settings.allTimed = true ∧ DurationConfigured u) ∧
        ProgressShown u) today
      (intervalCallback_progressShown today) s ⟨⟨hc, htm, hd⟩, hp⟩).2
  | completeSession today => exact (completeSession_progress_zero today s htm).2
  | applySettings w sb lb =>
    have ht2 : (saveSettings { s with settings :=
        { workDuration := w, shortBreakDuration := sb, longBreakDuration := lb } }).settings.allTimed
        = true := by
      simpa [saveSettings, Settings.allTimed, Event.timed] using he.2
    exact (resetTimer_progress_zero _ ht2).2
  | feedbackTimeout =>
    exact progressShown_of_frame hp (by simp [step]) (by simp [step]) (by simp [step])
  | closeModal =>
    exact progressShown_of_frame hp (by simp [step]) (by simp [step]) (by simp [step])
  | toggleDarkMode =>
    exact progressShown_of_frame hp (by simp [step]) (by simp [step]) (by simp [step])
  | firstClick =>
    exact progressShown_of_frame hp (by simp [step]) (by simp [step]) (by simp [step])

theorem startup_settings_timed (today : String) (page : State)
    (hpage : page.snapshotTimed = true) : (startup today page).settings.allTimed = true := by
  rw [startup_settings]
  unfold State.snapshotTimed at hpage
  split at hpage
  · exact hpage
  · decide

theorem startup_progressShown (today : String) (page : State)
    (hpage : page.snapshotTimed = true) : ProgressShown (startup today page) := by
  have htm := startup_settings_timed today page hpage
  have hset : (startup today page).settings =
      (loadStats today (loadSettings (construct page))).settings := by
    rw [startup_eq]; simp
  rw [startup_eq]
  exact progressShown_of_frame
    (resetTimer_progress_zero (loadStats today (loadSettings (construct page)))
      (by rw [← hset]; exact htm)).2
    (by simp) (by simp) (by simp)

/-- C19 (counterexample): 2^1020 is a positive integer, yet after that many
work minutes are applied on the fresh page `timeLeft` and `totalDuration` are
both `Infinity` (the product with 60 overflows) and the progress value
`(totalDuration - timeLeft) / totalDuration * 100` is `NaN`, not a number in
the range 0..100. -/
theorem progress_undefined_on_overflow :
    blankPage.snapshotPos = true ∧
    (∀ e ∈ [Event.applySettings (.num overflowMinutes) (.num 5) (.num 15)],
      e.positive = true) ∧
    (run (startup "d" blankPage)
      [.applySettings (.num overflowMinutes) (.num 5) (.num 15)]).timeLeft.isInfinite = true ∧
    (run (startup "d" blankPage)
      [.applySettings (.num overflowMinutes) (.num 5) (.num 15)]).totalDuration.isInfinite
        = true ∧
    progressPercent
      (run (startup "d" blankPage)
        [.applySettings (.num overflowMinutes) (.num 5) (.num 15)]).totalDuration
      (run (startup "d" blankPage)
        [.applySettings (.num overflowMinutes) (.num 5) (.num 15)]).timeLeft = none := by
  have hmul : (JSNum.num overflowMinutes).mul (.num 60) = .num doubleLimit := by
    rw [JSNum.mul_num, roundDouble_overflow _ (by decide)]
  have hrun : run (startup "d" blankPage)
      [.applySettings (.num overflowMinutes) (.num 5) (.num 15)] =
      applySettings (.num overflowMinutes) (.num 5) (.num 15) (startup "d" blankPage) := rfl
  have h1 : (run (startup "d" blankPage)
      [.applySettings (.num overflowMinutes) (.num 5) (.num 15)]).timeLeft
      = .num doubleLimit := by
    rw [hrun, (applySettings_frame _ _ _ _).2.2.2.1, hmul]
  have h2 : (run (startup "d" blankPage)
      [.applySettings (.num overflowMinutes) (.num 5) (.num 15)]).totalDuration
      = .num doubleLimit := by
    rw [hrun, (applySettings_frame _ _ _ _).2.2.2.2.1, hmul]
  rw [h1, h2]
  exact ⟨by decide, by decide, by decide, by decide, by decide⟩

/-- C19 (amended): in every state reached from startup under positive integer
settings whose seconds are finite (stored snapshot, if any, and every
`applySettings`: positive integers with a product `* 60` that does not
overflow), `timeLeft = t` and `totalDuration = T` are integers with `T ≠ 0`,
and the progress value that `updateProgress` computes and that is on display
is exactly the rational `(T - t) / T * 100`, which lies between 0 and 100;
and the displayed value is exactly 0 right after `resetTimer` and after every
mode transition (`switchMode`, `completeSession`). -/
theorem progress_between_0_and_100 (today : String) (page : State) (evs : List Event)
    (hpage : page.snapshotPos = true) (hpaget : page.snapshotTimed = true)
    (hevs : ∀ e ∈ evs, e.positive = true ∧ e.timed = true) :
    (∃ t T : Int,
      (run (startup today page) evs).timeLeft = .num t ∧
      (run (startup today page) evs).totalDuration = .num T ∧
      T ≠ 0 ∧
      (updateProgress (run (startup today page) evs)).progressFill
        = some (((T - t : Int) : ℚ) / (T : ℚ) * 100) ∧
      (run (startup today page) evs).progressFill
        = some (((T - t : Int) : ℚ) / (T : ℚ) * 100) ∧
      (0 : ℚ) ≤ ((T - t : Int) : ℚ) / (T : ℚ) * 100 ∧
      ((T - t : Int) : ℚ) / (T : ℚ) * 100 ≤ 100) ∧
    (resetTimer (run (startup today page) evs)).progressFill = some 0 ∧
    (switchMode (run (startup today page) evs)).progressFill = some 0 ∧
    (∀ d : String, (completeSession d (run (startup today page) evs)).progressFill = some 0) := by
  have hinv := run_invariant
    (fun u => (Counting u ∧ u.settings.allTimed = true ∧ DurationConfigured u) ∧
      ProgressShown u)
    (fun e => e.positive = true ∧ e.timed = true) step_progressShown evs
    (startup today page) hevs
    ⟨⟨startup_counting today page hpage, startup_settings_timed today page hpaget,
      startup_durationConfigured today page⟩, startup_progressShown today page hpaget⟩
  generalize run (startup today page) evs = s at hinv
  obtain ⟨⟨⟨hpos, t, T, ht, hT, h1, h2, hD⟩, htm, hd⟩, hshown⟩ := hinv
  obtain ⟨v1, v2, v3⟩ :=
    progressPercent_value t T h1 h2 hD (totalDuration_finite s htm hd T hT)
  refine ⟨⟨t, T, ht, hT, by omega, ?_, ?_, v2, v3⟩,
    (resetTimer_progress_zero s htm).1, (switchMode_progress_zero s htm).1,
    fun d => (completeSession_progress_zero d s htm).1⟩
  · exact updateProgress_valid s _ (by rw [ht, hT]; exact v1) v2
  · unfold ProgressShown at hshown
    rw [hshown, ht, hT, v1]

/-- Witness for C19 (amended): the fresh page, started and ticked twice, stands
at 1498 of 1500 seconds and shows the progress (1500 - 1498) / 1500 * 100; a
reset then shows progress 0. -/
theorem progress_between_0_and_100_witness :
    blankPage.snapshotPos = true ∧ blankPage.snapshotTimed = true ∧
    (∀ e ∈ [Event.start, .tick "a", .tick "a"], e.positive = true ∧ e.timed = true) ∧
    (run (startup "Fri Nov 06 2026" blankPage)
      [Event.start, .tick "a", .tick "a"]).progressFill
      = some (((1500 - 1498 : Int) : ℚ) / ((1500 : Int) : ℚ) * 100) ∧
    (resetTimer (run (startup "Fri Nov 06 2026" blankPage)
      [Event.start, .tick "a", .tick "a"])).progressFill = some 0 := by
  refine ⟨by decide, by decide, by decide, ?_,
    (progress_between_0_and_100 "Fri Nov 06 2026" blankPage [Event.start, .tick "a", .tick "a"]
      (by decide) (by decide) (by decide)).2.1⟩
  obtain ⟨⟨t, T, ht, hT, _, _, hfill, _⟩, _⟩ :=
    progress_between_0_and_100 "Fri Nov 06 2026" blankPage [Event.start, .tick "a", .tick "a"]
      (by decide) (by decide) (by decide)
  have h1 : (run (startup "Fri Nov 06 2026" blankPage)
      [Event.start, .tick "a", .tick "a"]).timeLeft = .num 1498 := by decide
  have h2 : (run (startup "Fri Nov 06 2026" blankPage)
      [Event.start, .tick "a", .tick "a"]).totalDuration = .num 1500 := by decide
  have e1 : t = 1498 := JSNum.num.inj (ht.symm.trans h1)
  have e2 : T = 1500 := JSNum.num.inj (hT.symm.trans h2)
  subst e1 e2
  exact hfill

/-! ## The displayed time -/

theorem padStart_two_eq_pad2 (n : Nat) : padStart (toString (n : Int)) 2 '0' = pad2 n := by
  have h : toString (n : Int) = Nat.repr n := rfl
  rw [h]
  unfold padStart pad2
  split
  · rfl
  · rename_i hlen
    have : 2 - (Nat.repr n).length = 0 := by omega
    rw [this]
    rfl

theorem renderTime_ofNat (n : Nat) (hn : n ≤ 9007199254740992) :
    renderTime (.num (n : Int)) = pad2 (n / 60) ++ ":" ++ pad2 (n % 60) := by
  have hdiv : Int.fdiv (n : Int) 60 = ((n / 60 : Nat) : Int) := by
    rw [Int.fdiv_eq_ediv _ (by decide : (0 : Int) ≤ 60)]; rfl
  have hmod : Int.tmod (n : Int) 60 = ((n % 60 : Nat) : Int) := by
    rw [Int.tmod_eq_emod (Int.ofNat_nonneg n) (by decide)]; rfl
  have hbig := doubleLimit_big
  have hfd : (JSNum.num (n : Int)).floorDiv60 = .num ((n / 60 : Nat) : Int) := by
    rw [JSNum.floorDiv60_num _ (by omega)]
    unfold floorDiv60Int
    rw [if_pos (by simpa using hn), hdiv]
  have hrm : (JSNum.num (n : Int)).rem60 = .num ((n % 60 : Nat) : Int) := by
    rw [JSNum.rem60_num _ (by omega), hmod]
  have hstr : ∀ k : Nat, k ≤ 9007199254740992 →
      (JSNum.num (k : Int)).toJSString = toString (k : Int) := by
    intro k hk
    show (if (k : Int).natAbs ≤ 9007199254740992 then toString (k : Int) else _) = _
    rw [if_pos (by simpa using hk)]
  have h60 : n / 60 ≤ 9007199254740992 := le_trans (Nat.div_le_self n 60) hn
  have hsec : n % 60 ≤ 9007199254740992 := by
    have := Nat.mod_lt n (by decide : 0 < 60); omega
  unfold renderTime
  rw [hfd, hrm, hstr _ h60, hstr _ hsec, padStart_two_eq_pad2, padStart_two_eq_pad2]

theorem pad2_two_digits : ∀ n : Fin 100, isTwoDigits (pad2 n.val) = true := by decide

theorem isTwoDigits_data (str : String) (h : isTwoDigits str = true) :
    ∃ a b, str.data = [a, b] ∧ a.isDigit = true ∧ b.isDigit = true := by
  unfold isTwoDigits at h
  split at h
  · rename_i a b hd
    simp only [Bool.and_eq_true] at h
    exact ⟨a, b, hd, h.1, h.2⟩
  · cases h

theorem toDigitsCore_length_ge (b : Nat) :
    ∀ (fuel n : Nat) (ds : List Char), ds.length ≤ (Nat.toDigitsCore b fuel n ds).length := by
  intro fuel
  induction fuel with
  | zero => intro n ds; simp [Nat.toDigitsCore]
  | succ k ih =>
    intro n ds
    simp only [Nat.toDigitsCore]
    split
    · simp
    · exact le_trans (by simp) (ih (n / b) (Nat.digitChar (n % b) :: ds))

theorem toDigitsCore_step (b fuel n : Nat) (ds : List Char) (h : n / b ≠ 0) :
    Nat.toDigitsCore b (fuel + 1) n ds =
      Nat.toDigitsCore b fuel (n / b) (Nat.digitChar (n % b) :: ds) := by
  simp only [Nat.toDigitsCore, h, if_false]

theorem toDigitsCore_length_gt (b fuel n : Nat) (ds : List Char) :
    ds.length + 1 ≤ (Nat.toDigitsCore b (fuel + 1) n ds).length := by
  simp only [Nat.toDigitsCore]
  split
  · simp
  · exact le_trans (by simp) (toDigitsCore_length_ge b fuel (n / b) _)

theorem repr_length_ge_three (n : Nat) (h : 100 ≤ n) : 3 ≤ (Nat.repr n).length := by
  obtain ⟨k, rfl⟩ : ∃ k, n = k + 3 := ⟨n - 3, by omega⟩
  have h1 : (k + 3) / 10 ≠ 0 := by omega
  have h2 : (k + 3) / 10 / 10 ≠ 0 := by omega
  have hlen : (Nat.repr (k + 3)).length = (Nat.toDigits 10 (k + 3)).length := rfl
  have hdig : Nat.toDigits 10 (k + 3) = Nat.toDigitsCore 10 (k + 3 + 1) (k + 3) [] := rfl
  rw [hlen, hdig, toDigitsCore_step 10 (k + 3) (k + 3) [] h1,
    toDigitsCore_step 10 (k + 2) ((k + 3) / 10) _ h2]
  exact toDigitsCore_length_gt 10 (k + 1) ((k + 3) / 10 / 10)
    [((k + 3) / 10 % 10).digitChar, ((k + 3) % 10).digitChar]

theorem pad2_length_of_large (n : Nat) (h : 100 ≤ n) : 3 ≤ (pad2 n).length := by
  have h3 := repr_length_ge_three n h
  unfold pad2
  rw [if_neg (by omega)]
  exact h3


theorem isTwoDigits_length (str : String) (h : isTwoDigits str = true) : str.length = 2 := by
  obtain ⟨a, b, hd, _, _⟩ := isTwoDigits_data str h
  rw [String.length, hd]; rfl

theorem pad2_small (n : Nat) (h : n < 100) : isTwoDigits (pad2 n) = true :=
  pad2_two_digits ⟨n, h⟩

theorem clock_length (a b : String) (hb : isTwoDigits b = true) :
    (a ++ ":" ++ b).length = a.length + 3 := by
  rw [String.length_append, String.length_append, isTwoDigits_length b hb]; rfl

theorem clock_form (a b : String) (ha : isTwoDigits a = true) (hb : isTwoDigits b = true) :
    isClock (a ++ ":" ++ b) = true := by
  obtain ⟨x, y, hxy, hx, hy⟩ := isTwoDigits_data a ha
  obtain ⟨z, w, hzw, hz, hw⟩ := isTwoDigits_data b hb
  unfold isClock
  simp only [String.data_append, hxy, hzw]
  simp [hx, hy, hz, hw]

/-- C18 (counterexample): for `timeLeft = 6000`, the 100 minutes that the
settings can configure, `updateDisplay` renders "100:00": six characters, not
of the form DD:DD; `applySettings` with work = 100 puts it on display. -/
theorem renderTime_hundred_minutes :
    (0 : Int) ≤ 6000 ∧
    (updateDisplay { freshState with timeLeft := .num 6000 }).timerDisplay = "100:00" ∧
    (updateDisplay { freshState with timeLeft := .num 6000 }).timerDisplay.length = 6 ∧
    isClock (updateDisplay { freshState with timeLeft := .num 6000 }).timerDisplay = false ∧
    (applySettings (.num 100) (.num 5) (.num 15) freshState).timerDisplay = "100:00" := by
  decide

/-- C18 (amended): for every `timeLeft = t` with `0 ≤ t ≤ 2^53`, the range in
which the double division and the numeral of a number are those of the
integer, `updateDisplay` renders `pad2 (t div 60) ++ ":" ++ pad2 (t mod 60)`,
where `pad2` left-pads the decimal numeral with the character 0 to at least two
characters; the seconds part is below 60 and always two digits; the text has
exactly five characters exactly when `t < 6000` (durations below 100 minutes),
and then it has the form DD:DD; from 6000 seconds on the minutes part has
three or more digits. -/
theorem updateDisplay_renders_mm_ss (s : State) (t : Int) (ht : 0 ≤ t)
    (hbound : t ≤ 9007199254740992) (hleft : s.timeLeft = .num t) :
    (updateDisplay s).timerDisplay = pad2 (t / 60).toNat ++ ":" ++ pad2 (t % 60).toNat ∧
    (t % 60).toNat < 60 ∧
    isTwoDigits (pad2 (t % 60).toNat) = true ∧
    ((updateDisplay s).timerDisplay.length = 5 ↔ t < 6000) ∧
    (t < 6000 → isClock (updateDisplay s).timerDisplay = true) ∧
    (6000 ≤ t → 3 ≤ (pad2 (t / 60).toNat).length) := by
  obtain ⟨n, rfl⟩ := Int.eq_ofNat_of_zero_le ht
  have hn : n ≤ 9007199254740992 := by omega
  have h1 : ((n : Int) / 60).toNat = n / 60 := by
    have : (n : Int) / 60 = ((n / 60 : Nat) : Int) := rfl
    rw [this, Int.toNat_ofNat]
  have h2 : ((n : Int) % 60).toNat = n % 60 := by
    have : (n : Int) % 60 = ((n % 60 : Nat) : Int) := rfl
    rw [this, Int.toNat_ofNat]
  have hsec : n % 60 < 60 := Nat.mod_lt _ (by decide)
  have hsec2 : isTwoDigits (pad2 (n % 60)) = true := pad2_small _ (by omega)
  rw [updateDisplay_timerDisplay, hleft, renderTime_ofNat n hn, h1, h2]
  have hlen := clock_length (pad2 (n / 60)) (pad2 (n % 60)) hsec2
  refine ⟨rfl, hsec, hsec2, ⟨fun h5 => ?_, fun hlt => ?_⟩, fun hlt => ?_, fun hge => ?_⟩
  · by_contra hcon
    have hbig : 100 ≤ n / 60 := by omega
    have := pad2_length_of_large (n / 60) hbig
    omega
  · have hmin : isTwoDigits (pad2 (n / 60)) = true := pad2_small _ (by omega)
    rw [hlen, isTwoDigits_length _ hmin]
  · exact clock_form _ _ (pad2_small _ (by omega)) hsec2
  · exact pad2_length_of_large (n / 60) (by omega)

/-- Witness for C18 (amended): the default 25 minutes render as "25:00". -/
theorem updateDisplay_renders_mm_ss_witness :
    (0 : Int) ≤ 1500 ∧ (1500 : Int) ≤ 9007199254740992 ∧ freshState.timeLeft = .num 1500 ∧
    (updateDisplay freshState).timerDisplay
      = pad2 ((1500 : Int) / 60).toNat ++ ":" ++ pad2 ((1500 : Int) % 60).toNat ∧
    isClock (updateDisplay freshState).timerDisplay = true :=
  ⟨by decide, by decide, by decide,
   (updateDisplay_renders_mm_ss freshState 1500 (by decide) (by decide) (by decide)).1,
   (updateDisplay_renders_mm_ss freshState 1500 (by decide) (by decide) (by decide)).2.2.2.2.1
     (by decide)⟩

/-! ## Worked instances for session completion and pause -/

/-- Witness for C13: completing the first work session of the fresh page
counts one session; completing the short break after it leaves the snapshot. -/
theorem completeSession_counts_work_only_witness :
    freshState.currentMode = .work ∧
    (getStats "d" (completeSession "d" freshState)).totalCompleted =
      (getStats "d" freshState).totalCompleted + 1 ∧
    (switchMode freshState).currentMode = .shortBreak ∧
    (completeSession "d" (switchMode freshState)).pomodoroStats
      = (switchMode freshState).pomodoroStats :=
  ⟨by decide,
   ((completeSession_counts_work_only "d" freshState).1 (by decide)).1,
   by decide,
   ((completeSession_counts_work_only "d" (switchMode freshState)).2.1
     (Or.inl (by decide))).1⟩

/-- Witness for C16: pausing the fresh page changes nothing; pausing it once
started stops it and keeps the 1500 seconds. -/
theorem pauseTimer_stops_and_keeps_time_witness :
    freshState.isRunning = false ∧ pauseTimer freshState = freshState ∧
    (startTimer freshState).isRunning = true ∧
    (pauseTimer (startTimer freshState)).isRunning = false ∧
    (pauseTimer (startTimer freshState)).timeLeft = (startTimer freshState).timeLeft :=
  ⟨by decide,
   (pauseTimer_stops_and_keeps_time freshState).1 (by decide),
   by decide,
   ((pauseTimer_stops_and_keeps_time (startTimer freshState)).2 (by decide)).1,
   ((pauseTimer_stops_and_keeps_time (startTimer freshState)).2 (by decide)).2.2.2.2.1⟩

end PomodoroTimer
